import Mathlib

/-!
# Building animals (rats): a shallow embedding of `building_animals.cpp`

The C++ `float`/`double` values are embedded as exact rationals (`ℚ`): every
statement below is about the exact-arithmetic reading of the source, and the
two library functions that have no rational counterpart (`sqrt`, `pow`) are
kept as parameters of the embedding (`math_t`).  State that the C++ code keeps
in references, globals and function statics is passed explicitly.  A failed
`assert` is the result `none`.
-/

namespace Rats

-- Evaluating the larger definitions in the interpreter is reliable only without the
-- constructor-reuse optimisation of the code generator.
set_option compiler.reuse false

/-! ## Vectors, points and cubes

The types `vector3d`, `point` and `cube_t` and their elementary operations are declared in
headers of the project (`3DWorld.h`); they are embedded here with the meaning their names
carry in `building_animals.cpp`. -/

/-- Modelled from the spec: a `vector3d` / `point`, three float components `x`, `y`, `z`. -/
structure vector3d where
  x : ℚ
  y : ℚ
  z : ℚ
deriving DecidableEq

/-- Modelled from the spec: `point` and `vector3d` name the same three-float type. -/
abbrev point := vector3d

/-- Modelled from the spec: the constant `zero_vector` (also `all_zeros`). -/
def zero_vector : vector3d := ⟨0, 0, 0⟩

/-- Modelled from the spec: the constant `plus_z`, the unit vector along z. -/
def plus_z : vector3d := ⟨0, 0, 1⟩

/-- Modelled from the spec: the component-wise sum `a + b` of two vectors. -/
def vector3d.add (a b : vector3d) : vector3d := ⟨a.x + b.x, a.y + b.y, a.z + b.z⟩

/-- Modelled from the spec: the component-wise difference `a - b` of two vectors. -/
def vector3d.sub (a b : vector3d) : vector3d := ⟨a.x - b.x, a.y - b.y, a.z - b.z⟩

/-- Modelled from the spec: the product `s*v` of a float and a vector. -/
def vector3d.scale (s : ℚ) (v : vector3d) : vector3d := ⟨s * v.x, s * v.y, s * v.z⟩

/-- Modelled from the spec: the vector after `v.negate()`. -/
def vector3d.negate (v : vector3d) : vector3d := ⟨-v.x, -v.y, -v.z⟩

/-- Modelled from the spec: the function `dot_product(a, b)`. -/
def dot_product (a b : vector3d) : ℚ := a.x * b.x + a.y * b.y + a.z * b.z

/-- Modelled from the spec: the function `cross_product(a, b)`. -/
def cross_product (a b : vector3d) : vector3d :=
  ⟨a.y * b.z - a.z * b.y, a.z * b.x - a.x * b.z, a.x * b.y - a.y * b.x⟩

/-- Modelled from the spec: the squared length of a vector, `mag_sq()`. -/
def vector3d.mag_sq (v : vector3d) : ℚ := v.x * v.x + v.y * v.y + v.z * v.z

/-- Modelled from the spec: the squared distance between two points, `p2p_dist_sq`. -/
def p2p_dist_sq (a b : point) : ℚ := (a.sub b).mag_sq

/-- Modelled from the spec: the squared distance between two points in the XY plane,
`p2p_dist_xy_sq`. -/
def p2p_dist_xy_sq (a b : point) : ℚ := (a.x - b.x) * (a.x - b.x) + (a.y - b.y) * (a.y - b.y)

/-- Modelled from the spec: `dist_less_than` is declared in a header of the project; it is
the test "the distance between the two points is below `dist`", which the library decides on
squared values, without a square root. -/
def dist_less_than (a b : point) (dist : ℚ) : Prop := p2p_dist_sq a b < dist * dist

instance (a b : point) (dist : ℚ) : Decidable (dist_less_than a b dist) :=
  inferInstanceAs (Decidable (p2p_dist_sq a b < dist * dist))

/-- Modelled from the spec: `dist_xy_less_than` is declared in a header of the project; the
horizontal counterpart of `dist_less_than`. -/
def dist_xy_less_than (a b : point) (dist : ℚ) : Prop := p2p_dist_xy_sq a b < dist * dist

instance (a b : point) (dist : ℚ) : Decidable (dist_xy_less_than a b dist) :=
  inferInstanceAs (Decidable (p2p_dist_xy_sq a b < dist * dist))

/-- The floating-point library functions and constant that the exact embedding cannot
compute: `sqrt`, `pow`, and the length `TOLERANCE` below which `get_norm` leaves a vector
as it is. -/
structure math_t where
  sqrtf : ℚ → ℚ
  powf : ℚ → ℚ → ℚ
  TOLERANCE : ℚ

/-- Modelled from the spec: the length of a vector, `v.mag()`. -/
def math_t.mag (m : math_t) (v : vector3d) : ℚ := m.sqrtf v.mag_sq

/-- Modelled from the spec: `vector3d::get_norm` is declared in a header of the project; it
is the normalized vector `v/|v|`, and a vector too short to be divided by its length (the
zero vector in particular, which the source tests for after every call) is returned
unchanged. -/
def math_t.get_norm (m : math_t) (v : vector3d) : vector3d :=
  if m.mag v < m.TOLERANCE ∨ m.mag v = 0 then v else ⟨v.x / m.mag v, v.y / m.mag v, v.z / m.mag v⟩

/-- Modelled from the spec: the distance between two points, `p2p_dist`. -/
def math_t.p2p_dist (m : math_t) (a b : point) : ℚ := m.sqrtf (p2p_dist_sq a b)

/-- Modelled from the spec: the distance between two points in the XY plane, `p2p_dist_xy`. -/
def math_t.p2p_dist_xy (m : math_t) (a b : point) : ℚ := m.sqrtf (p2p_dist_xy_sq a b)

/-- Modelled from the spec: a `cube_t`, the axis-aligned box `d[3][2]`. -/
structure cube_t where
  x1 : ℚ
  x2 : ℚ
  y1 : ℚ
  y2 : ℚ
  z1 : ℚ
  z2 : ℚ
deriving DecidableEq

/-- Modelled from the spec: the extent along x, `dx()`. -/
def cube_t.dx (c : cube_t) : ℚ := c.x2 - c.x1

/-- Modelled from the spec: the extent along y, `dy()`. -/
def cube_t.dy (c : cube_t) : ℚ := c.y2 - c.y1

/-- Modelled from the spec: the extent along z, `dz()`. -/
def cube_t.dz (c : cube_t) : ℚ := c.z2 - c.z1

/-- Modelled from the spec: the extent along a horizontal dimension (`false` is x, `true`
is y), `get_sz_dim(d)`. -/
def cube_t.get_sz_dim (c : cube_t) (d : Bool) : ℚ := if d then c.dy else c.dx

/-- Modelled from the spec: the cube grown by `v` on both sides of a horizontal dimension,
`expand_in_dim(d, v)`. -/
def cube_t.expand_in_dim (c : cube_t) (d : Bool) (v : ℚ) : cube_t :=
  if d then { c with y1 := c.y1 - v, y2 := c.y2 + v } else { c with x1 := c.x1 - v, x2 := c.x2 + v }

/-- Modelled from the spec: the cube grown by `v` on both sides of x and y,
`expand_by_xy(v)`. -/
def cube_t.expand_by_xy (c : cube_t) (v : ℚ) : cube_t :=
  { c with x1 := c.x1 - v, x2 := c.x2 + v, y1 := c.y1 - v, y2 := c.y2 + v }

/-- Modelled from the spec: the cube grown by `v` on all six sides, `expand_by(v)`. -/
def cube_t.expand_by (c : cube_t) (v : ℚ) : cube_t :=
  ⟨c.x1 - v, c.x2 + v, c.y1 - v, c.y2 + v, c.z1 - v, c.z2 + v⟩

/-- Modelled from the spec: the center point of a cube, `get_cube_center()`. -/
def cube_t.get_cube_center (c : cube_t) : point :=
  ⟨(c.x1 + c.x2) / 2, (c.y1 + c.y2) / 2, (c.z1 + c.z2) / 2⟩

/-- Modelled from the spec: closed containment of a point in x and y, `contains_pt_xy`. -/
def cube_t.contains_pt_xy (c : cube_t) (p : point) : Prop :=
  c.x1 ≤ p.x ∧ p.x ≤ c.x2 ∧ c.y1 ≤ p.y ∧ p.y ≤ c.y2

instance (c : cube_t) (p : point) : Decidable (c.contains_pt_xy p) :=
  inferInstanceAs (Decidable (c.x1 ≤ p.x ∧ p.x ≤ c.x2 ∧ c.y1 ≤ p.y ∧ p.y ≤ c.y2))

/-- Modelled from the spec: closed containment of a point, `contains_pt`. -/
def cube_t.contains_pt (c : cube_t) (p : point) : Prop :=
  c.contains_pt_xy p ∧ c.z1 ≤ p.z ∧ p.z ≤ c.z2

instance (c : cube_t) (p : point) : Decidable (c.contains_pt p) :=
  inferInstanceAs (Decidable (c.contains_pt_xy p ∧ c.z1 ≤ p.z ∧ p.z ≤ c.z2))

/-- Modelled from the spec: containment of a point in the cube grown by `e` in x and y,
`contains_pt_xy_exp`. -/
def cube_t.contains_pt_xy_exp (c : cube_t) (p : point) (e : ℚ) : Prop :=
  (c.expand_by_xy e).contains_pt_xy p

instance (c : cube_t) (p : point) (e : ℚ) : Decidable (c.contains_pt_xy_exp p e) :=
  inferInstanceAs (Decidable ((c.expand_by_xy e).contains_pt_xy p))

/-- Modelled from the spec: the degenerate cube `cube_t(p, p)`. -/
def cube_t.of_point (p : point) : cube_t := ⟨p.x, p.x, p.y, p.y, p.z, p.z⟩

/-! ## Agents and the population container -/

/-- Modelled from the spec: the per-agent record `rat_t` is declared in a header of the
project; its fields are the ones the constructor and the member functions of
`building_animals.cpp` read and write. -/
structure rat_t where
  pos : point
  last_pos : point
  dest : point
  fear_pos : point
  dir : vector3d
  radius : ℚ
  height : ℚ
  hwidth : ℚ
  speed : ℚ
  fear : ℚ
  anim_time : ℚ
  wake_time : ℚ
  dist_since_sleep : ℚ
  rat_id : Nat
  is_hiding : Bool
  near_player : Bool
  attacking : Bool
deriving DecidableEq

/-- Modelled from the spec: `rat_t::is_sleeping` is declared in a header of the project; the
"sleep until" timestamp is zero exactly when the agent is awake. -/
def rat_t.is_sleeping (r : rat_t) : Prop := r.wake_time > 0

instance (r : rat_t) : Decidable r.is_sleeping :=
  inferInstanceAs (Decidable (r.wake_time > 0))

/-- Modelled from the spec: `rat_t::get_hlength` is declared in a header of the project; the
half-length is the bounding radius (`add_rat` passes its `hlength` as the radius). -/
def rat_t.get_hlength (r : rat_t) : ℚ := r.radius

/-- Modelled from the spec: `rat_t::get_center` is declared in a header of the project; the
agent's center is its floor point raised by half its height ("use center zval, not floor
zval"). -/
def rat_t.get_center (r : rat_t) : point := ⟨r.pos.x, r.pos.y, r.pos.z + r.height / 2⟩

/-- The constructor `rat_t::rat_t(pos_, radius_, dir_)`; `sz` is the world-space size of
the rat model.  The two points the initializer list leaves out are default-constructed. -/
def rat_t.mk_rat (sz : vector3d) (pos_ : point) (radius_ : ℚ) (dir_ : vector3d) : rat_t :=
  { pos := pos_, last_pos := zero_vector, dest := pos_, fear_pos := zero_vector, dir := dir_
    radius := radius_
    height := 2 * radius_ * sz.z / max sz.x sz.y
    hwidth := radius_ * sz.y / sz.x
    speed := 0, fear := 0, anim_time := 0, wake_time := 0, dist_since_sleep := 0
    rat_id := 0, is_hiding := false, near_player := false, attacking := false }

/-- The member `rat_t::move(timestep)`; `tfticks` is the global clock. -/
def rat_t.move (m : math_t) (tfticks : ℚ) (timestep : ℚ) (r : rat_t) : rat_t :=
  let r1 : rat_t :=
    { r with anim_time := r.anim_time + m.p2p_dist_xy r.pos r.last_pos / r.radius
             last_pos := r.pos }
  if r1.is_sleeping then
    if tfticks > r1.wake_time then { r1 with wake_time := 0, speed := 0 } else r1
  else if r1.speed = 0 then { r1 with anim_time := 0 }
  else
    let dest_dir := m.get_norm (r1.dest.sub r1.pos)
    if dot_product dest_dir r1.dir > 3 / 4 then
      let move_dist := timestep * r1.speed
      { r1 with pos := r1.pos.add (vector3d.scale move_dist r1.dir)
                dist_since_sleep := r1.dist_since_sleep + move_dist }
    else r1

/-- Modelled from the spec: the container `vect_rat_t` is declared in a header of the
project; it holds the agents, the "has been populated" flag and the two cached aggregates. -/
structure vect_rat_t where
  rats : List rat_t
  placed : Bool
  max_radius : ℚ
  max_xmove : ℚ
deriving DecidableEq

/-- Modelled from the spec: the default-constructed container, empty, not yet populated,
with both aggregates 0. -/
def vect_rat_t.empty : vect_rat_t := ⟨[], false, 0, 0⟩

/-- The member `vect_rat_t::add(rat)`. -/
def vect_rat_t.add (v : vect_rat_t) (rat : rat_t) : vect_rat_t :=
  { v with rats := v.rats ++ [{ rat with rat_id := v.rats.length + 1 }]
           max_radius := max v.max_radius rat.radius }

/-- Modelled from the spec: the halving loop of the library function `std::lower_bound`,
over the x values of the agents: `first` and `count` delimit the part still searched;
`fuel` bounds the number of halvings. -/
def lower_bound_x (xs : List ℚ) (x : ℚ) : Nat → Nat → Nat → Nat
  | 0, first, _ => first
  | fuel + 1, first, count =>
    if count = 0 then first
    else
      let step := count / 2
      if xs.getD (first + step) 0 < x then lower_bound_x xs x fuel (first + step + 1) (count - (step + 1))
      else lower_bound_x xs x fuel first step

/-- Modelled from the spec: `vect_rat_t::get_first_rat_with_xv_gt` is declared in a header
of the project; it is the binary-search lower bound over the container in its x order: the
index of the first agent whose x is not below `x`, when the container is sorted. -/
def vect_rat_t.get_first_rat_with_xv_gt (v : vect_rat_t) (x : ℚ) : Nat :=
  lower_bound_x (v.rats.map fun r => r.pos.x) x v.rats.length 0 v.rats.length

/-! ## The building: constants, geometry queries and random numbers -/

/-- Modelled from the spec: the state of a `rand_gen_t`, its two seed words. -/
structure rand_gen_t where
  rseed1 : Nat
  rseed2 : Nat
deriving DecidableEq

/-- Modelled from the spec: the member `rand_gen_t::set_state(s1, s2)`, which stores its two
32-bit unsigned arguments as the seed words. -/
def rand_gen_t.set_state (s1 s2 : Nat) : rand_gen_t := ⟨s1 % 2 ^ 32, s2 % 2 ^ 32⟩

/-- The drawing functions of `rand_gen_t`, which are declared in a header of the project:
each takes the generator state and returns the value drawn and the next state. -/
structure rand_fns_t where
  rand : rand_gen_t → Nat × rand_gen_t
  rand_float : rand_gen_t → ℚ × rand_gen_t
  rand_uniform : rand_gen_t → ℚ → ℚ → ℚ × rand_gen_t
  rand_mix : rand_gen_t → rand_gen_t
  signed_rand_vector_xy : rand_gen_t → vector3d × rand_gen_t

/-- The object types that the functions of `building_animals.cpp` tell apart. -/
inductive room_object
  | TYPE_CLOSET | TYPE_BED | TYPE_DESK | TYPE_TABLE | TYPE_DRESSER | TYPE_NIGHTSTAND
  | TYPE_CHAIR | TYPE_BCASE | TYPE_KSINK | TYPE_COUCH | TYPE_BRSINK | TYPE_TOILET
  | TYPE_OTHER (code : Nat)
deriving DecidableEq

/-- Modelled from the spec: a `room_object_t`, its cube and the fields the rat code reads. -/
structure room_object_t where
  bc : cube_t
  type : room_object
  obj_id : Nat
  room_id : Int
  is_cube : Bool
  is_open : Bool
  is_small_closet : Bool
  dim : Bool
  dir : Bool
deriving DecidableEq

/-- Modelled from the spec: a `sphere_t`, center and radius. -/
structure sphere_t where
  pos : point
  radius : ℚ
deriving DecidableEq

/-- Events the rat code sends to the rest of the game. -/
inductive event_t
  | flush_sound (origin : point)
  | building_sound (origin : point) (volume : ℚ)
  | achievement_fishes
  | rat_squeak (at_pos : point)
  | squish_sound (at_pos : point)
  | player_damage (amount : ℚ)
  | achievement_rat_food
deriving DecidableEq

/-- What `building_animals.cpp` reads from the building, the global parameters and the
other modules: constants, geometry queries, the object lists and the per-frame inputs. -/
structure building_t where
  m : math_t
  rf : rand_fns_t
  /-- the macro `TICKS_PER_SECOND` -/
  TICKS_PER_SECOND : ℚ
  /-- the global clock `tfticks` -/
  tfticks : ℚ
  /-- the constant `RAT_FOV_DP`, the cosine of half the field of view -/
  RAT_FOV_DP : ℚ
  /-- the parameter `global_building_params.rat_speed` -/
  rat_speed : ℚ
  /-- the parameter `global_building_params.min_attack_rats` -/
  min_attack_rats : Nat
  /-- the product `CAMERA_RADIUS*global_building_params.player_coll_radius_scale` -/
  player_radius : ℚ
  /-- the size `get_model_world_space_size(OBJ_MODEL_RAT)` -/
  rat_model_size : vector3d
  get_window_vspace : ℚ
  get_trim_thickness : ℚ
  bcube : cube_t
  is_cube_contained_in_parts : cube_t → Bool
  get_zval_of_floor : point → ℚ → Option ℚ
  check_line_coll_expand : point → point → ℚ → ℚ → Bool
  check_and_handle_dynamic_obj_coll : point → ℚ → ℚ → point → Bool × point
  check_line_of_sight_large_objs : point → point → Bool
  get_room_containing_pt : point → Int
  /-- the placed objects `objs.begin() .. get_placed_objs_end()` -/
  placed_objs : List room_object_t
  /-- the range that `get_begin_end_room_objs_on_ground_floor(zval, b, e)` returns -/
  room_objs_on_ground_floor : ℚ → List room_object_t
  get_closet_wall_thickness : room_object_t → ℚ
  get_bed_frame : room_object_t → cube_t
  get_table_body : room_object_t → cube_t
  get_dresser_middle : room_object_t → cube_t
  get_chair_seat : room_object_t → cube_t
  get_bookcase_middle : room_object_t → cube_t
  get_dishwasher_for_ksink : room_object_t → Option cube_t
  /-- the cubes `get_ped_bcubes_for_building(ped_ix, .., 1)` -/
  get_ped_bcubes_for_building : Int → List cube_t
  camera_surf_collide : Bool
  in_building_gameplay_mode : Bool
  get_cur_frame_loudest_sound : sphere_t
  player_take_damage : ℚ → Bool
  /-- the pool of directions that `dir_gen_t::gen_dirs` fills -/
  dirs : Nat → vector3d
  /-- the integer value of an object type, as `c->type` converts in `c->type << 16` -/
  type_code : room_object → Nat
  /-- the parameters `global_building_params.num_rats_min` and `num_rats_max` -/
  num_rats_min : Nat
  num_rats_max : Nat
  /-- the parameters `global_building_params.rat_size_min` and `rat_size_max` -/
  rat_size_min : ℚ
  rat_size_max : ℚ
  mat_ix : Nat
  /-- the cubes of `interior->rooms` -/
  rooms : List cube_t
  ground_floor_z1 : ℚ
  get_wall_thickness : ℚ
  get_fc_thickness : ℚ
  gen_xy_pos_in_area : cube_t → ℚ → rand_gen_t → point × rand_gen_t
  is_valid_ai_placement : point → ℚ → Bool
  /-- the global flag `animate2` -/
  animate2 : Bool
  is_rotated : Bool
  has_room_geom : Bool
  /-- the answer of `building_obj_model_loader.is_model_valid(OBJ_MODEL_RAT)` -/
  rat_model_valid : Bool
  /-- the global `fticks`, the length of the frame in ticks -/
  fticks : ℚ
  /-- the global `frame_counter` -/
  frame_counter : Nat

/-- The constant `RAT_VIEW_FLOORS`. -/
def RAT_VIEW_FLOORS : ℚ := 4

/-- The constant `RAT_FEAR_SPEED`. -/
def RAT_FEAR_SPEED : ℚ := 13 / 10

/-- The constant `RAT_ATTACK_SPEED`. -/
def RAT_ATTACK_SPEED : ℚ := 12 / 10

/-- The function `building_t::is_rat_inside_building`. -/
def building_t.is_rat_inside_building (b : building_t) (pos : point) (xy_pad hheight : ℚ) : Bool :=
  if ¬ b.bcube.contains_pt_xy_exp pos (-xy_pad) then false
  else
    let req_area := (cube_t.of_point pos).expand_by_xy xy_pad
    b.is_cube_contained_in_parts { req_area with z2 := req_area.z2 + hheight }

/-! ## The threat accumulator -/

/-- Lines 530-535 of `scare_rat_at_pos`: the local `fear`, the contribution of a threat at
`scare_pos` of strength `amount`. -/
def building_t.scare_fear (b : building_t) (rat : rat_t) (scare_pos : point) (amount : ℚ) : ℚ :=
  let pos := rat.get_center
  let scare_room := b.get_room_containing_pt scare_pos
  let rat_room := b.get_room_containing_pt pos
  let amount1 := if rat_room ≠ scare_room then amount * (67 / 100) else amount
  let max_scare_dist := RAT_VIEW_FLOORS * b.get_window_vspace
  let scare_dist := max_scare_dist * min amount1 1
  (scare_dist - b.m.p2p_dist pos scare_pos) / max_scare_dist

/-- The function `building_t::scare_rat_at_pos`. -/
def building_t.scare_rat_at_pos (b : building_t) (rat : rat_t) (scare_pos : point) (amount : ℚ)
    (by_sight : Bool) : Option rat_t :=
  if ¬ (amount > 0) then none
  else if |rat.pos.z - scare_pos.z| > b.get_window_vspace then some rat
  else if rat.fear > 99 / 100 ∧ dist_less_than rat.fear_pos scare_pos rat.radius then some rat
  else
    let fear := b.scare_fear rat scare_pos amount
    if fear ≤ 0 then some rat
    else if by_sight = true ∧ b.check_line_of_sight_large_objs rat.get_center scare_pos = false then
      some rat
    else some { rat with fear := min 1 (rat.fear + fear), fear_pos := scare_pos }

/-- The loop of `scare_rat` over the cubes of the other people in the building. -/
def building_t.scare_rat_peds (b : building_t) : List cube_t → rat_t → Option rat_t
  | [], rat => some rat
  | c :: cs, rat =>
    (b.scare_rat_at_pos rat ⟨(c.x1 + c.x2) / 2, (c.y1 + c.y2) / 2, c.z1⟩ (1 / 2) true).bind
      (b.scare_rat_peds cs)

/-- The function `building_t::scare_rat`. -/
def building_t.scare_rat (b : building_t) (rat : rat_t) (camera_bs : point) (ped_ix : Int) :
    Option rat_t :=
  let ped_bcubes := if ped_ix ≥ 0 then b.get_ped_bcubes_for_building ped_ix else []
  (b.scare_rat_peds ped_bcubes rat).bind fun rat1 =>
  let rat2 : rat_t := { rat1 with near_player := false }
  let rat4 : Option rat_t :=
    if b.camera_surf_collide = true then
      let rat3 : rat_t :=
        if b.min_attack_rats > 0 ∧ b.in_building_gameplay_mode = true
            ∧ |rat2.pos.z - camera_bs.z| < b.get_window_vspace
            ∧ dist_less_than rat2.pos camera_bs (RAT_VIEW_FLOORS * b.get_window_vspace)
            ∧ b.check_line_of_sight_large_objs rat2.pos camera_bs = true
        then { rat2 with near_player := true } else rat2
      b.scare_rat_at_pos rat3 camera_bs (1 / 2) true
    else some rat2
  rat4.bind fun rat5 =>
  let cur_sound := b.get_cur_frame_loudest_sound
  if cur_sound.radius > 0 then b.scare_rat_at_pos rat5 cur_sound.pos (4 * cur_sound.radius) false
  else some rat5

/-- A finite sequence of `scare_rat_at_pos` calls on one agent, each given by its threat
position, amount and sight flag. -/
def building_t.scare_calls (b : building_t) : List (point × ℚ × Bool) → rat_t → Option rat_t
  | [], rat => some rat
  | c :: cs, rat => (b.scare_rat_at_pos rat c.1 c.2.1 c.2.2).bind (b.scare_calls cs)

/-! ## Introducing one agent -/

/-- The toilet search of `add_rat`: the first placed toilet that contains `test_pos` and is
in the room `placed_from` lies in. -/
def building_t.find_toilet (b : building_t) (test_pos placed_from : point) : Option room_object_t :=
  b.placed_objs.find? fun i =>
    decide (i.type = room_object.TYPE_TOILET ∧ i.bc.contains_pt test_pos
      ∧ i.room_id = b.get_room_containing_pt placed_from)

/-- The function `building_t::add_rat`: the returned flag, the container
`interior->room_geom->rats` after the call and the events sent. -/
def building_t.add_rat (b : building_t) (rats : vect_rat_t) (pos : point) (hlength : ℚ)
    (dir : vector3d) (placed_from : point) : Bool × vect_rat_t × List event_t :=
  match b.get_zval_of_floor pos hlength with
  | none => (false, rats, [])
  | some z =>
    let rat_pos : point := ⟨pos.x, pos.y, z⟩
    let rat := rat_t.mk_rat b.rat_model_size rat_pos hlength (b.m.get_norm ⟨dir.x, dir.y, 0⟩)
    if b.check_line_coll_expand pos rat_pos hlength rat.height = true then
      let test_pos := rat_pos.add ⟨0, 0, rat.height⟩
      match b.find_toilet test_pos placed_from with
      | some i =>
        let sound_origin := i.bc.get_cube_center
        (true, rats, [event_t.flush_sound sound_origin, event_t.building_sound sound_origin (1 / 2),
          event_t.achievement_fishes])
      | none => (false, rats, [])
    else
      (true, rats.add { rat with fear_pos := placed_from, fear := 1 }, [])

/-! ## Populating a building -/

/-- The function `building_t::gen_rat_pos`: `tries` more tries of its loop. -/
def building_t.gen_rat_pos (b : building_t) (radius : ℚ) : Nat → rand_gen_t → point × rand_gen_t
  | 0, rgen => (zero_vector, rgen)
  | tries + 1, rgen =>
    let d := b.rf.rand rgen
    let room := b.rooms.getD (d.1 % b.rooms.length) ⟨0, 0, 0, 0, 0, 0⟩
    if room.z1 > b.ground_floor_z1 then b.gen_rat_pos radius tries d.2
    else
      let place_area := room.expand_by_xy (-(radius + b.get_wall_thickness))
      let g := b.gen_xy_pos_in_area place_area radius d.2
      let pos : point := ⟨g.1.x, g.1.y, place_area.z1 + b.get_fc_thickness⟩
      if b.is_valid_ai_placement pos radius = true then (pos, g.2)
      else b.gen_rat_pos radius tries g.2

/-- The loop of lines 125-132 of `update_animals`: `n` more agents are tried. -/
def building_t.place_rats (b : building_t) : Nat → rand_gen_t → vect_rat_t → vect_rat_t
  | 0, _, rats => rats
  | n + 1, rgen, rats =>
    let s : ℚ × rand_gen_t :=
      if b.rat_size_min ≥ b.rat_size_max then (b.rat_size_min, rgen)
      else b.rf.rand_uniform rgen b.rat_size_min b.rat_size_max
    let radius := (1 / 2) * b.get_window_vspace * s.1
    let g := b.gen_rat_pos radius 100 s.2
    if g.1 = zero_vector then b.place_rats n g.2 rats
    else
      let v := b.rf.signed_rand_vector_xy g.2
      b.place_rats n v.2 (rats.add (rat_t.mk_rat b.rat_model_size g.1 radius (b.m.get_norm v.1)))

/-- Line 122 of `update_animals`: the divisor `rmax - rmin + 1` of the count, in 32-bit
unsigned arithmetic. -/
def building_t.num_rats_modulus (b : building_t) : Nat :=
  (b.num_rats_max % 2 ^ 32 + (2 ^ 32 - b.num_rats_min % 2 ^ 32) + 1) % 2 ^ 32

/-- Line 122 of `update_animals`: the count `num` of agents to place, in 32-bit unsigned
arithmetic, for the value `draw` of `rgen.rand()`.  For a divisor 0 the C++ remainder is
undefined; `count_traps` tells when that happens. -/
def building_t.num_rats (b : building_t) (draw : Nat) : Nat :=
  let rmin := b.num_rats_min % 2 ^ 32
  let rmax := b.num_rats_max % 2 ^ 32
  if rmin = rmax then rmin else (rmin + (draw % 2 ^ 32) % b.num_rats_modulus) % 2 ^ 32

/-- The remainder of line 122 is taken by zero: the container is not yet populated, the
bounds differ, and `rmax - rmin + 1` is 0 in 32-bit arithmetic. -/
def building_t.count_traps (b : building_t) (rats : vect_rat_t) : Bool :=
  decide (rats.placed = false ∧ b.num_rats_min % 2 ^ 32 ≠ b.num_rats_max % 2 ^ 32
    ∧ b.num_rats_modulus = 0)

/-- Lines 116-134 of `update_animals`: the first placement of the rats of a building, with
the count drawn in 32-bit unsigned arithmetic. -/
def building_t.bootstrap (b : building_t) (building_ix : Nat) (rats : vect_rat_t) : vect_rat_t :=
  let rgen := rand_gen_t.set_state (building_ix + 1) (b.mat_ix + 1)
  let rmin := b.num_rats_min % 2 ^ 32
  let rmax := b.num_rats_max % 2 ^ 32
  let d := b.rf.rand rgen
  let num := b.num_rats d.1
  let rgen := if rmin = rmax then rgen else d.2
  { b.place_rats num rgen rats with placed := true }

/-! ## Hiding spots -/

/-- The function `can_hide_under(c, hide_area)`: the hide area when the object offers one.
The cubes of an object (bed frame, table body, ...) come from helpers of other modules,
which the building record provides. -/
def building_t.can_hide_under (b : building_t) (c : room_object_t) : Option cube_t :=
  if c.type = room_object.TYPE_CLOSET ∧ c.is_open = true ∧ c.is_small_closet = true then
    let hide_area := c.bc.expand_by (-(b.get_closet_wall_thickness c))
    some { hide_area with z1 := hide_area.z1 + (1 / 2) * hide_area.dz }
  else if c.type = room_object.TYPE_BED then some (b.get_bed_frame c)
  else if c.type = room_object.TYPE_DESK ∨ c.type = room_object.TYPE_TABLE then
    some (b.get_table_body c)
  else if c.type = room_object.TYPE_DRESSER ∨ c.type = room_object.TYPE_NIGHTSTAND then
    some (b.get_dresser_middle c)
  else if c.type = room_object.TYPE_CHAIR then some (b.get_chair_seat c)
  else if c.type = room_object.TYPE_BCASE then some (b.get_bookcase_middle c)
  else if c.type = room_object.TYPE_KSINK ∧ (b.get_dishwasher_for_ksink c).isSome = true then
    match b.get_dishwasher_for_ksink c with
    | none => none
    | some dishwasher =>
      -- hide_area.d[c.dim][!c.dir] = c.d[c.dim][!c.dir]
      some (match c.dim, c.dir with
        | false, false => { dishwasher with x2 := c.bc.x2 }
        | false, true => { dishwasher with x1 := c.bc.x1 }
        | true, false => { dishwasher with y2 := c.bc.y2 }
        | true, true => { dishwasher with y1 := c.bc.y1 })
  else if c.type = room_object.TYPE_COUCH then
    some { c.bc with z1 := c.bc.z1 + (6 / 100) * c.bc.dz }
  else if c.type = room_object.TYPE_BRSINK then some c.bc
  else none

/-! ## The per-agent update -/

/-- The constants that `update_rat` computes on entry from the agent and the timestep. -/
structure rat_consts_t where
  floor_spacing : ℚ
  view_dist : ℚ
  hlength : ℚ
  hwidth : ℚ
  height : ℚ
  hheight : ℚ
  squish_hheight : ℚ
  coll_radius : ℚ
  line_project_dist : ℚ
  dist_thresh : ℚ
  xy_pad : ℚ
  center_dz : vector3d

/-- The first lines of `update_rat` (its `float const` declarations). -/
def building_t.rat_consts (b : building_t) (rat : rat_t) (timestep : ℚ) : rat_consts_t :=
  let hheight := (1 / 2) * rat.height
  let coll_radius := (12 / 10) * rat.hwidth
  { floor_spacing := b.get_window_vspace
    view_dist := RAT_VIEW_FLOORS * b.get_window_vspace
    hlength := rat.get_hlength
    hwidth := rat.hwidth
    height := rat.height
    hheight := hheight
    squish_hheight := (3 / 4) * hheight
    coll_radius := coll_radius
    line_project_dist := max ((11 / 10) * (rat.get_hlength - coll_radius)) 0
    dist_thresh := 2 * timestep * max rat.speed b.rat_speed
    xy_pad := rat.get_hlength + b.get_trim_thickness
    center_dz := ⟨0, 0, hheight⟩ }

/-- The variables of one `update_rat` call: the agent, the arguments passed by reference,
the globals and function statics it writes, the events it has sent, and its locals. -/
structure update_state_t where
  rat : rat_t
  max_xmove : ℚ
  rgen : rand_gen_t
  global_rgen : rand_gen_t
  dir_ix : Nat
  last_sound_time : ℚ
  events : List event_t
  collided : Bool
  update_path : Bool
  coll_dir : vector3d
  has_fear_dest : Bool
  dir_to_fear : vector3d

/-- The member `rat_t::sleep_for(time_secs_min, time_secs_max)`, which draws from the global
random generator. -/
def building_t.sleep_for (b : building_t) (st : update_state_t) (time_secs_min time_secs_max : ℚ) :
    update_state_t :=
  let d := b.rf.rand_uniform st.global_rgen time_secs_min time_secs_max
  { st with rat := { st.rat with wake_time := b.tfticks + d.1 * b.TICKS_PER_SECOND }
            global_rgen := d.2 }

/-- Lines 276-300 of `update_rat`: the dynamic-object collision step. -/
def building_t.update_rat_collision (b : building_t) (k : rat_consts_t) (camera_bs : point)
    (st : update_state_t) : update_state_t :=
  let prev_pos := st.rat.pos
  let st := { st with rgen := b.rf.rand_mix st.rgen }
  if st.rat.is_sleeping ∧ st.rat.fear = 0 then st
  else
    let res := b.check_and_handle_dynamic_obj_coll st.rat.pos st.rat.radius k.height camera_bs
    let st := { st with rat := { st.rat with pos := res.2 } }
    if res.1 = true then
      let st := { st with collided := true, coll_dir := b.m.get_norm (prev_pos.sub st.rat.pos) }
      if b.is_rat_inside_building st.rat.pos k.xy_pad k.hheight = false then
        b.sleep_for { st with rat := { st.rat with pos := prev_pos } } (1 / 10) (2 / 10)
      else if b.check_line_coll_expand (st.rat.pos.add k.center_dz) (st.rat.dest.add k.center_dz)
          k.coll_radius k.squish_hheight = true then
        { st with rat := { st.rat with pos := prev_pos } }
      else
        let d := b.rf.rand st.rgen
        { st with max_xmove := max st.max_xmove |st.rat.pos.x - prev_pos.x|
                  update_path := decide (d.1 % 30 = 0)
                  rgen := d.2 }
    else st

/-- Lines 305-308 of `update_rat`: the threat calls and the attack flag. -/
def building_t.update_rat_scare (b : building_t) (camera_bs : point) (ped_ix : Int)
    (can_attack_player : Bool) (st : update_state_t) : Option update_state_t :=
  (b.scare_rat st.rat camera_bs ped_ix).map fun rat1 =>
    let attacking := rat1.near_player && can_attack_player
    { st with rat := { rat1 with attacking := attacking
                                 fear := if attacking = true then 0 else rat1.fear } }

/-- Lines 312-339 of `update_rat`: the destination of an attacking agent. -/
def building_t.update_rat_attack (b : building_t) (k : rat_consts_t) (camera_bs : point) (p1 : point)
    (st : update_state_t) : update_state_t :=
  if st.rat.attacking = true then
    let min_dist := b.player_radius + k.hlength
    let target0 : point := ⟨camera_bs.x, camera_bs.y, st.rat.pos.z⟩
    let vdir := b.m.get_norm (target0.sub st.rat.pos)
    let target := target0.sub (vector3d.scale ((101 / 100) * min_dist) vdir)
    if b.is_rat_inside_building target k.xy_pad k.hheight = true then
      let p1_ext := p1.add (vector3d.scale k.coll_radius vdir)
      if b.check_line_coll_expand p1_ext target k.coll_radius k.squish_hheight = false then
        let st := { st with rat := { st.rat with dest := target
                                                 speed := RAT_ATTACK_SPEED * b.rat_speed
                                                 wake_time := 0 }
                            update_path := false }
        if dist_xy_less_than st.rat.pos target ((1 / 20) * min_dist) then
          let st :=
            if b.tfticks - st.last_sound_time > (4 / 10) * b.TICKS_PER_SECOND then
              let d := b.rf.rand_float st.rgen
              { st with events := st.events ++ [event_t.squish_sound st.rat.pos]
                        last_sound_time := b.tfticks + (2 / 10) * b.TICKS_PER_SECOND * d.1
                        rgen := d.2 }
            else st
          let st := { st with events := st.events ++ [event_t.player_damage (4 / 1000)] }
          if b.player_take_damage (4 / 1000) = true then
            { st with events := st.events ++ [event_t.achievement_rat_food] }
          else st
        else st
      else st
    else st
  else st

/-- A full linear scan of the population for the candidate `cand_dest`: the first agent,
other than the one being updated, whose horizontal distance to the candidate is below
`0.8 * (own radius + other radius)`.  This is the reference the binary-search-limited scan
`find_conflict` is compared with; it has no range limit. -/
def full_scan_conflict (self_ix : Nat) (own_radius : ℚ) (cand_dest : point) :
    List rat_t → Nat → Option rat_t
  | [], _ => none
  | r :: rs, ix =>
    if ix ≠ self_ix ∧ dist_xy_less_than cand_dest r.pos ((8 / 10) * (own_radius + r.radius)) then some r
    else full_scan_conflict self_ix own_radius cand_dest rs (ix + 1)

/-- The agents of a container are in ascending order of x, as right after the sort of a
tick. -/
def sorted_by_x (l : List rat_t) : Prop := l.Pairwise fun a b => a.pos.x ≤ b.pos.x

/-- The variables of the neighbor loop of the hiding search (lines 388-410). -/
structure nudge_state_t where
  cand_dest : point
  side_cov : ℚ
  score : ℚ
  tot_mdist : ℚ
  skip : Bool
deriving DecidableEq

/-- One scan of the `for r` loop of lines 395-399 over the agents from index `ix` on: the
first agent, other than the one being updated, that lies within the separation distance of
the candidate; `none` when the scan reaches an agent beyond `coll_x2` or the end. -/
def find_conflict (self_ix : Nat) (own_radius coll_x2 : ℚ) (cand_dest : point) :
    List rat_t → Nat → Option rat_t
  | [], _ => none
  | r :: rs, ix =>
    if r.pos.x > coll_x2 then none
    else if ix = self_ix then find_conflict self_ix own_radius coll_x2 cand_dest rs (ix + 1)
    else if ¬ dist_xy_less_than cand_dest r.pos ((8 / 10) * (own_radius + r.radius)) then
      find_conflict self_ix own_radius coll_x2 cand_dest rs (ix + 1)
    else some r

/-- Lines 400-406 of `update_rat`: the candidate is moved because of the agent `r` and its
score is recomputed. -/
def building_t.nudge (b : building_t) (k : rat_consts_t) (rat : rat_t) (p1 : point)
    (top_gap dist_to_fear dist : ℚ) (r : rat_t) (ns : nudge_state_t) : nudge_state_t :=
  let r_sum := (8 / 10) * (rat.radius + r.radius)
  let move_dist := (101 / 100) * r_sum - b.m.p2p_dist_xy ns.cand_dest r.pos
  let cand_dest := ns.cand_dest.add (vector3d.scale move_dist (b.m.get_norm (p1.sub ns.cand_dest)))
  let side_cov := ns.side_cov - move_dist
  let score := 4 * side_cov - (1 / 2) * top_gap + (1 / 4) * dist_to_fear
    - (1 / 10) * max dist k.dist_thresh - (2 / 10) * dist - 2 * move_dist
  { cand_dest := cand_dest, side_cov := side_cov, score := score
    tot_mdist := ns.tot_mdist + move_dist, skip := false }

/-- The neighbor loop of lines 395-410: scan from `start`, and after every nudge scan again
from `start`.  `fuel` bounds the number of nudges; `none` when it does not suffice. -/
def building_t.nudge_loop (b : building_t) (k : rat_consts_t) (rat : rat_t) (p1 : point)
    (hide_area : cube_t) (top_gap dist_to_fear dist best_score : ℚ) (self_ix : Nat)
    (from_start : List rat_t) (start : Nat) (coll_x2 : ℚ) : Nat → nudge_state_t → Option nudge_state_t
  | 0, ns =>
    match find_conflict self_ix rat.radius coll_x2 ns.cand_dest from_start start with
    | none => some ns
    | some _ => none
  | fuel + 1, ns =>
    match find_conflict self_ix rat.radius coll_x2 ns.cand_dest from_start start with
    | none => some ns
    | some r =>
      let ns1 := b.nudge k rat p1 top_gap dist_to_fear dist r ns
      if ns1.tot_mdist > 4 * rat.radius ∨ ¬ hide_area.contains_pt_xy ns1.cand_dest then
        some { ns1 with skip := true }
      else if best_score ≠ 0 ∧ ns1.score ≤ best_score then some { ns1 with skip := true }
      else b.nudge_loop k rat p1 hide_area top_gap dist_to_fear dist best_score self_ix
        from_start start coll_x2 fuel ns1

/-- Lines 388-410 of `update_rat`: the conflict resolution of one candidate against the
agents of the container `rats`, in which the agent being updated has index `self_ix`. -/
def building_t.resolve_conflicts (b : building_t) (k : rat_consts_t) (rats : vect_rat_t)
    (self_ix : Nat) (rat : rat_t) (p1 : point) (hide_area : cube_t)
    (top_gap dist_to_fear dist best_score : ℚ) (fuel : Nat) (cand_dest : point) (side_cov score : ℚ) :
    Option nudge_state_t :=
  let rsum_max := (8 / 10) * (rat.radius + rats.max_radius) + rats.max_xmove
  let coll_x1 := cand_dest.x - rsum_max
  let coll_x2 := cand_dest.x + rsum_max
  let start := rats.get_first_rat_with_xv_gt coll_x1
  b.nudge_loop k rat p1 hide_area top_gap dist_to_fear dist best_score self_ix
    (rats.rats.drop start) start coll_x2 fuel
    { cand_dest := cand_dest, side_cov := side_cov, score := score, tot_mdist := 0, skip := false }

/-- The variables that the loop over the hiding objects (lines 353-416) writes. -/
structure hide_state_t where
  best_dest : point
  best_score : ℚ
  has_fear_dest : Bool
  update_path : Bool
  speed : ℚ
deriving DecidableEq

/-- Lines 364-374 of `update_rat`: the anchor of an agent under a hide area, drawn from a
generator seeded with the agent and the object. -/
def building_t.hide_anchor (b : building_t) (k : rat_consts_t) (rat_id : Nat) (c : room_object_t)
    (hide_area : cube_t) (p1z : ℚ) : point :=
  let my_rgen := rand_gen_t.set_state (rat_id + 1) (c.obj_id + b.type_code c.type * 2 ^ 16 + 1)
  let safe0 := hide_area.expand_in_dim false (-(min ((15 / 10) * k.hlength) ((49 / 100) * hide_area.get_sz_dim false)))
  let dx := b.rf.rand_uniform my_rgen safe0.x1 safe0.x2
  let safe1 := safe0.expand_in_dim true (-(min ((15 / 10) * k.hlength) ((49 / 100) * safe0.get_sz_dim true)))
  let dy := b.rf.rand_uniform dx.2 safe1.y1 safe1.y2
  ⟨dx.1, dy.1, p1z⟩

/-- The body of the loop over the hiding objects (lines 354-415) for the object `c`: the
variables after the iteration and whether the loop is left (`break`); `none` when the
neighbor loop runs out of fuel. -/
def building_t.hide_step (b : building_t) (k : rat_consts_t) (rats : vect_rat_t) (self_ix : Nat)
    (rat : rat_t) (p1 : point) (fuel : Nat) (c : room_object_t) (hs : hide_state_t) :
    Option (hide_state_t × Bool) :=
  let rat_z1 := rat.pos.z
  let rat_z2 := rat.pos.z + k.height
  let rat_squish_z2 := p1.z + k.squish_hheight
  if c.bc.z1 > rat_z2 ∨ c.bc.z2 < rat_z1 then some (hs, false)
  else if c.is_cube = false then some (hs, false)
  else
    match b.can_hide_under c with
    | none => some (hs, false)
    | some hide_area =>
      let top_gap := hide_area.z1 - rat_squish_z2
      if top_gap < 0 then some (hs, false)
      else if ¬ dist_xy_less_than hide_area.get_cube_center p1 k.view_dist then some (hs, false)
      else
        let cand_dest := b.hide_anchor k rat.rat_id c hide_area p1.z
        let dist := b.m.p2p_dist p1 cand_dest
        if dist < k.dist_thresh then
          if b.check_line_coll_expand p1 cand_dest k.coll_radius k.squish_hheight = true then
            some ({ hs with update_path := true }, false)
          else some ({ hs with has_fear_dest := true, speed := 0 }, true)
        else
          let side_cov := (1 / 2) * min hide_area.dx hide_area.dy - k.hlength
          let dist_to_fear := b.m.p2p_dist rat.fear_pos cand_dest
          let score := side_cov - (1 / 2) * top_gap + (2 / 10) * dist_to_fear
            - (1 / 10) * max dist k.dist_thresh
          if hs.best_score ≠ 0 ∧ score ≤ hs.best_score then some (hs, false)
          else if b.check_line_coll_expand p1 cand_dest k.coll_radius k.squish_hheight = true then
            some (hs, false)
          else
            (b.resolve_conflicts k rats self_ix rat p1 hide_area top_gap dist_to_fear dist
              hs.best_score fuel cand_dest side_cov score).map fun ns =>
              if ns.skip = true then (hs, false)
              else if ns.tot_mdist > 0
                  ∧ b.is_rat_inside_building ns.cand_dest k.xy_pad k.hheight = false then (hs, false)
              else
                ({ hs with best_dest := ⟨ns.cand_dest.x, ns.cand_dest.y, rat.pos.z⟩
                           best_score := ns.score },
                  decide (ns.cand_dest.x = rat.dest.x ∧ ns.cand_dest.y = rat.dest.y))

/-- The loop over the hiding objects (lines 353-416). -/
def building_t.hide_loop (b : building_t) (k : rat_consts_t) (rats : vect_rat_t) (self_ix : Nat)
    (rat : rat_t) (p1 : point) (fuel : Nat) : List room_object_t → hide_state_t → Option hide_state_t
  | [], hs => some hs
  | c :: cs, hs =>
    match b.hide_step k rats self_ix rat p1 fuel c hs with
    | none => none
    | some (hs1, true) => some hs1
    | some (hs1, false) => b.hide_loop k rats self_ix rat p1 fuel cs hs1

/-- Lines 340-425 of `update_rat`: the search for a hiding spot and the decay of fear, run
when the agent is scared.  `rats` is the container and `self_ix` the index of the agent in
it. -/
def building_t.update_rat_hide (b : building_t) (k : rat_consts_t) (rats : vect_rat_t) (self_ix : Nat)
    (p1 : point) (timestep : ℚ) (fuel : Nat) (st : update_state_t) : Option update_state_t :=
  let to_fear := st.rat.fear_pos.sub st.rat.pos
  let dir_to_fear := b.m.get_norm ⟨to_fear.x, to_fear.y, 0⟩
  let rat : rat_t := { st.rat with wake_time := 0 }
  let view : vect_rat_t := { rats with rats := rats.rats.set self_ix rat, max_xmove := st.max_xmove }
  let hs0 : hide_state_t :=
    { best_dest := zero_vector, best_score := 0, has_fear_dest := st.has_fear_dest
      update_path := st.update_path, speed := rat.speed }
  match b.hide_loop k view self_ix rat p1 fuel (b.room_objs_on_ground_floor (rat.pos.z + k.height)) hs0 with
  | none => none
  | some hs =>
    let rat : rat_t := { rat with speed := hs.speed }
    let decay (r : rat_t) : rat_t :=
      { r with fear := max 0 (r.fear - (2 / 10) * (timestep / b.TICKS_PER_SECOND)) }
    if hs.has_fear_dest = false ∧ hs.best_score ≠ 0 then
      let rat : rat_t := { rat with dest := hs.best_dest }
      let rat : rat_t :=
        if dist_less_than rat.pos rat.dest k.dist_thresh then { rat with speed := 0 }
        else { rat with speed := RAT_FEAR_SPEED * b.rat_speed }
      if rat.pos.z = rat.dest.z then
        some { st with rat := decay rat, dir_to_fear := dir_to_fear, has_fear_dest := true
                       update_path := hs.update_path }
      else none
    else
      some { st with rat := decay rat, dir_to_fear := dir_to_fear, has_fear_dest := hs.has_fear_dest
                     update_path := hs.update_path }

/-- The member `dir_gen_t::gen_dir`: the direction at `dir_ix` of the pool of 1000 and the
next index. -/
def building_t.gen_dir (b : building_t) (dir_ix : Nat) : vector3d × Nat :=
  (b.dirs dir_ix, if dir_ix + 1 = 1000 then 0 else dir_ix + 1)

/-- The loop of lines 442-474 of `update_rat`: the trials `n`, `n+1`, ... of the wander
search, `remaining` of them; `target_fov_dp` and `target_max_dist` are the values before
trial `n`.  The flag returned with the state tells whether the loop was left by its
`break` ("success"), that is, whether a trial was accepted. -/
def building_t.wander_loop (b : building_t) (k : rat_consts_t) (p1 : point) (is_scared : Bool)
    (dist_upper_bound min_step : ℚ) :
    Nat → Nat → ℚ → ℚ → update_state_t → update_state_t × Bool
  | 0, _, _, _, st => (st, false)
  | remaining + 1, n, target_fov_dp, target_max_dist, st =>
    let target_fov_dp := if n > 50 then target_fov_dp - 2 / 100 else target_fov_dp
    let target_max_dist := if n > 50 then target_max_dist * (96 / 100) else target_max_dist
    let g := b.gen_dir st.dir_ix
    let st := { st with dir_ix := g.2 }
    let next (st : update_state_t) : update_state_t × Bool :=
      b.wander_loop k p1 is_scared dist_upper_bound min_step remaining (n + 1) target_fov_dp
        target_max_dist st
    let vdir : Option vector3d :=
      if st.collided = true ∧ st.coll_dir ≠ zero_vector then
        if dot_product st.coll_dir g.1 > 0 then
          if n ≤ 10 then
            let t := cross_product st.coll_dir plus_z
            some (if dot_product t st.rat.dir < 0 then t.negate else t)
          else some g.1.negate
        else some g.1
      else
        let dp := dot_product st.rat.dir g.1
        let flip : Bool := decide (n < 180 ∧ dp < 0)
        let v := if flip = true then g.1.negate else g.1
        let dp := if flip = true then -dp else dp
        if dp < target_fov_dp then none else some v
    match vdir with
    | none => next st
    | some vdir =>
      if is_scared = true ∧ n ≤ 100 ∧ dot_product st.dir_to_fear vdir > 0 then next st
      else
        let d := b.rf.rand_uniform st.rgen (1 / 10) dist_upper_bound
        let st := { st with rgen := d.2 }
        let dist := max (d.1 * target_max_dist) min_step
        let cand := st.rat.pos.add (vector3d.scale dist vdir)
        if b.is_rat_inside_building cand k.xy_pad k.hheight = false then next st
        else
          let p2 := (cand.add (vector3d.scale k.line_project_dist vdir)).add k.center_dz
          let p1_ext := p1.add (vector3d.scale k.coll_radius vdir)
          if b.check_line_coll_expand p1_ext p2 k.coll_radius k.squish_hheight = true then next st
          else
            let u := b.rf.rand_uniform st.rgen (1 / 2) 1
            ({ st with rat := { st.rat with dest := cand
                                            speed := b.rat_speed * u.1 * (if is_scared = true then 15 / 10 else 1) }
                       rgen := u.2 }, true)

/-- Lines 438-474 of `update_rat`: the search for a new destination.  The agent is stopped
(line 440) "until we've found a valid destination", then up to 200 trials are made; the flag
tells whether one of them was accepted. -/
def building_t.wander_search (b : building_t) (k : rat_consts_t) (p1 : point) (is_scared : Bool)
    (st : update_state_t) : update_state_t × Bool :=
  let dist_upper_bound := 12 / 100 + (88 / 100) * (1 - st.rat.fear)
  let min_step := min k.dist_thresh ((1 / 20) * st.rat.radius)
  let st := { st with rat := { st.rat with speed := 0 } }
  b.wander_loop k p1 is_scared dist_upper_bound min_step 200 0 b.RAT_FOV_DP k.view_dist st

/-- Lines 426-476 of `update_rat`: taking a rest, or choosing a new destination. -/
def building_t.update_rat_wander (b : building_t) (k : rat_consts_t) (p1 : point)
    (is_scared newly_scared : Bool) (st : update_state_t) : Option update_state_t :=
  let is_at_dest : Bool := decide (dist_less_than st.rat.pos st.rat.dest k.dist_thresh)
  let rest_ok : Bool := decide (is_scared = false ∧ ¬ st.rat.is_sleeping ∧ is_at_dest = true
    ∧ st.rat.dist_since_sleep > (15 / 10) * k.floor_spacing)
  let d := b.rf.rand st.rgen
  if rest_ok = true ∧ d.1 &&& 2 = 0 then
    let st := b.sleep_for { st with rgen := d.2 } 0 4
    some { st with rat := { st.rat with dist_since_sleep := 0, speed := 0 } }
  else
    let st := if rest_ok = true then { st with rgen := d.2 } else st
    if st.has_fear_dest = false ∧ ¬ st.rat.is_sleeping
        ∧ (st.rat.speed = 0 ∨ newly_scared = true ∨ st.update_path = true ∨ is_at_dest = true
          ∨ b.check_line_coll_expand st.rat.pos st.rat.dest k.coll_radius k.hheight = true) then
      let st := (b.wander_search k p1 is_scared st).1
      if st.rat.pos.z = st.rat.dest.z then some st else none
    else some st

/-- Lines 480-488 of `update_rat`: the direction to turn to, `new_dir`. -/
def building_t.dir_target (b : building_t) (k : rat_consts_t) (st : update_state_t) : vector3d :=
  if ¬ dist_less_than st.rat.pos st.rat.dest k.dist_thresh then b.m.get_norm (st.rat.dest.sub st.rat.pos)
  else if st.has_fear_dest = true then st.dir_to_fear
  else zero_vector

/-- Lines 483-488 of `update_rat`: an agent that has reached its hiding spot is put on it. -/
def dir_snap (k : rat_consts_t) (st : update_state_t) : update_state_t :=
  if dist_less_than st.rat.pos st.rat.dest k.dist_thresh ∧ st.has_fear_dest = true then
    { st with max_xmove := max st.max_xmove |st.rat.pos.x - st.rat.dest.x|
              rat := { st.rat with speed := 0, dist_since_sleep := 0, pos := st.rat.dest } }
  else st

/-- Lines 492-495 of `update_rat`: the heading is turned toward `new_dir`. -/
def building_t.dir_turn (b : building_t) (timestep : ℚ) (is_scared : Bool) (new_dir : vector3d)
    (st : update_state_t) : update_state_t :=
  if new_dir ≠ zero_vector then
    let delta_dir := (if is_scared = true then 11 / 10 else 1)
      * min 1 ((15 / 10) * (1 - b.m.powf (7 / 10) timestep))
    let blend := (vector3d.scale delta_dir new_dir).add (vector3d.scale (1 - delta_dir) st.rat.dir)
    { st with rat := { st.rat with dir := b.m.get_norm blend } }
  else st

/-- Line 496 of `update_rat`: a zero heading is replaced by a random one. -/
def building_t.dir_fix (b : building_t) (st : update_state_t) : update_state_t :=
  if st.rat.dir = zero_vector then
    let d := b.rf.signed_rand_vector_xy st.rgen
    { st with rat := { st.rat with dir := b.m.get_norm d.1 }, rgen := d.2 }
  else st

/-- Lines 477-497 of `update_rat`: the heading. -/
def building_t.update_rat_dir (b : building_t) (k : rat_consts_t) (timestep : ℚ) (is_scared : Bool)
    (st : update_state_t) : Option update_state_t :=
  let new_dir := b.dir_target k st
  let st := dir_snap k st
  let st : update_state_t :=
    { st with rat := { st.rat with is_hiding :=
        (st.has_fear_dest && decide (dist_less_than st.rat.pos st.rat.dest (2 * k.dist_thresh))) } }
  let st := b.dir_fix (b.dir_turn timestep is_scared new_dir st)
  if st.rat.dir.z = 0 then some st else none

/-- The locals of `update_rat` as declared: `collided(0)`, `update_path(0)`, `coll_dir`,
`has_fear_dest(0)`, `dir_to_fear`. -/
def update_state_t.enter (st : update_state_t) : update_state_t :=
  { st with collided := false, update_path := false, coll_dir := zero_vector
            has_fear_dest := false, dir_to_fear := zero_vector }

/-- The state of `update_rat` after the collision step (line 300), before the threat calls. -/
def building_t.after_collision (b : building_t) (camera_bs : point) (timestep : ℚ)
    (st : update_state_t) : update_state_t :=
  b.update_rat_collision (b.rat_consts st.rat timestep) camera_bs st.enter

/-- The function `building_t::update_rat`.  `rats` is the container
`interior->room_geom->rats` and `self_ix` the index in it of the agent `st.rat`; `st` also
holds `max_xmove`, `rgen` and the globals; `fuel` bounds the nudges of one candidate. -/
def building_t.update_rat (b : building_t) (fuel : Nat) (rats : vect_rat_t) (self_ix : Nat)
    (camera_bs : point) (ped_ix : Int) (timestep : ℚ) (can_attack_player : Bool)
    (st : update_state_t) : Option update_state_t :=
  let k := b.rat_consts st.rat timestep
  if ¬ (k.hwidth ≤ k.hlength) then none
  else
    let st := b.after_collision camera_bs timestep st
    let p1 := st.rat.pos.add k.center_dz
    let was_scared : Bool := decide (st.rat.fear > 0)
    (b.update_rat_scare camera_bs ped_ix can_attack_player st).bind fun st =>
    let is_scared : Bool := decide (st.rat.fear > 0)
    let newly_scared : Bool := is_scared && !was_scared
    let st := b.update_rat_attack k camera_bs p1 st
    (if is_scared = true then b.update_rat_hide k rats self_ix p1 timestep fuel st else some st).bind
      fun st =>
    (b.update_rat_wander k p1 is_scared newly_scared st).bind fun st =>
    b.update_rat_dir k timestep is_scared st

/-! ## The driver of a tick -/

/-- What persists from one `update_animals` call to the next: the container
`interior->room_geom->rats`, the function static `prev_can_attack_player`, the global random
generator, the function statics of `update_rat` (the index into the direction pool and
`last_sound_time`), and the events sent so far. -/
structure animals_state_t where
  rats : vect_rat_t
  prev_can_attack_player : Bool
  global_rgen : rand_gen_t
  dir_ix : Nat
  last_sound_time : ℚ
  events : List event_t

/-- The number of agents of a list that are flagged `near_player`. -/
def near_count (l : List rat_t) : Nat := l.countP fun r => r.near_player

/-- The number of alert sounds (`SOUND_RAT_SQUEAK`) among the events. -/
def alert_count (es : List event_t) : Nat :=
  es.countP fun e => match e with
    | event_t.rat_squeak _ => true
    | _ => false

/-- The early returns of lines 109-113 of `update_animals`: whether a call with the
container `rats` goes on to update the agents. -/
def building_t.update_animals_runs (b : building_t) (rats : vect_rat_t) : Bool :=
  if b.num_rats_max = 0 ∨ b.animate2 = false then false
  else if b.is_rotated = true ∨ b.has_room_geom = false ∨ b.rooms.isEmpty = true then false
  else if rats.placed = true ∧ rats.rats.isEmpty = true then false
  else if b.rat_model_valid = false then false
  else true

/-- Lines 116-134 of `update_animals`: the container the motion pass works on, populated on
the first call. -/
def building_t.entry_rats (b : building_t) (building_ix : Nat) (rats : vect_rat_t) : vect_rat_t :=
  if rats.placed = false then b.bootstrap building_ix rats else rats

/-- The loop of lines 140-144 of `update_animals`: every agent is moved, and the agents
flagged `near_player` are counted; `rat_alert_pos` is the position of the agent at which the
count equals the threshold. -/
def building_t.move_rats (b : building_t) (timestep : ℚ) :
    List rat_t → Nat → point → List rat_t × Nat × point
  | [], num_near_player, rat_alert_pos => ([], num_near_player, rat_alert_pos)
  | rat :: rest, num_near_player, rat_alert_pos =>
    let rat := rat.move b.m b.tfticks timestep
    let num_near_player := num_near_player + (if rat.near_player = true then 1 else 0)
    let rat_alert_pos := if num_near_player = b.min_attack_rats then rat.pos else rat_alert_pos
    let res := b.move_rats timestep rest num_near_player rat_alert_pos
    (rat :: res.1, res.2)

/-- Modelled from the spec: the library call `sort(rats.begin(), rats.end())` with the order
of `rat_t`, ascending x ("sort by xval"); agents of equal x, whose order the library leaves
open, keep their order. -/
def sort_rats (l : List rat_t) : List rat_t := l.insertionSort fun a b => a.pos.x ≤ b.pos.x

/-- Lines 116-153 of `update_animals`, once the early returns are passed: the placement on
the first call, the motion pass, the alert, the sort and the reset of `max_xmove`.  Returned
with the state is the flag `can_attack_player`.  The point `rat_alert_pos` is
default-constructed. -/
def building_t.update_animals_head (b : building_t) (building_ix : Nat) (s : animals_state_t) :
    animals_state_t × Bool :=
  let rats := b.entry_rats building_ix s.rats
  let timestep := min b.fticks 4
  let mv := b.move_rats timestep rats.rats 0 zero_vector
  let can_attack_player : Bool := decide (mv.2.1 ≥ b.min_attack_rats)
  let events :=
    if can_attack_player = true ∧ s.prev_can_attack_player = false then
      s.events ++ [event_t.rat_squeak mv.2.2]
    else s.events
  ({ s with rats := { rats with rats := sort_rats mv.1, max_xmove := 0 }
            prev_can_attack_player := can_attack_player
            events := events }, can_attack_player)

/-- One call `update_rat(*r, ...)` of lines 158 and 161, for the agent at index `i` of the
container: the agent, `max_xmove`, the generator `rgen` of the tick, the globals and the
statics are handed to `update_rat` and written back. -/
def building_t.update_rat_at (b : building_t) (fuel : Nat) (camera_bs : point) (ped_ix : Int)
    (timestep : ℚ) (can_attack_player : Bool) (s : animals_state_t × rand_gen_t) (i : Nat) :
    Option (animals_state_t × rand_gen_t) :=
  match s.1.rats.rats.get? i with
  | none => some s
  | some rat =>
    let st : update_state_t :=
      { rat := rat, max_xmove := s.1.rats.max_xmove, rgen := s.2, global_rgen := s.1.global_rgen
        dir_ix := s.1.dir_ix, last_sound_time := s.1.last_sound_time, events := s.1.events
        collided := false, update_path := false, coll_dir := zero_vector
        has_fear_dest := false, dir_to_fear := zero_vector }
    (b.update_rat fuel s.1.rats i camera_bs ped_ix timestep can_attack_player st).map fun st1 =>
      ({ s.1 with rats := { s.1.rats with rats := s.1.rats.rats.set i st1.rat
                                          max_xmove := st1.max_xmove }
                  global_rgen := st1.global_rgen
                  dir_ix := st1.dir_ix
                  last_sound_time := st1.last_sound_time
                  events := st1.events }, st1.rgen)

/-- The loops of lines 157-162 of `update_animals`: `update_rat` for the agents at the
indices `order`, one after the other. -/
def building_t.update_rats (b : building_t) (fuel : Nat) (camera_bs : point) (ped_ix : Int)
    (timestep : ℚ) (can_attack_player : Bool) :
    List Nat → animals_state_t × rand_gen_t → Option (animals_state_t × rand_gen_t)
  | [], s => some s
  | i :: order, s =>
    (b.update_rat_at fuel camera_bs ped_ix timestep can_attack_player s i).bind
      (b.update_rats fuel camera_bs ped_ix timestep can_attack_player order)

/-- The order in which lines 157-162 visit `n` agents: backward in odd frames, forward in
even ones. -/
def update_order (frame_counter n : Nat) : List Nat :=
  if frame_counter % 2 = 1 then (List.range n).reverse else List.range n

/-- The function `building_t::update_animals`, one tick of one building; `none` when the
count of the first placement is a remainder by zero, an assertion of `update_rat` fails, or
`fuel` does not suffice. -/
def building_t.update_animals (b : building_t) (fuel : Nat) (camera_bs : point) (building_ix : Nat)
    (ped_ix : Int) (s : animals_state_t) : Option animals_state_t :=
  if b.update_animals_runs s.rats = false then some s
  else if b.count_traps s.rats = true then none
  else
    let h := b.update_animals_head building_ix s
    let rgen := rand_gen_t.set_state (building_ix + 1) (b.frame_counter + 1)
    (b.update_rats fuel camera_bs ped_ix (min b.fticks 4) h.2
      (update_order b.frame_counter h.1.rats.rats.length) (h.1, rgen)).map fun s1 => s1.1

/-- What the assertions of `update_rat` rely on, for a state of the call and the radius the
agent entered with: the destination is at the height of the agent, the heading and the
direction to the fear are horizontal, and the radius is the one at entry. -/
def update_state_t.level (st : update_state_t) (radius : ℚ) : Prop :=
  st.rat.pos.z = st.rat.dest.z ∧ st.rat.dir.z = 0 ∧ st.dir_to_fear.z = 0 ∧ st.rat.radius = radius

/-- The containers that can arise from the empty one by calls of `vect_rat_t::add`, with the
agents in between reordered (as the sort of a tick does) or rewritten with their ids kept
(as `rat_t::move` and `update_rat` do). -/
inductive built_by_add : vect_rat_t → Prop
  | empty : built_by_add vect_rat_t.empty
  | add (v : vect_rat_t) (rat : rat_t) : built_by_add v → built_by_add (v.add rat)
  | rearrange (v : vect_rat_t) (l : List rat_t) : built_by_add v →
      (l.map fun r => r.rat_id).Perm (v.rats.map fun r => r.rat_id) →
      built_by_add { v with rats := l }

/-- The safe area of lines 366-372 of `update_rat`: the hide area shrunk, in x and then in
y, by `min(1.5 * hlength, 0.49 * extent)`. -/
def hide_safe_area (k : rat_consts_t) (hide_area : cube_t) : cube_t :=
  let safe0 := hide_area.expand_in_dim false
    (-(min ((15 / 10) * k.hlength) ((49 / 100) * hide_area.get_sz_dim false)))
  safe0.expand_in_dim true (-(min ((15 / 10) * k.hlength) ((49 / 100) * safe0.get_sz_dim true)))

/-- The attack target of lines 313-316 of `update_rat` for an agent at `pos`: the player's
horizontal position at the height of the agent, moved back toward the agent by
`1.01 * (player radius + half-length)`. -/
def building_t.attack_target (b : building_t) (k : rat_consts_t) (camera_bs pos : point) : point :=
  let min_dist := b.player_radius + k.hlength
  let target0 : point := ⟨camera_bs.x, camera_bs.y, pos.z⟩
  let vdir := b.m.get_norm (target0.sub pos)
  target0.sub (vector3d.scale ((101 / 100) * min_dist) vdir)

/-- The number of times the player was damaged (`player_take_damage`) among the events. -/
def damage_count (es : List event_t) : Nat :=
  es.countP fun e => match e with
    | event_t.player_damage _ => true
    | _ => false

/-- The number of hit sounds (`SOUND_SQUISH`) among the events. -/
def squish_count (es : List event_t) : Nat :=
  es.countP fun e => match e with
    | event_t.squish_sound _ => true
    | _ => false

/-- The conditions under which one iteration of the loop over the hiding objects (lines
354-412) replaces the best candidate so far, whose score is `best_score`, by the candidate
of the object `c`: the object overlaps the height range of the agent and is a cube, it
offers a hide area that is not lower than the agent and whose center is within the view
distance, the anchor is not within the stopping distance and is not ruled out by the score
test of line 386, the path to it is free, and the conflict resolution ends in `ns`, not
skipped, and inside the building if the candidate was moved. -/
def building_t.hide_accepts (b : building_t) (k : rat_consts_t) (rats : vect_rat_t) (self_ix : Nat)
    (rat : rat_t) (p1 : point) (fuel : Nat) (c : room_object_t) (best_score : ℚ)
    (ns : nudge_state_t) : Prop :=
  ¬ (c.bc.z1 > rat.pos.z + k.height ∨ c.bc.z2 < rat.pos.z) ∧ c.is_cube = true
  ∧ ∃ hide_area, b.can_hide_under c = some hide_area
    ∧ ¬ hide_area.z1 - (p1.z + k.squish_hheight) < 0
    ∧ dist_xy_less_than hide_area.get_cube_center p1 k.view_dist
    ∧ ¬ b.m.p2p_dist p1 (b.hide_anchor k rat.rat_id c hide_area p1.z) < k.dist_thresh
    ∧ ¬ (best_score ≠ 0 ∧ (1 / 2) * min hide_area.dx hide_area.dy - k.hlength
          - (1 / 2) * (hide_area.z1 - (p1.z + k.squish_hheight))
          + (2 / 10) * b.m.p2p_dist rat.fear_pos (b.hide_anchor k rat.rat_id c hide_area p1.z)
          - (1 / 10) * max (b.m.p2p_dist p1 (b.hide_anchor k rat.rat_id c hide_area p1.z))
              k.dist_thresh ≤ best_score)
    ∧ b.check_line_coll_expand p1 (b.hide_anchor k rat.rat_id c hide_area p1.z)
        k.coll_radius k.squish_hheight = false
    ∧ b.resolve_conflicts k rats self_ix rat p1 hide_area
        (hide_area.z1 - (p1.z + k.squish_hheight))
        (b.m.p2p_dist rat.fear_pos (b.hide_anchor k rat.rat_id c hide_area p1.z))
        (b.m.p2p_dist p1 (b.hide_anchor k rat.rat_id c hide_area p1.z))
        best_score fuel (b.hide_anchor k rat.rat_id c hide_area p1.z)
        ((1 / 2) * min hide_area.dx hide_area.dy - k.hlength)
        ((1 / 2) * min hide_area.dx hide_area.dy - k.hlength
          - (1 / 2) * (hide_area.z1 - (p1.z + k.squish_hheight))
          + (2 / 10) * b.m.p2p_dist rat.fear_pos (b.hide_anchor k rat.rat_id c hide_area p1.z)
          - (1 / 10) * max (b.m.p2p_dist p1 (b.hide_anchor k rat.rat_id c hide_area p1.z))
              k.dist_thresh) = some ns
    ∧ ns.skip = false
    ∧ ¬ (ns.tot_mdist > 0 ∧ b.is_rat_inside_building ns.cand_dest k.xy_pad k.hheight = false)

/-- The index into the direction pool after `n` calls of `dir_gen_t::gen_dir` that started at
the index `dir_ix`: every trial of the wander loop makes one call (line 447). -/
def building_t.dir_ix_at (b : building_t) : Nat → Nat → Nat
  | dir_ix, 0 => dir_ix
  | dir_ix, n + 1 => b.dir_ix_at (b.gen_dir dir_ix).2 n

/-- Lines 447 and 459-460 of `update_rat`: the direction that trial `n` of the wander loop
tests, for an agent with the heading `heading` that is not resolving a collision, when the
pool index before the trial is `dir_ix`: the direction of the pool, negated when `n < 180`
and it points backward. -/
def building_t.wander_dir (b : building_t) (heading : vector3d) (dir_ix n : Nat) : vector3d :=
  let vdir := (b.gen_dir dir_ix).1
  let dp := dot_product heading vdir
  if n < 180 ∧ dp < 0 then vdir.negate else vdir

/-! ## A small concrete building, used to evaluate the definitions -/

/-- Newton steps of the integer square root: from an upper estimate `x` down to the floor
of the root of `n`. -/
def isqrt_steps (n : Nat) : Nat → Nat → Nat
  | 0, x => x
  | fuel + 1, x => if (x + n / x) / 2 < x then isqrt_steps n fuel ((x + n / x) / 2) else x

/-- Integer square root (floor) of a number below `2 ^ 500`, exact on perfect squares. -/
def isqrt (n : Nat) : Nat := if n = 0 then 0 else isqrt_steps n 256 n

/-- A square root on rationals, rounded down to a multiple of `1e-6 / q.den`; it is exact
on squares of rationals. -/
def demo_sqrt (q : ℚ) : ℚ := (isqrt (q.num.toNat * q.den * 10 ^ 12) : ℚ) / ((q.den * 10 ^ 6 : Nat) : ℚ)

/-- The library functions of the example: the exact-on-squares root, an integer-exponent
power and the tolerance `1e-6`. -/
def demo_math : math_t :=
  { sqrtf := demo_sqrt
    powf := fun a t => a ^ (Int.toNat (Int.floor t))
    TOLERANCE := 1 / 1000000 }

/-- A linear congruential generator standing in for `rand_gen_t`. -/
def demo_next (g : rand_gen_t) : rand_gen_t :=
  ⟨(g.rseed1 * 1103515245 + 12345) % 2 ^ 32, (g.rseed2 * 22695477 + 1) % 2 ^ 32⟩

/-- The drawing functions of the example. -/
def demo_rand : rand_fns_t :=
  { rand := fun g => (g.rseed1, demo_next g)
    rand_float := fun g => ((g.rseed1 % 1000 : Nat) / 1000, demo_next g)
    rand_uniform := fun g lo hi => (lo + (hi - lo) * ((g.rseed2 % 1000 : Nat) / 1000), demo_next g)
    rand_mix := demo_next
    signed_rand_vector_xy := fun g => (⟨1, 0, 0⟩, demo_next g) }

/-- An example building: one large empty room with a floor at height 0, floor spacing 1,
no obstacles, no other people, no player collision and no sound.  `sees` is the answer of
every line-of-sight query, `objs` are the objects on the ground floor, and the body of a
table is the top fifth of its cube. -/
def demo_building_of (sees : Bool) (objs : List room_object_t) : building_t :=
  { m := demo_math
    rf := demo_rand
    TICKS_PER_SECOND := 40
    tfticks := 1000
    RAT_FOV_DP := 866 / 1000
    rat_speed := 1 / 100
    min_attack_rats := 2
    player_radius := 1 / 10
    rat_model_size := ⟨4, 1, 1⟩
    get_window_vspace := 1
    get_trim_thickness := 1 / 100
    bcube := ⟨-100, 100, -100, 100, 0, 1⟩
    is_cube_contained_in_parts := fun _ => true
    get_zval_of_floor := fun _ _ => some 0
    check_line_coll_expand := fun _ _ _ _ => false
    check_and_handle_dynamic_obj_coll := fun pos _ _ _ => (false, pos)
    check_line_of_sight_large_objs := fun _ _ => sees
    get_room_containing_pt := fun _ => 0
    placed_objs := []
    room_objs_on_ground_floor := fun _ => objs
    get_closet_wall_thickness := fun _ => 0
    get_bed_frame := fun c => c.bc
    get_table_body := fun c => { c.bc with z1 := c.bc.z1 + (4 / 5) * c.bc.dz }
    get_dresser_middle := fun c => c.bc
    get_chair_seat := fun c => c.bc
    get_bookcase_middle := fun c => c.bc
    get_dishwasher_for_ksink := fun _ => none
    get_ped_bcubes_for_building := fun _ => []
    camera_surf_collide := false
    in_building_gameplay_mode := false
    get_cur_frame_loudest_sound := ⟨zero_vector, 0⟩
    player_take_damage := fun _ => false
    dirs := fun _ => ⟨1, 0, 0⟩
    type_code := fun _ => 0
    num_rats_min := 2
    num_rats_max := 4
    rat_size_min := 1 / 10
    rat_size_max := 2 / 10
    mat_ix := 0
    rooms := [⟨-100, 100, -100, 100, 0, 1⟩]
    ground_floor_z1 := 0
    get_wall_thickness := 1 / 10
    get_fc_thickness := 0
    gen_xy_pos_in_area := fun area _ g =>
      (⟨area.x1 + (area.x2 - area.x1) * ((g.rseed1 % 1000 : Nat) / 1000),
        area.y1 + (area.y2 - area.y1) * ((g.rseed2 % 1000 : Nat) / 1000), 0⟩, demo_next g)
    is_valid_ai_placement := fun _ _ => true
    animate2 := true
    is_rotated := false
    has_room_geom := true
    rat_model_valid := true
    fticks := 1
    frame_counter := 0 }

/-- The example building without objects and with free lines of sight. -/
def demo_building : building_t := demo_building_of true []

/-- An example agent: at the origin, heading along x, radius 1, flat (height 0), calm,
awake and at its destination. -/
def demo_rat : rat_t :=
  { pos := zero_vector, last_pos := zero_vector, dest := zero_vector, fear_pos := zero_vector
    dir := ⟨1, 0, 0⟩, radius := 1, height := 0, hwidth := 1 / 4, speed := 0, fear := 0
    anim_time := 0, wake_time := 0, dist_since_sleep := 0, rat_id := 1
    is_hiding := false, near_player := false, attacking := false }

/-- The example agent, awake at speed 1, with a destination at right angles to its
heading. -/
def demo_rat_sideways : rat_t := { demo_rat with speed := 1, dest := ⟨0, 3, 0⟩ }

/-- The example agent with fear 0.995 of the point `(1, 0, 0)`. -/
def demo_rat_max_fear : rat_t := { demo_rat with fear := 199 / 200, fear_pos := ⟨1, 0, 0⟩ }

/-- The example agent with fear 1 of the far point `(10, 0, 0)`. -/
def demo_rat_full_fear : rat_t := { demo_rat with fear := 1, fear_pos := ⟨10, 0, 0⟩ }

/-- The example building with the line of sight blocked everywhere. -/
def demo_building_dark : building_t := demo_building_of false []

/-- The example state of one `update_rat` call on an agent. -/
def demo_state (rat : rat_t) : update_state_t :=
  { rat := rat, max_xmove := 0, rgen := ⟨1, 1⟩, global_rgen := ⟨7, 7⟩, dir_ix := 0
    last_sound_time := 0, events := [], collided := false, update_path := false
    coll_dir := zero_vector, has_fear_dest := false, dir_to_fear := zero_vector }

/-- The example container: the example agent alone. -/
def demo_rats (rat : rat_t) : vect_rat_t := ⟨[rat], true, 1, 0⟩

/-- One `update_rat` call in the example building on the example agent with fear 0.995, alone
in its container, with a timestep of 4 and the player at `(5, 5, 0)`. -/
def demo_run_scared : Option update_state_t :=
  demo_building.update_rat 10 (demo_rats demo_rat_max_fear) 0 ⟨5, 5, 0⟩ (-1) 4 false
    (demo_state demo_rat_max_fear)

/-- The example agent at `(10, 0, 0)`, looking for a hiding spot. -/
def demo_rat_hider : rat_t :=
  { demo_rat with pos := ⟨10, 0, 0⟩, dest := ⟨10, 0, 0⟩, fear := 1 / 2, rat_id := 3 }

/-- An agent of radius 1 sitting at `(-1/2, 0, 0)`. -/
def demo_rat_a : rat_t := { demo_rat with pos := ⟨-1 / 2, 0, 0⟩, dest := ⟨-1 / 2, 0, 0⟩, rat_id := 1 }

/-- An agent of radius 1 sitting at `(2, 0, 0)`. -/
def demo_rat_c : rat_t := { demo_rat with pos := ⟨2, 0, 0⟩, dest := ⟨2, 0, 0⟩, rat_id := 2 }

/-- A container sorted by x right after the sort of a tick: the agents at `-1/2`, `2` and
`10`, all of radius 1, with `max_xmove` reset to 0. -/
def demo_sorted_rats : vect_rat_t := ⟨[demo_rat_a, demo_rat_c, demo_rat_hider], true, 1, 0⟩

/-- The hide area of the example: a table top over `[-3, 3] x [-3, 3]`. -/
def demo_hide_area : cube_t := ⟨-3, 3, -3, 3, 0, 1⟩

/-- The conflict resolution of the candidate `(0, 0, 0)` for the agent at `(10, 0, 0)` in the
sorted example container. -/
def demo_resolve : Option nudge_state_t :=
  demo_building.resolve_conflicts (demo_building.rat_consts demo_rat_hider 4) demo_sorted_rats 2
    demo_rat_hider ⟨10, 0, 0⟩ demo_hide_area 0 0 10 0 10 zero_vector 2 1

/-- A candidate at half the separation distance `0.8 * (1 + 1) = 1.6` from an occupant at
the origin, before any nudge. -/
def demo_nudge_state : nudge_state_t :=
  { cand_dest := ⟨4 / 5, 0, 0⟩, side_cov := 2, score := 1, tot_mdist := 0, skip := false }

/-- A table over `[-3, 3] x [-3, 3]`, standing on the floor. -/
def demo_table : room_object_t :=
  { bc := ⟨-3, 3, -3, 3, 0, 1⟩, type := room_object.TYPE_TABLE, obj_id := 499, room_id := 0
    is_cube := true, is_open := false, is_small_closet := false, dim := false, dir := false }

/-- The example building with the table in it. -/
def demo_building_table : building_t := demo_building_of true [demo_table]

/-- The example agent at `(7/2, 1227/1000, 0)`, scared of the origin, number 3. -/
def demo_rat_hider_table : rat_t :=
  { demo_rat with pos := ⟨7 / 2, 1227 / 1000, 0⟩, dest := ⟨7 / 2, 1227 / 1000, 0⟩, fear := 1 / 2
                  rat_id := 3 }

/-- The container of the table example, sorted by x, right after the sort of a tick: agents
of radius 1 at x = -1/2, x = 2 and x = 7/2, all at y = 1227/1000. -/
def demo_sorted_rats_table : vect_rat_t :=
  ⟨[{ demo_rat with pos := ⟨-1 / 2, 1227 / 1000, 0⟩, dest := ⟨-1 / 2, 1227 / 1000, 0⟩, rat_id := 1 },
    { demo_rat with pos := ⟨2, 1227 / 1000, 0⟩, dest := ⟨2, 1227 / 1000, 0⟩, rat_id := 2 },
    demo_rat_hider_table], true, 1, 0⟩

/-- One `update_rat` call on the scared agent of the table example. -/
def demo_run_table : Option update_state_t :=
  demo_building_table.update_rat 10 demo_sorted_rats_table 2 ⟨5, 5, 0⟩ (-1) 4 false
    (demo_state demo_rat_hider_table)

/-- The example agent walking at speed 1/100 toward `(5, 0, 0)`, straight ahead. -/
def demo_rat_walker : rat_t := { demo_rat with speed := 1 / 100, dest := ⟨5, 0, 0⟩ }

/-- The example agent asleep until tick 2000, at rest (speed 0, no fear, destination equal
to its position), with the animation phase 1 left from its last steps. -/
def demo_rat_asleep : rat_t := { demo_rat with wake_time := 2000, anim_time := 1 }

/-- The state between two ticks of the example: the container, no pack attack in the tick
before, and no events yet. -/
def demo_animals (rats : vect_rat_t) : animals_state_t :=
  { rats := rats, prev_can_attack_player := false, global_rgen := ⟨7, 7⟩, dir_ix := 0
    last_sound_time := 0, events := [] }

/-- The example agent with the number 3. -/
def demo_rat_three : rat_t := { demo_rat with rat_id := 3 }

/-- The example table with another cube and in another room, its `obj_id` and type kept. -/
def demo_table_moved : room_object_t := { demo_table with bc := ⟨0, 1, 0, 1, 0, 1⟩, room_id := 5 }

/-- The example building with every path blocked: every `check_line_coll_expand` query
finds an obstacle. -/
def demo_building_blocked : building_t :=
  { demo_building with check_line_coll_expand := fun _ _ _ _ => true }

/-- The example agent walking at speed 1/100 with its destination `(0, 3, 0)` at right
angles to its heading. -/
def demo_rat_strayed : rat_t := { demo_rat with speed := 1 / 100, dest := ⟨0, 3, 0⟩ }

/-- One `update_rat` call in the blocked building on the agent that walks at speed 1/100
toward `(0, 3, 0)`, with a timestep of 4. -/
def demo_run_blocked : Option update_state_t :=
  demo_building_blocked.update_rat 10 (demo_rats demo_rat_strayed) 0 ⟨50, 50, 0⟩ (-1) 4 false
    (demo_state demo_rat_strayed)

/-- The example building in gameplay mode with the player present: the player collides
with the building's surfaces, so that agents near the player are flagged. -/
def demo_building_hunt : building_t :=
  { demo_building with camera_surf_collide := true, in_building_gameplay_mode := true }

/-- The example building in gameplay mode, one tick later: clock 1001, frame 1. -/
def demo_building_hunt_next : building_t :=
  { demo_building_hunt with tfticks := 1001, frame_counter := 1 }

/-- Two example agents of radius 1 at `(-1/2, 0, 0)` and `(2, 0, 0)`, populated; the first
is flagged `near_player`, so that the count is one below the threshold 2. -/
def demo_pack : vect_rat_t := ⟨[{ demo_rat_a with near_player := true }, demo_rat_c], true, 1, 0⟩

/-- The first tick of the pack example: the player stands at `(1, 1, 0)`, within the attack
range of both agents. -/
def demo_tick1 : Option animals_state_t :=
  demo_building_hunt.update_animals 10 ⟨1, 1, 0⟩ 0 (-1) (demo_animals demo_pack)

/-- The state after the first tick of the pack example. -/
def demo_after_tick1 : animals_state_t := demo_tick1.getD (demo_animals demo_pack)

/-- The second tick of the pack example, on the state the first tick returned. -/
def demo_tick2 : Option animals_state_t :=
  demo_building_hunt_next.update_animals 10 ⟨1, 1, 0⟩ 0 (-1) demo_after_tick1

/-- A square root on rationals that never rounds up: the integer square root of
`num * den`, over `den`. -/
def floor_sqrt (q : ℚ) : ℚ := (Nat.sqrt (q.num.toNat * q.den) : ℚ) / (q.den : ℚ)

/-- The example building with the square root that never rounds up. -/
def demo_building_floor : building_t :=
  { demo_building_table with m := { demo_math with sqrtf := floor_sqrt } }

/-- The example agent with the player at `(1111/1000, 0, 0)`: the agent stands on its attack
target, `1.01 * (0.1 + 1)` away from the player. -/
def demo_camera_bite : point := ⟨1111 / 1000, 0, 0⟩

/-- One `update_rat` call at clock 1000 on the example agent, which stands on its attack
target, with the pack attack on. -/
def demo_bite1 : Option update_state_t :=
  demo_building_hunt.update_rat 10 (demo_rats demo_rat) 0 demo_camera_bite (-1) 1 true
    (demo_state demo_rat)

/-- The next `update_rat` call on the same agent, at clock 1001, with the player and the
agent where they were. -/
def demo_bite2 : Option update_state_t :=
  demo_bite1.bind fun st =>
    demo_building_hunt_next.update_rat 10 (demo_rats st.rat) 0 demo_camera_bite (-1) 1 true st

/-- One `update_rat` call at clock 1000 on the example agent with the player at `(3, 0, 0)`
and the pack attack on: the agent is 1.889 away from its attack target. -/
def demo_chase : Option update_state_t :=
  demo_building_hunt.update_rat 10 (demo_rats demo_rat) 0 ⟨3, 0, 0⟩ (-1) 1 true (demo_state demo_rat)

/-- The example agent asleep until tick 2000, calm, with its destination `(0, 3, 0)` at
right angles to its heading. -/
def demo_rat_dozing : rat_t := { demo_rat with wake_time := 2000, dest := ⟨0, 3, 0⟩ }

/-- One `update_rat` call at clock 1000 on the agent that is asleep and calm, away from its
destination, with a timestep of 4; nothing frightens it. -/
def demo_run_dozing : Option update_state_t :=
  demo_building.update_rat 10 (demo_rats demo_rat_dozing) 0 ⟨50, 50, 0⟩ (-1) 4 false
    (demo_state demo_rat_dozing)

/-- The example building with the table, in which the dynamic-object collision check always
reports a collision and pushes the agent by `1/200` along x. -/
def demo_building_push : building_t :=
  { demo_building_table with
    check_and_handle_dynamic_obj_coll := fun pos _ _ _ => (true, ⟨pos.x + 1 / 200, pos.y, pos.z⟩) }

/-- The example agent number 3 at `(-1/100, 1227/1000, 0)`, standing still, scared, with its
destination `(0, 1227/1000, 0)`, which is its anchor under the table. -/
def demo_rat_pushed : rat_t :=
  { demo_rat with pos := ⟨-1 / 100, 1227 / 1000, 0⟩, last_pos := ⟨-1 / 100, 1227 / 1000, 0⟩
                  dest := ⟨0, 1227 / 1000, 0⟩, fear := 1 / 2, rat_id := 3 }

/-- The state before a tick in which the pushed agent is alone in its container. -/
def demo_animals_pushed : animals_state_t := demo_animals ⟨[demo_rat_pushed], true, 1, 0⟩

/-- One tick of the building that pushes, on the container of the pushed agent. -/
def demo_tick_pushed : Option animals_state_t :=
  demo_building_push.update_animals 10 ⟨50, 50, 0⟩ 0 (-1) demo_animals_pushed

/-- A small table over `[1, 3] x [-1, 1]`, standing on the floor. -/
def demo_table_small : room_object_t :=
  { bc := ⟨1, 3, -1, 1, 0, 1⟩, type := room_object.TYPE_TABLE, obj_id := 7, room_id := 0
    is_cube := true, is_open := false, is_small_closet := false, dim := false, dir := false }

/-- A large table over `[-5, -1] x [-2, 2]`, standing on the floor. -/
def demo_table_large : room_object_t :=
  { bc := ⟨-5, -1, -2, 2, 0, 1⟩, type := room_object.TYPE_TABLE, obj_id := 8, room_id := 0
    is_cube := true, is_open := false, is_small_closet := false, dim := false, dir := false }

/-- The example building with the small table listed before the large one. -/
def demo_building_two_tables : building_t := demo_building_of true [demo_table_small, demo_table_large]

/-- The example agent number 3 at the origin, scared of the point `(0, 3, 0)`, whose current
destination is its anchor under the small table. -/
def demo_rat_between : rat_t :=
  { demo_rat with fear := 1 / 2, fear_pos := ⟨0, 3, 0⟩, rat_id := 3
                  dest := ⟨12377 / 6250, 317 / 25000, 0⟩ }

/-- The variables of the loop over the hiding objects before the first object. -/
def demo_hide_start : hide_state_t :=
  { best_dest := zero_vector, best_score := 0, has_fear_dest := false, update_path := false, speed := 0 }

/-- One `update_rat` call on the agent between the two tables. -/
def demo_run_two_tables : Option update_state_t :=
  demo_building_two_tables.update_rat 10 (demo_rats demo_rat_between) 0 ⟨50, 50, 0⟩ (-1) 1 false
    (demo_state demo_rat_between)

/-- The hiding search of `update_rat` alone, on the agent between the two tables. -/
def demo_hide_two_tables : Option update_state_t :=
  demo_building_two_tables.update_rat_hide (demo_building_two_tables.rat_consts demo_rat_between 1)
    (demo_rats demo_rat_between) 0 ⟨0, 0, 0⟩ 1 10 (demo_state demo_rat_between)

/-- The example building configured with the full 32-bit range of counts,
`num_rats_min = 0` and `num_rats_max = 4294967295`. -/
def demo_building_full_range : building_t :=
  { demo_building with num_rats_min := 0, num_rats_max := 4294967295 }

/-- The state after the second tick of the pack example. -/
def demo_after_tick2 : animals_state_t := demo_tick2.getD demo_after_tick1

/-- The example agent far from the player, at `(60, 60, 0)`. -/
def demo_rat_far : rat_t :=
  { demo_rat with pos := ⟨60, 60, 0⟩, last_pos := ⟨60, 60, 0⟩, dest := ⟨60, 60, 0⟩ }

/-- A call of `update_animals` for another building (index 1), in the frame of the second
tick: the function statics and the events are as the second tick of the pack example left
them, the container is the one of the other building, whose single agent is far from the
player. -/
def demo_call_other : Option animals_state_t :=
  demo_building_hunt_next.update_animals 10 ⟨1, 1, 0⟩ 1 (-1)
    { demo_after_tick2 with rats := demo_rats demo_rat_far }

/-- The state after the call for the other building. -/
def demo_after_other : animals_state_t := demo_call_other.getD demo_after_tick2

/-- The example building in gameplay mode, two ticks later: clock 1002, frame 2. -/
def demo_building_hunt_third : building_t :=
  { demo_building_hunt with tfticks := 1002, frame_counter := 2 }

/-- The third tick of the pack example, after the call for the other building: the container
is the one the second tick left, the function statics and the events are as the call for the
other building left them. -/
def demo_tick3 : Option animals_state_t :=
  demo_building_hunt_third.update_animals 10 ⟨1, 1, 0⟩ 0 (-1)
    { demo_after_other with rats := demo_after_tick2.rats }

/-! ## Theorems -/

/-! ### Motion -/

/-- C3 (motion invariant): whenever the dot product of the heading with the normalized
direction from `pos` to `dest` is at most 0.75, `rat_t::move` leaves `pos` and
`dist_since_sleep` as they were, for every timestep, clock value and agent state. -/
theorem move_not_facing_keeps_pos (m : math_t) (tfticks timestep : ℚ) (r : rat_t)
    (hdot : dot_product r.dir (m.get_norm (r.dest.sub r.pos)) ≤ 3 / 4) :
    (r.move m tfticks timestep).pos = r.pos
      ∧ (r.move m tfticks timestep).dist_since_sleep = r.dist_since_sleep := by
  have hcomm : dot_product (m.get_norm (r.dest.sub r.pos)) r.dir
      = dot_product r.dir (m.get_norm (r.dest.sub r.pos)) := by
    simp only [dot_product]; ring
  unfold rat_t.move
  simp only []
  split_ifs with h1 h2 h3 h4
  · exact ⟨rfl, rfl⟩
  · exact ⟨rfl, rfl⟩
  · exact ⟨rfl, rfl⟩
  · exfalso
    rw [hcomm] at h4
    exact absurd hdot (not_le.mpr h4)
  · exact ⟨rfl, rfl⟩

/-- Witness of C3: an awake agent of speed 1 heading along x whose destination lies along
y (dot product 0) is not moved by a timestep of 4. -/
theorem move_not_facing_keeps_pos_witness :
    dot_product demo_rat_sideways.dir
        (demo_math.get_norm (demo_rat_sideways.dest.sub demo_rat_sideways.pos)) ≤ 3 / 4
      ∧ (demo_rat_sideways.move demo_math 1000 4).pos = demo_rat_sideways.pos
      ∧ (demo_rat_sideways.move demo_math 1000 4).dist_since_sleep
          = demo_rat_sideways.dist_since_sleep :=
  ⟨by decide!, move_not_facing_keeps_pos demo_math 1000 4 demo_rat_sideways (by decide!)⟩

/-! ### The threat accumulator -/

/-- The outcome of `scare_rat_at_pos` for a positive amount, by cases. -/
lemma scare_rat_at_pos_eq (b : building_t) (rat : rat_t) (scare_pos : point) (amount : ℚ)
    (by_sight : Bool) (ha : amount > 0) :
    b.scare_rat_at_pos rat scare_pos amount by_sight
      = if |rat.pos.z - scare_pos.z| > b.get_window_vspace
          ∨ (rat.fear > 99 / 100 ∧ dist_less_than rat.fear_pos scare_pos rat.radius)
          ∨ b.scare_fear rat scare_pos amount ≤ 0
          ∨ (by_sight = true ∧ b.check_line_of_sight_large_objs rat.get_center scare_pos = false)
        then some rat
        else some { rat with fear := min 1 (rat.fear + b.scare_fear rat scare_pos amount)
                             fear_pos := scare_pos } := by
  unfold building_t.scare_rat_at_pos
  simp only [ha, not_true_eq_false, if_false]
  by_cases h1 : |rat.pos.z - scare_pos.z| > b.get_window_vspace
  · simp [h1]
  · by_cases h2 : rat.fear > 99 / 100 ∧ dist_less_than rat.fear_pos scare_pos rat.radius
    · simp [h1, h2]
    · by_cases h3 : b.scare_fear rat scare_pos amount ≤ 0
      · simp [h1, h2, h3]
      · by_cases h4 : by_sight = true
            ∧ b.check_line_of_sight_large_objs rat.get_center scare_pos = false
        · simp [h1, h2, h3, h4]
        · rw [if_neg h1, if_neg h2, if_neg h3, if_neg h4, if_neg]
          rintro (h | h | h | h)
          exacts [h1 h, h2 h, h3 h, h4 h]

/-- C5 (fear contribution formula): with `D = RAT_VIEW_FLOORS * floor spacing`, `d` the
distance from the agent's center to the threat and `a'` the amount (times 0.67 when the
threat is in another room), the contribution computed by `scare_rat_at_pos` is
`(D * min a' 1 - d) / D`, and an accepted call (same floor, no max-fear shortcut, positive
contribution, sight line when sight-gated) stores `min 1 (fear + contribution)`.  In
particular, for a threat in the agent's room at `d = 0.3 * D` with amount 1 the contribution
is exactly 0.7, and an agent on that floor with prior fear 0 and a sight line ends with
fear 0.7. -/
theorem scare_fear_formula (b : building_t) (rat : rat_t) (scare_pos : point) (amount : ℚ)
    (by_sight : Bool) (ha : amount > 0) (hD : 0 < b.get_window_vspace) :
    b.scare_fear rat scare_pos amount
        = (RAT_VIEW_FLOORS * b.get_window_vspace
            * min (if b.get_room_containing_pt rat.get_center = b.get_room_containing_pt scare_pos
                then amount else (67 / 100) * amount) 1
            - b.m.p2p_dist rat.get_center scare_pos) / (RAT_VIEW_FLOORS * b.get_window_vspace)
      ∧ (¬ |rat.pos.z - scare_pos.z| > b.get_window_vspace →
          ¬ (rat.fear > 99 / 100 ∧ dist_less_than rat.fear_pos scare_pos rat.radius) →
          b.scare_fear rat scare_pos amount > 0 →
          (by_sight = true → b.check_line_of_sight_large_objs rat.get_center scare_pos = true) →
          ∃ r, b.scare_rat_at_pos rat scare_pos amount by_sight = some r
            ∧ r.fear = min 1 (rat.fear + b.scare_fear rat scare_pos amount))
      ∧ (b.get_room_containing_pt rat.get_center = b.get_room_containing_pt scare_pos →
          b.m.p2p_dist rat.get_center scare_pos = (3 / 10) * (RAT_VIEW_FLOORS * b.get_window_vspace) →
          amount = 1 →
          b.scare_fear rat scare_pos amount = 7 / 10
            ∧ (¬ |rat.pos.z - scare_pos.z| > b.get_window_vspace → rat.fear = 0 →
                (by_sight = true → b.check_line_of_sight_large_objs rat.get_center scare_pos = true) →
                ∃ r, b.scare_rat_at_pos rat scare_pos amount by_sight = some r ∧ r.fear = 7 / 10)) := by
  have hD4 : (RAT_VIEW_FLOORS * b.get_window_vspace) ≠ 0 := by
    unfold RAT_VIEW_FLOORS; positivity
  refine ⟨?_, ?_, ?_⟩
  · unfold building_t.scare_fear
    by_cases hr : b.get_room_containing_pt rat.get_center = b.get_room_containing_pt scare_pos
    · simp [hr]
    · simp [hr, mul_comm]
  · intro h1 h2 h3 h4
    rw [scare_rat_at_pos_eq b rat scare_pos amount by_sight ha, if_neg]
    · exact ⟨_, rfl, rfl⟩
    · rintro (h | h | h | ⟨h, h'⟩)
      · exact h1 h
      · exact h2 h
      · exact absurd h3 (not_lt.mpr h)
      · rw [h4 h] at h'; exact Bool.noConfusion h'
  · intro hroom hd h1
    have hc : b.scare_fear rat scare_pos amount = 7 / 10 := by
      unfold building_t.scare_fear
      simp only [hroom, ne_eq, not_true_eq_false, if_false, hd, h1, min_self]
      field_simp
      ring
    refine ⟨hc, ?_⟩
    intro hz hf hs
    rw [scare_rat_at_pos_eq b rat scare_pos amount by_sight ha, if_neg]
    · refine ⟨_, rfl, ?_⟩
      simp only [hc, hf]
      norm_num
    · rintro (h | h | h | ⟨h, h'⟩)
      · exact hz h
      · rw [hf] at h; norm_num at h
      · rw [hc] at h; norm_num at h
      · rw [hs h] at h'; exact Bool.noConfusion h'

/-- Witness of C5: in the example building (floor spacing 1, so `D = 4`) a sight-gated
threat of amount 1 at distance `1.2 = 0.3 * D` from the calm example agent. -/
theorem scare_fear_formula_witness :
    demo_building.scare_fear demo_rat ⟨6 / 5, 0, 0⟩ 1 = 7 / 10
      ∧ demo_building.scare_rat_at_pos demo_rat ⟨6 / 5, 0, 0⟩ 1 true
          = some { demo_rat with fear := 7 / 10, fear_pos := ⟨6 / 5, 0, 0⟩ } :=
  ⟨((scare_fear_formula demo_building demo_rat ⟨6 / 5, 0, 0⟩ 1 true (by decide!) (by decide!)).2.2
      (by decide!) (by decide!) rfl).1, by decide!⟩

/-- C6, as stated, fails: the example agent has fear 0.995 of the point `(1, 0, 0)`; a new
threat at that very point, on its floor, not sight-gated, with contribution
`(4 - 1) / 4 = 0.75 > 0`, is dropped by the max-fear shortcut of line 529, so the fear stays
0.995 instead of becoming `min 1 (0.995 + 0.75) = 1`. -/
theorem scare_accumulates_counterexample :
    0 ≤ demo_rat_max_fear.fear ∧ demo_rat_max_fear.fear ≤ 1
      ∧ ¬ |demo_rat_max_fear.pos.z - (⟨1, 0, 0⟩ : point).z| > demo_building.get_window_vspace
      ∧ demo_building.scare_fear demo_rat_max_fear ⟨1, 0, 0⟩ 1 = 3 / 4
      ∧ demo_building.scare_rat_at_pos demo_rat_max_fear ⟨1, 0, 0⟩ 1 false = some demo_rat_max_fear
      ∧ demo_rat_max_fear.fear
          ≠ min 1 (demo_rat_max_fear.fear + demo_building.scare_fear demo_rat_max_fear ⟨1, 0, 0⟩ 1) := by
  decide!

/-- C6, amended: for every agent and every call to `scare_rat_at_pos` with a positive amount
whose threat is on the agent's floor, passes the sight gate (or is not sight-gated), has
contribution `c > 0`, and does not hit the max-fear shortcut (fear above 0.99 of a point
within one radius of the threat), the fear after the call is `min 1 (f + c)`. -/
theorem scare_accumulates (b : building_t) (rat : rat_t) (scare_pos : point) (amount : ℚ)
    (by_sight : Bool) (ha : amount > 0)
    (hfloor : ¬ |rat.pos.z - scare_pos.z| > b.get_window_vspace)
    (hshort : ¬ (rat.fear > 99 / 100 ∧ dist_less_than rat.fear_pos scare_pos rat.radius))
    (hc : b.scare_fear rat scare_pos amount > 0)
    (hsight : by_sight = true → b.check_line_of_sight_large_objs rat.get_center scare_pos = true) :
    ∃ r, b.scare_rat_at_pos rat scare_pos amount by_sight = some r
      ∧ r.fear = min 1 (rat.fear + b.scare_fear rat scare_pos amount) := by
  rw [scare_rat_at_pos_eq b rat scare_pos amount by_sight ha, if_neg]
  · exact ⟨_, rfl, rfl⟩
  · rintro (h | h | h | ⟨h, h'⟩)
    · exact hfloor h
    · exact hshort h
    · exact absurd hc (not_lt.mpr h)
    · rw [hsight h] at h'; exact Bool.noConfusion h'

/-- Witness of the amended C6: the example agent with fear 0.995 of `(1, 0, 0)` and a threat
at the distant point `(3, 0, 0)`, contribution 0.25: the fear becomes 1. -/
theorem scare_accumulates_witness :
    ∃ r, demo_building.scare_rat_at_pos demo_rat_max_fear ⟨3, 0, 0⟩ 1 true = some r
      ∧ r.fear = min 1 (demo_rat_max_fear.fear + demo_building.scare_fear demo_rat_max_fear ⟨3, 0, 0⟩ 1) :=
  scare_accumulates demo_building demo_rat_max_fear ⟨3, 0, 0⟩ 1 true (by decide!) (by decide!)
    (by decide!) (by decide!) (by decide!)

/-- C7, as stated, fails: the example agent has fear 1 of the far point `(10, 0, 0)`; a
threat at `(1, 0, 0)` with contribution 0.75 leaves the fear at 1 (not raised), and yet
`fear_pos` is overwritten with `(1, 0, 0)`. -/
theorem fear_pos_overwrite_counterexample :
    ∃ r, demo_building.scare_rat_at_pos demo_rat_full_fear ⟨1, 0, 0⟩ 1 false = some r
      ∧ ¬ r.fear > demo_rat_full_fear.fear
      ∧ r.fear_pos = ⟨1, 0, 0⟩
      ∧ r.fear_pos ≠ demo_rat_full_fear.fear_pos :=
  ⟨{ demo_rat_full_fear with fear_pos := ⟨1, 0, 0⟩ }, by decide!, by decide!, by decide!, by decide!⟩

/-- C7, amended: every call to `scare_rat_at_pos` with a positive amount returns, and
`fear_pos` is overwritten with the threat position exactly when the call is accepted (threat
on the agent's floor, no max-fear shortcut, contribution above 0, sight line when
sight-gated), whether or not the fear rises; so it is overwritten whenever the fear rises, an
accepted call at fear below 1 raises the fear, and a call that is not accepted leaves the
whole agent, `fear_pos` included, unchanged. -/
theorem fear_pos_overwrite (b : building_t) (rat : rat_t) (scare_pos : point) (amount : ℚ)
    (by_sight : Bool) (ha : amount > 0) :
    ∃ r, b.scare_rat_at_pos rat scare_pos amount by_sight = some r
      ∧ ((¬ |rat.pos.z - scare_pos.z| > b.get_window_vspace
            ∧ ¬ (rat.fear > 99 / 100 ∧ dist_less_than rat.fear_pos scare_pos rat.radius)
            ∧ b.scare_fear rat scare_pos amount > 0
            ∧ (by_sight = true → b.check_line_of_sight_large_objs rat.get_center scare_pos = true)) →
          r.fear_pos = scare_pos ∧ (rat.fear < 1 → r.fear > rat.fear))
      ∧ (¬ (¬ |rat.pos.z - scare_pos.z| > b.get_window_vspace
            ∧ ¬ (rat.fear > 99 / 100 ∧ dist_less_than rat.fear_pos scare_pos rat.radius)
            ∧ b.scare_fear rat scare_pos amount > 0
            ∧ (by_sight = true → b.check_line_of_sight_large_objs rat.get_center scare_pos = true)) →
          r = rat)
      ∧ (r.fear > rat.fear → r.fear_pos = scare_pos) := by
  rw [scare_rat_at_pos_eq b rat scare_pos amount by_sight ha]
  by_cases hign : |rat.pos.z - scare_pos.z| > b.get_window_vspace
      ∨ (rat.fear > 99 / 100 ∧ dist_less_than rat.fear_pos scare_pos rat.radius)
      ∨ b.scare_fear rat scare_pos amount ≤ 0
      ∨ (by_sight = true ∧ b.check_line_of_sight_large_objs rat.get_center scare_pos = false)
  · rw [if_pos hign]
    refine ⟨rat, rfl, ?_, fun _ => rfl, fun h => absurd h (lt_irrefl _)⟩
    rintro ⟨h1, h2, h3, h4⟩
    exfalso
    rcases hign with h | h | h | ⟨h, h'⟩
    · exact h1 h
    · exact h2 h
    · exact absurd h3 (not_lt.mpr h)
    · rw [h4 h] at h'; exact Bool.noConfusion h'
  · rw [if_neg hign]
    refine ⟨_, rfl, ?_, ?_, fun _ => rfl⟩
    · rintro ⟨_, _, h3, _⟩
      refine ⟨rfl, fun hlt => ?_⟩
      show min 1 (rat.fear + b.scare_fear rat scare_pos amount) > rat.fear
      exact lt_min hlt (by linarith)
    · intro hn
      exfalso
      apply hn
      push_neg at hign
      obtain ⟨h1, h2, h3, h4⟩ := hign
      refine ⟨not_lt.mpr h1, ?_, h3, ?_⟩
      · rintro ⟨ha', hb'⟩
        exact h2 ha' hb'
      · intro hs
        cases hlos : b.check_line_of_sight_large_objs rat.get_center scare_pos
        · exact absurd hlos (h4 hs)
        · rfl

/-- Witness of the amended C7: the counterexample call is accepted, so it overwrites
`fear_pos` although the fear was already 1. -/
theorem fear_pos_overwrite_witness :
    ∃ r, demo_building.scare_rat_at_pos demo_rat_full_fear ⟨1, 0, 0⟩ 1 false = some r
      ∧ r.fear_pos = ⟨1, 0, 0⟩ := by
  obtain ⟨r, hr, hacc, _, _⟩ :=
    fear_pos_overwrite demo_building demo_rat_full_fear ⟨1, 0, 0⟩ 1 false (by decide!)
  exact ⟨r, hr, (hacc (by decide!)).1⟩

/-- C8 (ignored threats change nothing): `scare_rat_at_pos`, called with a positive amount,
returns the agent completely unchanged whenever the threat is on a different floor
(`|agent z - threat z| > floor spacing`), or the computed contribution is at most 0, or the
call is sight-gated and there is no line of sight from the agent's center to the threat. -/
theorem scare_ignored_unchanged (b : building_t) (rat : rat_t) (scare_pos : point) (amount : ℚ)
    (by_sight : Bool) (ha : amount > 0)
    (h : |rat.pos.z - scare_pos.z| > b.get_window_vspace
      ∨ b.scare_fear rat scare_pos amount ≤ 0
      ∨ (by_sight = true ∧ b.check_line_of_sight_large_objs rat.get_center scare_pos = false)) :
    b.scare_rat_at_pos rat scare_pos amount by_sight = some rat := by
  rw [scare_rat_at_pos_eq b rat scare_pos amount by_sight ha, if_pos]
  rcases h with h | h | h
  · exact Or.inl h
  · exact Or.inr (Or.inr (Or.inl h))
  · exact Or.inr (Or.inr (Or.inr h))

/-- Witness of C8: a threat two floors up, a threat too far away (contribution
`(4 - 5) / 4`), and a sight-gated threat without a sight line all leave the example agent
unchanged. -/
theorem scare_ignored_unchanged_witness :
    demo_building.scare_rat_at_pos demo_rat ⟨0, 0, 2⟩ 1 false = some demo_rat
      ∧ demo_building.scare_rat_at_pos demo_rat ⟨5, 0, 0⟩ 1 false = some demo_rat
      ∧ demo_building_dark.scare_rat_at_pos demo_rat ⟨1, 0, 0⟩ 1 true = some demo_rat :=
  ⟨scare_ignored_unchanged demo_building demo_rat ⟨0, 0, 2⟩ 1 false (by decide!)
      (Or.inl (by decide!)),
    scare_ignored_unchanged demo_building demo_rat ⟨5, 0, 0⟩ 1 false (by decide!)
      (Or.inr (Or.inl (by decide!))),
    scare_ignored_unchanged demo_building_dark demo_rat ⟨1, 0, 0⟩ 1 true (by decide!)
      (Or.inr (Or.inr (by decide!)))⟩


/-! ### The per-agent update: which step writes which field -/

/-- The collision step writes only `pos` and `wake_time` of the agent. -/
lemma update_rat_collision_frame (b : building_t) (k : rat_consts_t) (camera_bs : point)
    (st : update_state_t) :
    ∃ p w, (b.update_rat_collision k camera_bs st).rat = { st.rat with pos := p, wake_time := w } := by
  unfold building_t.update_rat_collision building_t.sleep_for
  simp only []
  split_ifs <;> exact ⟨_, _, rfl⟩

/-- The attack step writes only `dest`, `speed` and `wake_time` of the agent. -/
lemma update_rat_attack_frame (b : building_t) (k : rat_consts_t) (camera_bs p1 : point)
    (st : update_state_t) :
    ∃ d s w, (b.update_rat_attack k camera_bs p1 st).rat
      = { st.rat with dest := d, speed := s, wake_time := w } := by
  unfold building_t.update_rat_attack
  simp only []
  split_ifs <;> exact ⟨_, _, _, rfl⟩

/-- The wander loop writes only `dest` and `speed` of the agent. -/
lemma wander_loop_frame (b : building_t) (k : rat_consts_t) (p1 : point) (is_scared : Bool)
    (dub ms : ℚ) (remaining : Nat) :
    ∀ (n : Nat) (fov dist : ℚ) (st : update_state_t),
      ∃ d s, (b.wander_loop k p1 is_scared dub ms remaining n fov dist st).1.rat
        = { st.rat with dest := d, speed := s } := by
  induction remaining with
  | zero => intro n fov dist st; exact ⟨_, _, rfl⟩
  | succ j ih =>
    intro n fov dist st
    unfold building_t.wander_loop
    simp only []
    split
    · exact ih _ _ _ _
    · split_ifs
      all_goals first | exact ⟨_, _, rfl⟩ | exact ih _ _ _ _

/-- The rest-or-wander step writes only `dest`, `speed`, `wake_time` and `dist_since_sleep`
of the agent. -/
lemma update_rat_wander_frame (b : building_t) (k : rat_consts_t) (p1 : point)
    (is_scared newly_scared : Bool) (st st' : update_state_t)
    (h : b.update_rat_wander k p1 is_scared newly_scared st = some st') :
    ∃ d s w ds, st'.rat = { st.rat with dest := d, speed := s, wake_time := w, dist_since_sleep := ds } := by
  unfold building_t.update_rat_wander at h
  simp only [] at h
  split_ifs at h
  all_goals cases h
  · exact ⟨_, _, _, _, rfl⟩
  · obtain ⟨d, s, hw⟩ := wander_loop_frame b k p1 is_scared _ _ 200 0 _ _
      { st with rgen := (b.rf.rand st.rgen).2, rat := { st.rat with speed := 0 } }
    exact ⟨d, s, _, _, hw⟩
  · exact ⟨_, _, _, _, rfl⟩
  · obtain ⟨d, s, hw⟩ := wander_loop_frame b k p1 is_scared _ _ 200 0 _ _
      { st with rat := { st.rat with speed := 0 } }
    exact ⟨d, s, _, _, hw⟩
  · exact ⟨_, _, _, _, rfl⟩

/-- The hiding step writes only `wake_time`, `speed`, `dest` and `fear` of the agent, and
the fear it writes is the decayed one. -/
lemma update_rat_hide_frame (b : building_t) (k : rat_consts_t) (rats : vect_rat_t) (self_ix : Nat)
    (p1 : point) (timestep : ℚ) (fuel : Nat) (st st' : update_state_t)
    (h : b.update_rat_hide k rats self_ix p1 timestep fuel st = some st') :
    ∃ s d, st'.rat
      = { st.rat with wake_time := 0, speed := s, dest := d,
                      fear := max 0 (st.rat.fear - (2 / 10) * (timestep / b.TICKS_PER_SECOND)) } := by
  unfold building_t.update_rat_hide at h
  simp only [] at h
  split at h
  · exact Option.noConfusion h
  · split_ifs at h
    all_goals cases h
    all_goals exact ⟨_, _, rfl⟩

/-- The heading step writes only `pos`, `speed`, `dist_since_sleep`, `is_hiding` and `dir`
of the agent. -/
lemma update_rat_dir_frame (b : building_t) (k : rat_consts_t) (timestep : ℚ) (is_scared : Bool)
    (st st' : update_state_t) (h : b.update_rat_dir k timestep is_scared st = some st') :
    ∃ p s ds ih d, st'.rat
      = { st.rat with pos := p, speed := s, dist_since_sleep := ds, is_hiding := ih, dir := d } := by
  have hsnap : ∃ p s ds, (dir_snap k st).rat
      = { st.rat with pos := p, speed := s, dist_since_sleep := ds } := by
    unfold dir_snap; split_ifs <;> exact ⟨_, _, _, rfl⟩
  have hturn : ∀ (v : vector3d) (s : update_state_t),
      ∃ d, (b.dir_turn timestep is_scared v s).rat = { s.rat with dir := d } := by
    intro v s; unfold building_t.dir_turn; split_ifs <;> exact ⟨_, rfl⟩
  have hfix : ∀ s : update_state_t, ∃ d, (b.dir_fix s).rat = { s.rat with dir := d } := by
    intro s; unfold building_t.dir_fix; split_ifs <;> exact ⟨_, rfl⟩
  unfold building_t.update_rat_dir at h
  simp only [] at h
  split_ifs at h
  cases h
  obtain ⟨p, s, ds, h1⟩ := hsnap
  obtain ⟨d2, h2⟩ := hfix (b.dir_turn timestep is_scared (b.dir_target k st)
    { dir_snap k st with rat := { (dir_snap k st).rat with is_hiding :=
        ((dir_snap k st).has_fear_dest
          && decide (dist_less_than (dir_snap k st).rat.pos (dir_snap k st).rat.dest (2 * k.dist_thresh))) } })
  obtain ⟨d3, h3⟩ := hturn (b.dir_target k st)
    { dir_snap k st with rat := { (dir_snap k st).rat with is_hiding :=
        ((dir_snap k st).has_fear_dest
          && decide (dist_less_than (dir_snap k st).rat.pos (dir_snap k st).rat.dest (2 * k.dist_thresh))) } }
  rw [h2, h3]
  simp only []
  rw [h1]
  exact ⟨_, _, _, _, _, rfl⟩

/-- A call to `scare_rat_at_pos` writes only `fear` and `fear_pos`; it never lowers a fear
that is at most 1, and keeps the fear in `[0, 1]`. -/
lemma scare_rat_at_pos_frame (b : building_t) (rat r : rat_t) (scare_pos : point) (amount : ℚ)
    (by_sight : Bool) (h : b.scare_rat_at_pos rat scare_pos amount by_sight = some r) :
    ∃ f fp, r = { rat with fear := f, fear_pos := fp } ∧ (rat.fear ≤ 1 → rat.fear ≤ f ∧ f ≤ 1) := by
  unfold building_t.scare_rat_at_pos at h
  simp only [] at h
  split_ifs at h with h0 h1 h2 h3 h4
  all_goals first | exact Option.noConfusion h | cases h
  · exact ⟨_, _, rfl, fun h1 => ⟨le_refl _, h1⟩⟩
  · exact ⟨_, _, rfl, fun h1 => ⟨le_refl _, h1⟩⟩
  · exact ⟨_, _, rfl, fun h1 => ⟨le_refl _, h1⟩⟩
  · exact ⟨_, _, rfl, fun h1 => ⟨le_refl _, h1⟩⟩
  · exact ⟨_, _, rfl, fun hle => ⟨le_min hle (by linarith), min_le_left _ _⟩⟩

/-- A call to `scare_rat_at_pos` with a positive amount returns. -/
lemma scare_rat_at_pos_isSome (b : building_t) (rat : rat_t) (scare_pos : point) (amount : ℚ)
    (by_sight : Bool) (ha : amount > 0) :
    ∃ r, b.scare_rat_at_pos rat scare_pos amount by_sight = some r := by
  rw [scare_rat_at_pos_eq b rat scare_pos amount by_sight ha]
  split_ifs
  · exact ⟨_, rfl⟩
  · exact ⟨_, rfl⟩

/-- The loop over the other people writes only `fear` and `fear_pos`, always returns, never
lowers a fear that is at most 1, and keeps it at most 1. -/
lemma scare_rat_peds_frame (b : building_t) (cs : List cube_t) :
    ∀ rat : rat_t, ∃ r f fp, b.scare_rat_peds cs rat = some r
      ∧ r = { rat with fear := f, fear_pos := fp }
      ∧ (rat.fear ≤ 1 → rat.fear ≤ f ∧ f ≤ 1) := by
  induction cs with
  | nil => intro rat; exact ⟨rat, _, _, rfl, rfl, fun h => ⟨le_refl _, h⟩⟩
  | cons c cs ih =>
    intro rat
    obtain ⟨r1, h1⟩ := scare_rat_at_pos_isSome b rat ⟨(c.x1 + c.x2) / 2, (c.y1 + c.y2) / 2, c.z1⟩
      (1 / 2) true (by norm_num)
    obtain ⟨f1, fp1, hf1, hb1⟩ := scare_rat_at_pos_frame b rat r1 _ _ _ h1
    obtain ⟨r2, f2, fp2, h2, hf2, hb2⟩ := ih r1
    refine ⟨r2, f2, fp2, ?_, ?_, ?_⟩
    · rw [building_t.scare_rat_peds, h1]; exact h2
    · rw [hf2, hf1]
    · intro hle
      have a1 := hb1 hle
      have a2 := hb2 (by rw [hf1]; exact a1.2)
      rw [hf1] at a2
      exact ⟨le_trans a1.1 a2.1, a2.2⟩

/-- The function `scare_rat` always returns; it writes only `fear`, `fear_pos` and
`near_player`, never lowers a fear that is at most 1, and keeps it at most 1. -/
lemma scare_rat_frame (b : building_t) (rat : rat_t) (camera_bs : point) (ped_ix : Int) :
    ∃ r f fp np, b.scare_rat rat camera_bs ped_ix = some r
      ∧ r = { rat with fear := f, fear_pos := fp, near_player := np }
      ∧ (rat.fear ≤ 1 → rat.fear ≤ f ∧ f ≤ 1) := by
  unfold building_t.scare_rat
  simp only []
  obtain ⟨r1, f1, fp1, h1, hf1, hb1⟩ := scare_rat_peds_frame b
    (if ped_ix ≥ 0 then b.get_ped_bcubes_for_building ped_ix else []) rat
  rw [h1]
  simp only [Option.some_bind]
  -- the player
  have hplayer : ∃ r5 f5 fp5 np5, (if b.camera_surf_collide = true then
        b.scare_rat_at_pos
          (if b.min_attack_rats > 0 ∧ b.in_building_gameplay_mode = true
              ∧ |r1.pos.z - camera_bs.z| < b.get_window_vspace
              ∧ dist_less_than r1.pos camera_bs (RAT_VIEW_FLOORS * b.get_window_vspace)
              ∧ b.check_line_of_sight_large_objs r1.pos camera_bs = true
            then { r1 with near_player := true } else { r1 with near_player := false })
          camera_bs (1 / 2) true
      else some { r1 with near_player := false }) = some r5
      ∧ r5 = { r1 with fear := f5, fear_pos := fp5, near_player := np5 }
      ∧ (r1.fear ≤ 1 → r1.fear ≤ f5 ∧ f5 ≤ 1) := by
    by_cases hc : b.camera_surf_collide = true
    · rw [if_pos hc]
      split_ifs with hnear
      · obtain ⟨r5, h5⟩ := scare_rat_at_pos_isSome b { r1 with near_player := true } camera_bs
          (1 / 2) true (by norm_num)
        obtain ⟨f5, fp5, hf5, hb5⟩ := scare_rat_at_pos_frame b _ r5 _ _ _ h5
        exact ⟨r5, f5, fp5, true, h5, hf5, hb5⟩
      · obtain ⟨r5, h5⟩ := scare_rat_at_pos_isSome b { r1 with near_player := false } camera_bs
          (1 / 2) true (by norm_num)
        obtain ⟨f5, fp5, hf5, hb5⟩ := scare_rat_at_pos_frame b _ r5 _ _ _ h5
        exact ⟨r5, f5, fp5, false, h5, hf5, hb5⟩
    · rw [if_neg hc]
      exact ⟨_, _, _, _, rfl, rfl, fun h => ⟨le_refl _, h⟩⟩
  obtain ⟨r5, f5, fp5, np5, h5, hf5, hb5⟩ := hplayer
  rw [h5]
  simp only [Option.some_bind]
  have a1 : rat.fear ≤ 1 → rat.fear ≤ r5.fear ∧ r5.fear ≤ 1 := by
    intro hle
    have a1 := hb1 hle
    have a2 := hb5 (by rw [hf1]; exact a1.2)
    rw [hf1] at a2
    rw [hf5]
    exact ⟨le_trans a1.1 a2.1, a2.2⟩
  split_ifs with hs
  · obtain ⟨r6, h6⟩ := scare_rat_at_pos_isSome b r5 b.get_cur_frame_loudest_sound.pos
      (4 * b.get_cur_frame_loudest_sound.radius) false (by linarith)
    obtain ⟨f6, fp6, hf6, hb6⟩ := scare_rat_at_pos_frame b _ r6 _ _ _ h6
    refine ⟨r6, f6, fp6, np5, h6, ?_, ?_⟩
    · rw [hf6, hf5, hf1]
    · intro hle
      have a2 := a1 hle
      have a3 := hb6 a2.2
      exact ⟨le_trans a2.1 a3.1, a3.2⟩
  · refine ⟨r5, f5, fp5, np5, rfl, ?_, ?_⟩
    · rw [hf5, hf1]
    · intro hle
      have a2 := a1 hle
      rw [hf5] at a2
      exact a2

/-- The fear and the attack flag at the end of `update_rat`, in terms of the agent `r1` that
`scare_rat` returns for the agent as it is after the collision step: the attack flag is
`r1.near_player && can_attack_player`, an attacking agent ends with fear 0, a scared one
with the decayed fear, and the collision step itself does not touch the fear. -/
lemma update_rat_fear (b : building_t) (fuel : Nat) (rats : vect_rat_t) (self_ix : Nat)
    (camera_bs : point) (ped_ix : Int) (timestep : ℚ) (can_attack_player : Bool)
    (st st' : update_state_t)
    (hrun : b.update_rat fuel rats self_ix camera_bs ped_ix timestep can_attack_player st = some st') :
    ∃ r1, b.scare_rat (b.after_collision camera_bs timestep st).rat camera_bs ped_ix = some r1
      ∧ (b.after_collision camera_bs timestep st).rat.fear = st.rat.fear
      ∧ st'.rat.attacking = (r1.near_player && can_attack_player)
      ∧ st'.rat.fear = (if (r1.near_player && can_attack_player) = true then 0
          else if r1.fear > 0 then max 0 (r1.fear - (2 / 10) * (timestep / b.TICKS_PER_SECOND))
          else r1.fear) := by
  unfold building_t.update_rat at hrun
  simp only [] at hrun
  split_ifs at hrun with hw
  obtain ⟨st2, hscare, hrun⟩ := Option.bind_eq_some.mp hrun
  obtain ⟨st4, hhide, hrun⟩ := Option.bind_eq_some.mp hrun
  obtain ⟨st5, hwander, hdir⟩ := Option.bind_eq_some.mp hrun
  -- the collision step
  have hcoll : (b.after_collision camera_bs timestep st).rat.fear = st.rat.fear := by
    obtain ⟨p, w, hc⟩ := update_rat_collision_frame b (b.rat_consts st.rat timestep) camera_bs st.enter
    unfold building_t.after_collision
    rw [hc]
    rfl
  -- the threat calls
  unfold building_t.update_rat_scare at hscare
  obtain ⟨r1, hr1, hst2⟩ := Option.map_eq_some'.mp hscare
  refine ⟨r1, hr1, hcoll, ?_⟩
  -- the later steps
  obtain ⟨d3, s3, w3, h3⟩ := update_rat_attack_frame b (b.rat_consts st.rat timestep) camera_bs
    ((b.after_collision camera_bs timestep st).rat.pos.add (b.rat_consts st.rat timestep).center_dz) st2
  obtain ⟨d5, s5, w5, ds5, h5⟩ := update_rat_wander_frame b _ _ _ _ st4 st5 hwander
  obtain ⟨p6, s6, ds6, ih6, d6, h6⟩ := update_rat_dir_frame b _ _ _ st5 st' hdir
  have hfear2 : st2.rat.fear = if (r1.near_player && can_attack_player) = true then 0 else r1.fear := by
    rw [← hst2]
  have hatt2 : st2.rat.attacking = (r1.near_player && can_attack_player) := by
    rw [← hst2]
  by_cases hsc : st2.rat.fear > 0
  · rw [if_pos (by simpa using hsc)] at hhide
    obtain ⟨s4, d4, h4⟩ := update_rat_hide_frame b _ rats self_ix _ timestep fuel _ st4 hhide
    rw [h6, h5, h4, h3]
    refine ⟨hatt2, ?_⟩
    show max 0 (st2.rat.fear - 2 / 10 * (timestep / b.TICKS_PER_SECOND)) = _
    rw [hfear2] at hsc ⊢
    by_cases ha : (r1.near_player && can_attack_player) = true
    · simp only [ha, if_true] at hsc
      exact absurd hsc (lt_irrefl _)
    · rw [if_neg ha] at hsc
      rw [if_neg ha, if_neg ha, if_pos hsc]
  · rw [if_neg (by simpa using hsc)] at hhide
    cases hhide
    rw [h6, h5, h3]
    refine ⟨hatt2, ?_⟩
    show st2.rat.fear = _
    rw [hfear2] at hsc ⊢
    by_cases ha : (r1.near_player && can_attack_player) = true
    · simp only [ha, if_true]
    · rw [if_neg ha] at hsc
      rw [if_neg ha, if_neg ha, if_neg hsc]

/-! ### Fear -/

/-- C1 (fear stays in `[0, 1]`): for an agent whose fear is in `[0, 1]`, every call to
`scare_rat_at_pos` with a positive amount (any threat position, sight-gated or not) returns
an agent whose fear is in `[0, 1]`; so does every finite sequence of such calls; a full
`update_rat` with a timestep `≥ 0` (and `TICKS_PER_SECOND ≥ 0`) that returns leaves the fear
in `[0, 1]`; and `add_rat` either leaves the container as it is or appends one agent whose
fear is exactly 1. -/
theorem fear_stays_in_unit_interval (b : building_t) (rat : rat_t)
    (hf0 : 0 ≤ rat.fear) (hf1 : rat.fear ≤ 1) :
    (∀ (scare_pos : point) (amount : ℚ) (by_sight : Bool), amount > 0 →
        ∃ r, b.scare_rat_at_pos rat scare_pos amount by_sight = some r ∧ 0 ≤ r.fear ∧ r.fear ≤ 1)
      ∧ (∀ calls : List (point × ℚ × Bool), (∀ c ∈ calls, c.2.1 > 0) →
        ∃ r, b.scare_calls calls rat = some r ∧ 0 ≤ r.fear ∧ r.fear ≤ 1)
      ∧ (∀ (fuel : Nat) (rats : vect_rat_t) (self_ix : Nat) (camera_bs : point) (ped_ix : Int)
          (timestep : ℚ) (can_attack_player : Bool) (st st' : update_state_t),
        st.rat = rat → 0 ≤ timestep → 0 ≤ b.TICKS_PER_SECOND →
        b.update_rat fuel rats self_ix camera_bs ped_ix timestep can_attack_player st = some st' →
        0 ≤ st'.rat.fear ∧ st'.rat.fear ≤ 1)
      ∧ (∀ (rats : vect_rat_t) (pos : point) (hlength : ℚ) (dir : vector3d) (placed_from : point),
        (b.add_rat rats pos hlength dir placed_from).2.1 = rats
          ∨ ∃ r, r.fear = 1
            ∧ (b.add_rat rats pos hlength dir placed_from).2.1.rats = rats.rats ++ [r]) := by
  have hone : ∀ (rat : rat_t) (scare_pos : point) (amount : ℚ) (by_sight : Bool),
      0 ≤ rat.fear → rat.fear ≤ 1 → amount > 0 →
      ∃ r, b.scare_rat_at_pos rat scare_pos amount by_sight = some r ∧ 0 ≤ r.fear ∧ r.fear ≤ 1 := by
    intro rat scare_pos amount by_sight h0 h1 ha
    obtain ⟨r, hr⟩ := scare_rat_at_pos_isSome b rat scare_pos amount by_sight ha
    obtain ⟨f, fp, hf, hb⟩ := scare_rat_at_pos_frame b rat r _ _ _ hr
    have := hb h1
    refine ⟨r, hr, ?_, ?_⟩
    · rw [hf]; exact le_trans h0 this.1
    · rw [hf]; exact this.2
  refine ⟨fun p a s ha => hone rat p a s hf0 hf1 ha, ?_, ?_, ?_⟩
  · intro calls
    induction calls generalizing rat with
    | nil => intro _; exact ⟨rat, rfl, hf0, hf1⟩
    | cons c cs ih =>
      intro hpos
      obtain ⟨r1, hr1, h0, h1⟩ := hone rat c.1 c.2.1 c.2.2 hf0 hf1 (hpos c (List.mem_cons_self _ _))
      obtain ⟨r2, hr2, hb⟩ := ih r1 h0 h1 (fun c' hc' => hpos c' (List.mem_cons_of_mem _ hc'))
      refine ⟨r2, ?_, hb⟩
      rw [building_t.scare_calls, hr1]
      exact hr2
  · intro fuel rats self_ix camera_bs ped_ix timestep can_attack_player st st' hst ht htps hrun
    obtain ⟨r1, hr1, hcoll, _, hfear⟩ :=
      update_rat_fear b fuel rats self_ix camera_bs ped_ix timestep can_attack_player st st' hrun
    obtain ⟨r1', f, fp, np, hr1', hf, hb⟩ :=
      scare_rat_frame b (b.after_collision camera_bs timestep st).rat camera_bs ped_ix
    rw [hr1] at hr1'
    cases hr1'
    rw [hcoll, hst] at hb
    have hb := hb hf1
    have hr0 : 0 ≤ r1.fear := by rw [hf]; exact le_trans hf0 hb.1
    have hr1le : r1.fear ≤ 1 := by rw [hf]; exact hb.2
    have hdec : 0 ≤ 2 / 10 * (timestep / b.TICKS_PER_SECOND) := by positivity
    rw [hfear]
    split_ifs
    · exact ⟨le_refl _, zero_le_one⟩
    · exact ⟨le_max_left _ _, max_le zero_le_one (by linarith)⟩
    · exact ⟨hr0, hr1le⟩
  · intro rats pos hlength dir placed_from
    unfold building_t.add_rat
    split
    · exact Or.inl rfl
    · simp only []
      split_ifs
      · split
        · exact Or.inl rfl
        · exact Or.inl rfl
      · exact Or.inr ⟨_, rfl, rfl⟩

/-- Witness of C1: the example agent with fear 0.995 after one full `update_rat` of
timestep 4 in the example building. -/
theorem fear_stays_in_unit_interval_witness :
    ∃ st', demo_run_scared = some st' ∧ 0 ≤ st'.rat.fear ∧ st'.rat.fear ≤ 1 :=
  ⟨demo_run_scared.get (by decide!), (Option.some_get (by decide!)).symm,
    (fear_stays_in_unit_interval demo_building demo_rat_max_fear (by decide!) (by decide!)).2.2.1
      10 (demo_rats demo_rat_max_fear) 0 ⟨5, 5, 0⟩ (-1) 4 false (demo_state demo_rat_max_fear)
      (demo_run_scared.get (by decide!)) rfl (by decide!) (by decide!)
      (Option.some_get (by decide!)).symm⟩

/-- C9 (fear changes only as stated): `scare_rat_at_pos` never lowers a fear that is at most
1; and in a tick in which the threat calls made by `scare_rat` contribute nothing (they
return the fear the agent entered `update_rat` with), the fear at the end of `update_rat` is
0 if the agent is attacking, `max 0 (f - 0.2 * timestep / TICKS_PER_SECOND)` if the prior
fear `f` is above 0, and `f` otherwise; for a timestep and `TICKS_PER_SECOND` that are not
negative and `f ≥ 0` it is never above `f`. -/
theorem fear_changes_only_as_stated (b : building_t) (fuel : Nat) (rats : vect_rat_t) (self_ix : Nat)
    (camera_bs : point) (ped_ix : Int) (timestep : ℚ) (can_attack_player : Bool)
    (st st' : update_state_t)
    (hrun : b.update_rat fuel rats self_ix camera_bs ped_ix timestep can_attack_player st = some st') :
    (∀ (rat r : rat_t) (scare_pos : point) (amount : ℚ) (by_sight : Bool), rat.fear ≤ 1 →
        b.scare_rat_at_pos rat scare_pos amount by_sight = some r → rat.fear ≤ r.fear)
      ∧ ((∀ r1, b.scare_rat (b.after_collision camera_bs timestep st).rat camera_bs ped_ix = some r1 →
            r1.fear = st.rat.fear) →
          st'.rat.fear = (if st'.rat.attacking = true then 0
            else if st.rat.fear > 0
              then max 0 (st.rat.fear - (2 / 10) * (timestep / b.TICKS_PER_SECOND))
            else st.rat.fear)
          ∧ (0 ≤ timestep → 0 ≤ b.TICKS_PER_SECOND → 0 ≤ st.rat.fear → st'.rat.fear ≤ st.rat.fear)) := by
  refine ⟨?_, ?_⟩
  · intro rat r scare_pos amount by_sight h1 hr
    obtain ⟨f, fp, hf, hb⟩ := scare_rat_at_pos_frame b rat r _ _ _ hr
    rw [hf]
    exact (hb h1).1
  · intro hquiet
    obtain ⟨r1, hr1, _, hatt, hfear⟩ :=
      update_rat_fear b fuel rats self_ix camera_bs ped_ix timestep can_attack_player st st' hrun
    have hq := hquiet r1 hr1
    rw [hq] at hfear
    rw [hatt]
    refine ⟨hfear, ?_⟩
    intro ht htps hf0
    have hdec : 0 ≤ 2 / 10 * (timestep / b.TICKS_PER_SECOND) := by positivity
    rw [hfear]
    split_ifs
    · exact hf0
    · exact max_le hf0 (by linarith)
    · exact le_refl _

/-- Witness of C9: in the example building nothing scares the agent (no people, no player
collision, no sound), and the fear 0.995 decays by `0.2 * 4 / 40 = 0.02` to 0.975. -/
theorem fear_changes_only_as_stated_witness :
    ∃ st', demo_run_scared = some st' ∧ st'.rat.fear = 39 / 40
      ∧ st'.rat.fear ≤ (demo_state demo_rat_max_fear).rat.fear :=
  ⟨demo_run_scared.get (by decide!), (Option.some_get (by decide!)).symm, by decide!,
    ((fear_changes_only_as_stated demo_building 10 (demo_rats demo_rat_max_fear) 0 ⟨5, 5, 0⟩ (-1) 4
      false (demo_state demo_rat_max_fear) (demo_run_scared.get (by decide!))
      (Option.some_get (by decide!)).symm).2
      (fun r1 h => by
        have h2 : (demo_building.scare_rat
            (demo_building.after_collision ⟨5, 5, 0⟩ 4 (demo_state demo_rat_max_fear)).rat
            ⟨5, 5, 0⟩ (-1)).map (fun r => r.fear) = some (199 / 200) := by decide!
        rw [h] at h2
        exact Option.some.inj h2)).2 (by decide!) (by decide!) (by decide!)⟩




/-! ### Heading -/

/-- Normalizing keeps a vector horizontal. -/
lemma get_norm_z (m : math_t) (v : vector3d) (hz : v.z = 0) : (m.get_norm v).z = 0 := by
  unfold math_t.get_norm
  split_ifs
  · exact hz
  · show v.z / m.mag v = 0
    rw [hz, zero_div]

/-- On a list in ascending order the halving loop never steps over an element that is not
below `x`: every element before the returned index is below `x`. -/
lemma lower_bound_x_spec (xs : List ℚ) (x : ℚ) (hs : xs.Pairwise (· ≤ ·)) (fuel : Nat) :
    ∀ first count : Nat, first + count ≤ xs.length → (∀ j, j < first → xs.getD j 0 < x) →
      ∀ j, j < lower_bound_x xs x fuel first count → xs.getD j 0 < x := by
  induction fuel with
  | zero => intro first count _ hinv j hj; exact hinv j hj
  | succ fuel ih =>
    intro first count hlen hinv j hj
    unfold lower_bound_x at hj
    simp only [] at hj
    split_ifs at hj with h0 hlt
    · exact hinv j hj
    · refine ih (first + count / 2 + 1) (count - (count / 2 + 1)) ?_ ?_ j hj
      · have : count / 2 < count := Nat.div_lt_self (Nat.pos_of_ne_zero h0) (by norm_num)
        omega
      · intro i hi
        have hmid : first + count / 2 < xs.length := by
          have : count / 2 < count := Nat.div_lt_self (Nat.pos_of_ne_zero h0) (by norm_num)
          omega
        rcases Nat.lt_or_ge i (first + count / 2) with hlt' | hge
        · have hi' : i < xs.length := by omega
          rw [List.getD_eq_getElem _ _ hi']
          rw [List.getD_eq_getElem _ _ hmid] at hlt
          have := List.pairwise_iff_getElem.mp hs i (first + count / 2) hi' hmid hlt'
          exact lt_of_le_of_lt this hlt
        · have : i = first + count / 2 := by omega
          rw [this]
          exact hlt
    · refine ih first (count / 2) ?_ hinv j hj
      have : count / 2 < count := Nat.div_lt_self (Nat.pos_of_ne_zero h0) (by norm_num)
      omega

/-- A full scan may skip a prefix in which no agent is within the separation distance. -/
lemma full_scan_conflict_drop (self_ix : Nat) (own_radius : ℚ) (cand_dest : point) (n : Nat) :
    ∀ (l : List rat_t) (ix : Nat),
      (∀ r ∈ l.take n, ¬ dist_xy_less_than cand_dest r.pos ((8 / 10) * (own_radius + r.radius))) →
      full_scan_conflict self_ix own_radius cand_dest l ix
        = full_scan_conflict self_ix own_radius cand_dest (l.drop n) (ix + n) := by
  induction n with
  | zero => intro l ix _; rfl
  | succ n ih =>
    intro l ix h
    cases l with
    | nil => rfl
    | cons r rs =>
      have hr : ¬ dist_xy_less_than cand_dest r.pos ((8 / 10) * (own_radius + r.radius)) :=
        h r (by simp)
      have hrs : ∀ r' ∈ rs.take n,
          ¬ dist_xy_less_than cand_dest r'.pos ((8 / 10) * (own_radius + r'.radius)) := by
        intro r' hr'
        exact h r' (by simp [hr'])
      rw [full_scan_conflict, if_neg (fun hc => hr hc.2), ih rs (ix + 1) hrs]
      simp only [List.drop_succ_cons]
      congr 1
      omega

/-- An agent whose x differs from the candidate's by more than `rsum_max` is not within the
separation distance, when `rsum_max` is at least the separation and that is not negative. -/
lemma no_conflict_of_far_x (cand_dest : point) (r : rat_t) (own_radius rsum_max : ℚ)
    (h0 : 0 ≤ (8 / 10) * (own_radius + r.radius)) (hle : (8 / 10) * (own_radius + r.radius) ≤ rsum_max)
    (hfar : r.pos.x < cand_dest.x - rsum_max ∨ r.pos.x > cand_dest.x + rsum_max) :
    ¬ dist_xy_less_than cand_dest r.pos ((8 / 10) * (own_radius + r.radius)) := by
  unfold dist_xy_less_than p2p_dist_xy_sq
  intro hlt
  rcases hfar with h | h
  · nlinarith [mul_self_nonneg (cand_dest.y - r.pos.y)]
  · nlinarith [mul_self_nonneg (cand_dest.y - r.pos.y)]

/-- On a list in ascending order of x the range-limited scan and the full scan find the same
agent, when every agent beyond `coll_x2` is out of the separation distance. -/
lemma find_conflict_eq_full_scan (self_ix : Nat) (own_radius coll_x2 : ℚ) (cand_dest : point) :
    ∀ (l : List rat_t) (ix : Nat), sorted_by_x l →
      (∀ r ∈ l, r.pos.x > coll_x2 →
        ¬ dist_xy_less_than cand_dest r.pos ((8 / 10) * (own_radius + r.radius))) →
      find_conflict self_ix own_radius coll_x2 cand_dest l ix
        = full_scan_conflict self_ix own_radius cand_dest l ix := by
  intro l
  induction l with
  | nil => intro ix _ _; rfl
  | cons r rs ih =>
    intro ix hs hfar
    have hs' : sorted_by_x rs := (List.pairwise_cons.mp hs).2
    have hfar' : ∀ r' ∈ rs, r'.pos.x > coll_x2 →
        ¬ dist_xy_less_than cand_dest r'.pos ((8 / 10) * (own_radius + r'.radius)) :=
      fun r' hr' => hfar r' (List.mem_cons_of_mem _ hr')
    rw [find_conflict, full_scan_conflict]
    by_cases hx : r.pos.x > coll_x2
    · rw [if_pos hx, if_neg (fun hc => hfar r (List.mem_cons_self _ _) hx hc.2)]
      rw [full_scan_conflict_drop self_ix own_radius cand_dest rs.length rs (ix + 1)]
      · simp [full_scan_conflict]
      · intro r' hr'
        rw [List.take_length] at hr'
        refine hfar' r' hr' ?_
        exact lt_of_lt_of_le hx ((List.pairwise_cons.mp hs).1 r' hr')
    · rw [if_neg hx]
      by_cases hself : ix = self_ix
      · rw [if_pos hself, if_neg (fun hc => hc.1 hself)]
        exact ih (ix + 1) hs' hfar'
      · rw [if_neg hself]
        by_cases hd : dist_xy_less_than cand_dest r.pos ((8 / 10) * (own_radius + r.radius))
        · rw [if_neg (not_not.mpr hd), if_pos ⟨hself, hd⟩]
        · rw [if_pos hd, if_neg (fun hc => hd hc.2)]
          exact ih (ix + 1) hs' hfar'

/-- The neighbor scan before any nudge: on a container in ascending order of x, with radii
that sum to non-negative values, `max_radius` at least every radius and `max_xmove ≥ 0`, the
first scan of a candidate, which starts at the binary-search lower bound of
`cand.x - rsum_max` and stops beyond `cand.x + rsum_max`, finds the same agent as a full
linear scan. -/
lemma first_scan_eq_full_scan (rats : vect_rat_t) (self_ix : Nat) (own_radius : ℚ)
    (cand_dest : point) (hs : sorted_by_x rats.rats)
    (hr : ∀ r ∈ rats.rats, 0 ≤ own_radius + r.radius ∧ r.radius ≤ rats.max_radius)
    (hm : 0 ≤ rats.max_xmove) :
    find_conflict self_ix own_radius
        (cand_dest.x + ((8 / 10) * (own_radius + rats.max_radius) + rats.max_xmove)) cand_dest
        (rats.rats.drop (rats.get_first_rat_with_xv_gt
          (cand_dest.x - ((8 / 10) * (own_radius + rats.max_radius) + rats.max_xmove))))
        (rats.get_first_rat_with_xv_gt
          (cand_dest.x - ((8 / 10) * (own_radius + rats.max_radius) + rats.max_xmove)))
      = full_scan_conflict self_ix own_radius cand_dest rats.rats 0 := by
  set rsum_max := (8 / 10) * (own_radius + rats.max_radius) + rats.max_xmove with hrs
  set start := rats.get_first_rat_with_xv_gt (cand_dest.x - rsum_max) with hstart
  have hbound : ∀ r ∈ rats.rats, 0 ≤ (8 / 10) * (own_radius + r.radius)
      ∧ (8 / 10) * (own_radius + r.radius) ≤ rsum_max := by
    intro r hmem
    obtain ⟨h0, hle⟩ := hr r hmem
    constructor
    · positivity
    · rw [hrs]; linarith
  -- the agents before `start` are out of reach
  have hxs : (rats.rats.map fun r => r.pos.x).Pairwise (· ≤ ·) := by
    unfold sorted_by_x at hs
    exact List.pairwise_map.mpr hs
  have hprefix : ∀ r ∈ rats.rats.take start,
      ¬ dist_xy_less_than cand_dest r.pos ((8 / 10) * (own_radius + r.radius)) := by
    intro r hmem
    obtain ⟨j, hj, hjr⟩ := List.getElem_of_mem hmem
    have hjlt : j < start ∧ j < rats.rats.length := by
      rw [List.length_take] at hj
      exact lt_min_iff.mp hj
    have hlb := lower_bound_x_spec (rats.rats.map fun r => r.pos.x) (cand_dest.x - rsum_max) hxs
      rats.rats.length 0 rats.rats.length (by simp) (fun j hj => absurd hj (Nat.not_lt_zero j))
      j hjlt.1
    have hjm : j < (rats.rats.map fun r => r.pos.x).length := by simpa using hjlt.2
    rw [List.getD_eq_getElem _ _ hjm, List.getElem_map] at hlb
    have hrj : rats.rats[j] = r := by
      rw [← hjr, List.getElem_take]
    rw [hrj] at hlb
    have hb := hbound r (List.mem_of_mem_take hmem)
    exact no_conflict_of_far_x cand_dest r own_radius rsum_max hb.1 hb.2 (Or.inl hlb)
  rw [full_scan_conflict_drop self_ix own_radius cand_dest start rats.rats 0 hprefix, Nat.zero_add]
  apply find_conflict_eq_full_scan
  · exact List.Pairwise.sublist (List.drop_sublist _ _) hs
  · intro r hmem hx
    have hb := hbound r (List.mem_of_mem_drop hmem)
    exact no_conflict_of_far_x cand_dest r own_radius rsum_max hb.1 hb.2 (Or.inr hx)

/-- C4 at the failing input.  The container is sorted (agents at x = -1/2, 2 and 10, radius
1, `max_xmove = 0`) and the agent at x = 10 resolves the candidate `(0, 0, 0)`: the scan
window is `[-1.6, 1.6]`, the agent at -1/2 is in conflict, and the candidate is nudged to
`(1.116, 0, 0)`.  The rescan still uses the window `[-1.6, 1.6]`, stops at the agent at
x = 2 and reports no conflict, so the loop ends with `skip = false`; a full linear scan at the
nudged candidate reports the agent at x = 2, which is only 0.884 away.  The same happens in a
whole `update_rat`: in the building with the table, the scared agent at x = 7/2 gets the
anchor `(0, 1.227)` under the table, and ends with the destination `(1.116, 1.227, 0)`, less
than the separation 1.6 from the agent at `(2, 1.227, 0)`. -/
theorem neighbor_scan_misses_after_nudge :
    demo_resolve.map (fun ns => (ns.cand_dest, ns.skip)) = some (⟨279 / 250, 0, 0⟩, false)
      ∧ find_conflict 2 demo_rat_hider.radius (0 + (8 / 10) * (1 + 1)) ⟨279 / 250, 0, 0⟩
          (demo_sorted_rats.rats.drop (demo_sorted_rats.get_first_rat_with_xv_gt (0 - (8 / 10) * (1 + 1))))
          (demo_sorted_rats.get_first_rat_with_xv_gt (0 - (8 / 10) * (1 + 1))) = none
      ∧ full_scan_conflict 2 demo_rat_hider.radius ⟨279 / 250, 0, 0⟩ demo_sorted_rats.rats 0
          = some demo_rat_c
      ∧ demo_run_table.map (fun st => st.rat.dest) = some ⟨279 / 250, 1227 / 1000, 0⟩
      ∧ dist_xy_less_than ⟨279 / 250, 1227 / 1000, 0⟩ ⟨2, 1227 / 1000, 0⟩ ((8 / 10) * (1 + 1)) := by
  decide!

/-- C10, as stated, fails.  Own and other radius 1 (separation 1.6), occupant at the origin,
candidate at half the separation, `(0.8, 0, 0)`.  With the agent's own center at `(5, 0, 0)`,
straight behind the candidate, the candidate moves to `(1.616, 0, 0)`: its distance to the
occupant is `1.01 * 1.6`, not 1.6.  With the agent's own center at `(0.8, 5, 0)` the candidate
moves to `(0.8, 0.816, 0)`: sideways, not directly away from the occupant. -/
theorem nudge_displacement_counterexample :
    (demo_building.nudge (demo_building.rat_consts demo_rat 4) demo_rat ⟨5, 0, 0⟩ 0 0 0 demo_rat
        demo_nudge_state).cand_dest = ⟨202 / 125, 0, 0⟩
      ∧ p2p_dist_xy_sq ⟨202 / 125, 0, 0⟩ demo_rat.pos
          ≠ ((8 / 10) * (demo_rat.radius + demo_rat.radius)) * ((8 / 10) * (demo_rat.radius + demo_rat.radius))
      ∧ (demo_building.nudge (demo_building.rat_consts demo_rat 4) demo_rat ⟨4 / 5, 5, 0⟩ 0 0 0 demo_rat
        demo_nudge_state).cand_dest = ⟨4 / 5, 102 / 125, 0⟩ := by
  decide!

/-- C10, amended: when another agent `r` lies within `0.8 * (own radius + other radius)` of
a hiding-anchor candidate, the hiding search moves the candidate toward the center `p1` of
the agent being updated (along the normalized direction from the candidate to `p1`) by
`1.01 * 0.8 * (own radius + other radius) - d`, where `d` is the horizontal distance from
the candidate to the occupant, and adds that amount to the accumulated displacement; at half
the separation distance the amount is 0.51 times the separation; and when that direction
is the unit vector pointing from the occupant to the candidate (the agent's own center lies
straight behind the candidate), the horizontal distance between the moved candidate and the
occupant is 1.01 times the separation. -/
theorem nudge_displacement (b : building_t) (k : rat_consts_t) (rat : rat_t) (p1 : point)
    (top_gap dist_to_fear dist : ℚ) (r : rat_t) (ns : nudge_state_t) :
    (b.nudge k rat p1 top_gap dist_to_fear dist r ns).cand_dest
        = ns.cand_dest.add (vector3d.scale
            ((101 / 100) * ((8 / 10) * (rat.radius + r.radius)) - b.m.p2p_dist_xy ns.cand_dest r.pos)
            (b.m.get_norm (p1.sub ns.cand_dest)))
      ∧ (b.nudge k rat p1 top_gap dist_to_fear dist r ns).tot_mdist
        = ns.tot_mdist
          + ((101 / 100) * ((8 / 10) * (rat.radius + r.radius)) - b.m.p2p_dist_xy ns.cand_dest r.pos)
      ∧ (b.m.p2p_dist_xy ns.cand_dest r.pos = (1 / 2) * ((8 / 10) * (rat.radius + r.radius)) →
          (101 / 100) * ((8 / 10) * (rat.radius + r.radius)) - b.m.p2p_dist_xy ns.cand_dest r.pos
            = (51 / 100) * ((8 / 10) * (rat.radius + r.radius)))
      ∧ (0 < b.m.p2p_dist_xy ns.cand_dest r.pos →
          b.m.p2p_dist_xy ns.cand_dest r.pos * b.m.p2p_dist_xy ns.cand_dest r.pos
            = p2p_dist_xy_sq ns.cand_dest r.pos →
          b.m.get_norm (p1.sub ns.cand_dest)
            = vector3d.scale (1 / b.m.p2p_dist_xy ns.cand_dest r.pos)
                ⟨ns.cand_dest.x - r.pos.x, ns.cand_dest.y - r.pos.y, 0⟩ →
          p2p_dist_xy_sq (b.nudge k rat p1 top_gap dist_to_fear dist r ns).cand_dest r.pos
            = ((101 / 100) * ((8 / 10) * (rat.radius + r.radius)))
              * ((101 / 100) * ((8 / 10) * (rat.radius + r.radius)))) := by
  refine ⟨rfl, rfl, ?_, ?_⟩
  · intro hd
    rw [hd]
    ring
  · intro hpos hex hdir
    unfold building_t.nudge
    simp only []
    rw [hdir]
    generalize b.m.p2p_dist_xy ns.cand_dest r.pos = d at hpos hex ⊢
    unfold p2p_dist_xy_sq at hex ⊢
    simp only [vector3d.add, vector3d.scale]
    have hd : d ≠ 0 := ne_of_gt hpos
    field_simp
    have key : ∀ (s : ℚ), (((ns.cand_dest.x * d + (s - d) * (ns.cand_dest.x - r.pos.x)) - d * r.pos.x)
        * ((ns.cand_dest.x * d + (s - d) * (ns.cand_dest.x - r.pos.x)) - d * r.pos.x)
        + ((ns.cand_dest.y * d + (s - d) * (ns.cand_dest.y - r.pos.y)) - d * r.pos.y)
        * ((ns.cand_dest.y * d + (s - d) * (ns.cand_dest.y - r.pos.y)) - d * r.pos.y))
        = s * s * (d * d) := by
      intro s
      rw [hex]
      ring
    nlinarith [key ((101 / 100) * ((8 / 10) * (rat.radius + r.radius)))]

/-- Witness of the amended C10: the first case of the counterexample, where the agent's own
center lies straight behind the candidate: the moved candidate is `1.01 * 1.6` away from the
occupant. -/
theorem nudge_displacement_witness :
    p2p_dist_xy_sq (demo_building.nudge (demo_building.rat_consts demo_rat 4) demo_rat ⟨5, 0, 0⟩ 0 0 0
        demo_rat demo_nudge_state).cand_dest demo_rat.pos
      = ((101 / 100) * ((8 / 10) * (demo_rat.radius + demo_rat.radius)))
        * ((101 / 100) * ((8 / 10) * (demo_rat.radius + demo_rat.radius))) :=
  (nudge_displacement demo_building (demo_building.rat_consts demo_rat 4) demo_rat ⟨5, 0, 0⟩ 0 0 0
    demo_rat demo_nudge_state).2.2.2 (by decide!) (by decide!) (by decide!)

/-! ### Motion of a single agent -/

/-- C14 (motion step): an agent that is awake (`wake_time = 0`), has non-zero speed and
faces its destination (dot product above 0.75) is moved by `timestep * speed * dir` and has
`timestep * speed` added to `dist_since_sleep`; a sleeping agent keeps `pos` and
`dist_since_sleep`; and with the driver's timestep `min(fticks, 4)`, for a frame length
`fticks ≥ 0`, a speed `≥ 0` and a heading of length at most 1, the square of the distance
moved is at most the square of `4 * speed`. -/
theorem move_step (m : math_t) (tfticks timestep fticks : ℚ) (r : rat_t) :
    (r.wake_time = 0 → r.speed ≠ 0 → dot_product (m.get_norm (r.dest.sub r.pos)) r.dir > 3 / 4 →
      (r.move m tfticks timestep).pos = r.pos.add (vector3d.scale (timestep * r.speed) r.dir)
      ∧ (r.move m tfticks timestep).dist_since_sleep = r.dist_since_sleep + timestep * r.speed)
    ∧ (r.is_sleeping →
      (r.move m tfticks timestep).pos = r.pos
      ∧ (r.move m tfticks timestep).dist_since_sleep = r.dist_since_sleep)
    ∧ (0 ≤ fticks → 0 ≤ r.speed → r.dir.mag_sq ≤ 1 →
      p2p_dist_sq (r.move m tfticks (min fticks 4)).pos r.pos ≤ (4 * r.speed) * (4 * r.speed)) := by
  refine ⟨?_, ?_, ?_⟩
  · intro hw hs hd
    have hns : ¬ (0 : ℚ) < r.wake_time := by rw [hw]; exact lt_irrefl _
    unfold rat_t.move rat_t.is_sleeping
    simp only [gt_iff_lt, if_neg hns, if_neg hs]
    rw [if_pos hd]
    exact ⟨rfl, rfl⟩
  · intro hsl
    unfold rat_t.move
    simp only []
    have hsl1 : ({ r with anim_time := r.anim_time + m.p2p_dist_xy r.pos r.last_pos / r.radius,
                          last_pos := r.pos } : rat_t).is_sleeping := hsl
    rw [if_pos hsl1]
    split_ifs <;> exact ⟨rfl, rfl⟩
  · intro hf hs hd
    have ht0 : 0 ≤ min fticks 4 := le_min hf (by norm_num)
    have ht4 : min fticks 4 ≤ 4 := min_le_right _ _
    have hsq : 0 ≤ (4 * r.speed) * (4 * r.speed) := mul_self_nonneg _
    have hzero : p2p_dist_sq r.pos r.pos ≤ (4 * r.speed) * (4 * r.speed) := by
      unfold p2p_dist_sq vector3d.sub vector3d.mag_sq
      simp only [sub_self, mul_zero, add_zero]
      exact hsq
    unfold rat_t.move
    simp only []
    split_ifs
    · exact hzero
    · exact hzero
    · exact hzero
    · show p2p_dist_sq (r.pos.add (vector3d.scale (min fticks 4 * r.speed) r.dir)) r.pos ≤ _
      have hd0 : 0 ≤ r.dir.mag_sq := by
        unfold vector3d.mag_sq
        nlinarith [mul_self_nonneg r.dir.x, mul_self_nonneg r.dir.y, mul_self_nonneg r.dir.z]
      have he : p2p_dist_sq (r.pos.add (vector3d.scale (min fticks 4 * r.speed) r.dir)) r.pos
          = (min fticks 4 * r.speed) * (min fticks 4 * r.speed) * r.dir.mag_sq := by
        unfold p2p_dist_sq vector3d.sub vector3d.add vector3d.scale vector3d.mag_sq
        simp only []
        ring
      rw [he]
      have h1 : 0 ≤ min fticks 4 * r.speed := mul_nonneg ht0 hs
      have h2 : min fticks 4 * r.speed ≤ 4 * r.speed := mul_le_mul_of_nonneg_right ht4 hs
      have h3 : (min fticks 4 * r.speed) * (min fticks 4 * r.speed) ≤ (4 * r.speed) * (4 * r.speed) :=
        mul_le_mul h2 h2 h1 (le_trans h1 h2)
      calc (min fticks 4 * r.speed) * (min fticks 4 * r.speed) * r.dir.mag_sq
          ≤ (min fticks 4 * r.speed) * (min fticks 4 * r.speed) * 1 :=
            mul_le_mul_of_nonneg_left hd (mul_self_nonneg _)
        _ = (min fticks 4 * r.speed) * (min fticks 4 * r.speed) := mul_one _
        _ ≤ _ := h3
    · exact hzero

/-- The motion step on the walking example agent with a frame of 10 ticks, clamped to 4: it
moves by `4 * (1/100)` along x; the sleeping example agent stays. -/
theorem move_step_witness :
    (demo_rat_walker.move demo_math 1000 (min 10 4)).pos = ⟨1 / 25, 0, 0⟩
    ∧ (demo_rat_walker.move demo_math 1000 (min 10 4)).dist_since_sleep = 1 / 25
    ∧ (demo_rat_asleep.move demo_math 1000 (min 10 4)).pos = demo_rat_asleep.pos
    ∧ p2p_dist_sq (demo_rat_walker.move demo_math 1000 (min 10 4)).pos demo_rat_walker.pos
      ≤ (4 * demo_rat_walker.speed) * (4 * demo_rat_walker.speed) :=
  have h := move_step demo_math 1000 (min 10 4) 10 demo_rat_walker
  have ha := move_step demo_math 1000 (min 10 4) 10 demo_rat_asleep
  ⟨((h.1 (by decide!) (by decide!) (by decide!)).1).trans (by decide!),
    ((h.1 (by decide!) (by decide!) (by decide!)).2).trans (by decide!),
    (ha.2.1 (by decide!)).1,
    h.2.2 (by decide!) (by decide!) (by decide!)⟩

/-- An awake agent with speed 0 is left where it is by `rat_t::move` and gets the animation
phase 0; an agent with speed 0, awake or asleep, is left where it is. -/
lemma move_stationary (m : math_t) (tfticks timestep : ℚ) (r : rat_t) (hs : r.speed = 0) :
    (r.move m tfticks timestep).pos = r.pos
    ∧ (¬ r.is_sleeping → (r.move m tfticks timestep).anim_time = 0) := by
  unfold rat_t.move
  simp only []
  refine ⟨?_, ?_⟩
  · split_ifs <;> rfl
  · intro hns
    have hns1 : ¬ ({ r with anim_time := r.anim_time + m.p2p_dist_xy r.pos r.last_pos / r.radius,
                            last_pos := r.pos } : rat_t).is_sleeping := hns
    rw [if_neg hns1, if_pos hs]

/-- C15 (stationary agent resets its animation) fails for an agent that is asleep: the
example agent with speed 0, fear 0 and destination equal to its position, asleep until tick
2000 with animation phase 1, keeps its position but also its animation phase 1, in
`rat_t::move` and at the end of a whole tick at clock 1000. -/
theorem stationary_sleeper_keeps_anim_time :
    demo_rat_asleep.speed = 0 ∧ demo_rat_asleep.fear = 0 ∧ demo_rat_asleep.dest = demo_rat_asleep.pos
    ∧ (demo_rat_asleep.move demo_math 1000 1).pos = demo_rat_asleep.pos
    ∧ (demo_rat_asleep.move demo_math 1000 1).anim_time = 1
    ∧ (demo_building.update_animals 10 ⟨50, 50, 0⟩ 0 (-1) (demo_animals (demo_rats demo_rat_asleep))).map
        (fun s => s.rats.rats.map fun r => (r.pos, r.anim_time)) = some [(zero_vector, 1)] := by
  decide!

/-! ### Adding agents -/

/-- C19 (outcome of `add_rat`): a call leaves the container as it is or appends exactly one
agent; it returns false exactly when there is no floor under the point, or the drop path is
blocked and no toilet of the placer's room contains the test point, and then the container
is unchanged; an appended agent has fear 1, `fear_pos = placed_from`, speed 0, `dest = pos`,
the x and y asked for and the z of the floor. -/
theorem add_rat_outcome (b : building_t) (rats : vect_rat_t) (pos : point) (hlength : ℚ)
    (dir : vector3d) (placed_from : point) :
    ((b.add_rat rats pos hlength dir placed_from).2.1 = rats
      ∨ ∃ r, (b.add_rat rats pos hlength dir placed_from).2.1.rats = rats.rats ++ [r]
          ∧ (b.add_rat rats pos hlength dir placed_from).1 = true
          ∧ r.fear = 1 ∧ r.fear_pos = placed_from ∧ r.speed = 0 ∧ r.dest = r.pos
          ∧ r.pos.x = pos.x ∧ r.pos.y = pos.y ∧ b.get_zval_of_floor pos hlength = some r.pos.z)
    ∧ ((b.add_rat rats pos hlength dir placed_from).1 = false →
        (b.add_rat rats pos hlength dir placed_from).2.1 = rats)
    ∧ ((b.add_rat rats pos hlength dir placed_from).1 = false ↔
        (b.get_zval_of_floor pos hlength = none
          ∨ ∃ z, b.get_zval_of_floor pos hlength = some z
            ∧ b.check_line_coll_expand pos ⟨pos.x, pos.y, z⟩ hlength
                (rat_t.mk_rat b.rat_model_size ⟨pos.x, pos.y, z⟩ hlength
                  (b.m.get_norm ⟨dir.x, dir.y, 0⟩)).height = true
            ∧ b.find_toilet ((⟨pos.x, pos.y, z⟩ : point).add
                ⟨0, 0, (rat_t.mk_rat b.rat_model_size ⟨pos.x, pos.y, z⟩ hlength
                  (b.m.get_norm ⟨dir.x, dir.y, 0⟩)).height⟩) placed_from = none)) := by
  unfold building_t.add_rat
  cases hz : b.get_zval_of_floor pos hlength with
  | none => simp
  | some z =>
    simp only []
    by_cases hc : b.check_line_coll_expand pos ⟨pos.x, pos.y, z⟩ hlength
        (rat_t.mk_rat b.rat_model_size ⟨pos.x, pos.y, z⟩ hlength
          (b.m.get_norm ⟨dir.x, dir.y, 0⟩)).height = true
    · rw [if_pos hc]
      cases ht : b.find_toilet ((⟨pos.x, pos.y, z⟩ : point).add
          ⟨0, 0, (rat_t.mk_rat b.rat_model_size ⟨pos.x, pos.y, z⟩ hlength
            (b.m.get_norm ⟨dir.x, dir.y, 0⟩)).height⟩) placed_from with
      | none => simp [hc, ht]
      | some i => simp [ht]
    · rw [if_neg hc]
      refine ⟨Or.inr ⟨_, rfl, rfl, rfl, rfl, rfl, rfl, rfl, rfl, rfl⟩, ?_, ?_⟩
      · intro h; exact absurd h (by simp)
      · simp [hc]

/-- In the example building a call to `add_rat` appends one agent with fear 1 of the point
it was placed from. -/
theorem add_rat_outcome_witness :
    (demo_building.add_rat vect_rat_t.empty ⟨1, 2, 3⟩ (1 / 10) ⟨0, 1, 0⟩ ⟨4, 4, 0⟩).1 ≠ false
    ∧ ∃ r, (demo_building.add_rat vect_rat_t.empty ⟨1, 2, 3⟩ (1 / 10) ⟨0, 1, 0⟩ ⟨4, 4, 0⟩).2.1.rats
          = vect_rat_t.empty.rats ++ [r]
        ∧ r.fear = 1 ∧ r.fear_pos = ⟨4, 4, 0⟩ ∧ r.pos = ⟨1, 2, 0⟩ :=
  have h := add_rat_outcome demo_building vect_rat_t.empty ⟨1, 2, 3⟩ (1 / 10) ⟨0, 1, 0⟩ ⟨4, 4, 0⟩
  have hne : (demo_building.add_rat vect_rat_t.empty ⟨1, 2, 3⟩ (1 / 10) ⟨0, 1, 0⟩ ⟨4, 4, 0⟩).2.1
      ≠ vect_rat_t.empty := by decide!
  ⟨fun hf => hne (h.2.1 hf),
    (h.1.resolve_left hne).elim fun r hr =>
      ⟨r, hr.1, hr.2.2.1, hr.2.2.2.1, by
        have hx := hr.2.2.2.2.2.2.1
        have hy := hr.2.2.2.2.2.2.2.1
        have hzz := hr.2.2.2.2.2.2.2.2
        have hz0 : demo_building.get_zval_of_floor ⟨1, 2, 3⟩ (1 / 10) = some 0 := rfl
        rw [hz0] at hzz
        have hz1 : r.pos.z = 0 := (Option.some.inj hzz).symm
        cases hp : r.pos with
        | mk x y z =>
          rw [hp] at hx hy hz1
          simp only at hx hy hz1
          rw [hx, hy, hz1]⟩⟩

/-- The ids of a container are `1, ..., n` in this order. -/
lemma add_ids (v : vect_rat_t) (rat : rat_t)
    (h : v.rats.map (fun r => r.rat_id) = List.range' 1 v.rats.length) :
    (v.add rat).rats.map (fun r => r.rat_id) = List.range' 1 (v.add rat).rats.length := by
  unfold vect_rat_t.add
  simp only [List.map_append, List.map_cons, List.map_nil, List.length_append, List.length_cons,
    List.length_nil, h]
  rw [List.range'_1_concat, Nat.add_comm 1]

/-- Adding agents one after the other keeps the ids `1, ..., n` in insertion order. -/
lemma foldl_add_ids (new_rats : List rat_t) :
    ∀ v : vect_rat_t, v.rats.map (fun r => r.rat_id) = List.range' 1 v.rats.length →
      (new_rats.foldl vect_rat_t.add v).rats.map (fun r => r.rat_id)
        = List.range' 1 (new_rats.foldl vect_rat_t.add v).rats.length := by
  induction new_rats with
  | nil => intro v h; exact h
  | cons r rs ih => intro v h; exact ih (v.add r) (add_ids v r h)

/-- The placement loop of the first tick keeps the ids `1, ..., n` in insertion order. -/
lemma place_rats_ids (b : building_t) (n : Nat) :
    ∀ (rgen : rand_gen_t) (v : vect_rat_t),
      v.rats.map (fun r => r.rat_id) = List.range' 1 v.rats.length →
      (b.place_rats n rgen v).rats.map (fun r => r.rat_id)
        = List.range' 1 (b.place_rats n rgen v).rats.length := by
  induction n with
  | zero => intro rgen v h; exact h
  | succ n ih =>
    intro rgen v h
    unfold building_t.place_rats
    simp only []
    split_ifs
    all_goals first | exact ih _ _ h | exact ih _ _ (add_ids _ _ h)

/-- The ids of a container built by `add` are a rearrangement of `1, ..., n`. -/
lemma built_by_add_ids (v : vect_rat_t) (h : built_by_add v) :
    (v.rats.map fun r => r.rat_id).Perm (List.range' 1 v.rats.length) := by
  induction h with
  | empty => exact List.Perm.refl _
  | add v rat _ ih =>
    unfold vect_rat_t.add
    simp only [List.map_append, List.map_cons, List.map_nil, List.length_append, List.length_cons,
      List.length_nil]
    rw [List.range'_1_concat, Nat.add_comm 1]
    exact List.Perm.append ih (List.Perm.refl _)
  | rearrange v l _ hp ih =>
    have hlen : l.length = v.rats.length := by
      have := hp.length_eq
      simpa using this
    show (l.map fun r => r.rat_id).Perm (List.range' 1 l.length)
    rw [hlen]
    exact hp.trans ih

/-- C20 (identity numbers): `vect_rat_t::add` appends the agent with
`rat_id = (number of agents before) + 1`; a container built from the empty one by calls of
`add` has the ids `1, 2, ..., n` in insertion order, strictly increasing, and so has the
container the first tick populates; the sort of a tick only reorders the agents; and in
every container that arises from the empty one by calls of `add`, reorderings and rewrites
of agents that keep their ids, the ids are pairwise distinct and are exactly the numbers
`1, ..., n`. -/
theorem rat_ids_are_one_to_n (b : building_t) (v : vect_rat_t) (rat : rat_t) (new_rats : List rat_t)
    (building_ix : Nat) :
    (v.add rat).rats = v.rats ++ [{ rat with rat_id := v.rats.length + 1 }]
    ∧ (new_rats.foldl vect_rat_t.add vect_rat_t.empty).rats.map (fun r => r.rat_id)
        = List.range' 1 new_rats.length
    ∧ ((new_rats.foldl vect_rat_t.add vect_rat_t.empty).rats.map fun r => r.rat_id).Pairwise
        (fun i j => i < j)
    ∧ (b.bootstrap building_ix vect_rat_t.empty).rats.map (fun r => r.rat_id)
        = List.range' 1 (b.bootstrap building_ix vect_rat_t.empty).rats.length
    ∧ (∀ l : List rat_t, (sort_rats l).Perm l)
    ∧ ∀ w : vect_rat_t, built_by_add w →
        (w.rats.map fun r => r.rat_id).Nodup
        ∧ ∀ i, i ∈ (w.rats.map fun r => r.rat_id) ↔ 1 ≤ i ∧ i ≤ w.rats.length := by
  have hlen : ∀ (rs : List rat_t) (w : vect_rat_t),
      (rs.foldl vect_rat_t.add w).rats.length = w.rats.length + rs.length := by
    intro rs
    induction rs with
    | nil => intro w; rfl
    | cons r rs ih =>
      intro w
      rw [List.foldl_cons, ih]
      unfold vect_rat_t.add
      simp only [List.length_append, List.length_cons, List.length_nil]
      omega
  have hbuilt : (new_rats.foldl vect_rat_t.add vect_rat_t.empty).rats.map (fun r => r.rat_id)
      = List.range' 1 new_rats.length := by
    have h := foldl_add_ids new_rats vect_rat_t.empty rfl
    rw [hlen] at h
    simpa [vect_rat_t.empty] using h
  refine ⟨rfl, hbuilt, by rw [hbuilt]; exact List.pairwise_lt_range' 1 _, ?_,
    fun l => List.perm_insertionSort _ l, ?_⟩
  · unfold building_t.bootstrap
    simp only []
    exact place_rats_ids b _ _ _ rfl
  · intro w hw
    have hp := built_by_add_ids w hw
    refine ⟨hp.nodup_iff.mpr (List.nodup_range' 1 _), ?_⟩
    intro i
    rw [hp.mem_iff, List.mem_range'_1]
    omega

/-- The example agents at x = 10, x = -1/2 and x = 2, added in this order whatever ids they
carried, get the ids 1, 2, 3; after the sort by x the ids read 2, 3, 1 and are pairwise
distinct. -/
theorem rat_ids_are_one_to_n_witness :
    (sort_rats ([demo_rat_hider, demo_rat_a, demo_rat_c].foldl vect_rat_t.add vect_rat_t.empty).rats).map
        (fun r => r.rat_id) = [2, 3, 1]
    ∧ ((sort_rats ([demo_rat_hider, demo_rat_a, demo_rat_c].foldl vect_rat_t.add
        vect_rat_t.empty).rats).map fun r => r.rat_id).Nodup :=
  have h := rat_ids_are_one_to_n demo_building vect_rat_t.empty demo_rat
    [demo_rat_hider, demo_rat_a, demo_rat_c] 0
  ⟨by decide!,
    (h.2.2.2.2.2
      { ([demo_rat_hider, demo_rat_a, demo_rat_c].foldl vect_rat_t.add vect_rat_t.empty) with
        rats := sort_rats ([demo_rat_hider, demo_rat_a, demo_rat_c].foldl vect_rat_t.add
          vect_rat_t.empty).rats }
      (built_by_add.rearrange _ _
        (built_by_add.add _ demo_rat_c (built_by_add.add _ demo_rat_a
          (built_by_add.add _ demo_rat_hider built_by_add.empty)))
        ((h.2.2.2.2.1 _).map _))).1⟩

/-! ### The hiding anchor -/

/-- C12 (the hiding anchor is deterministic): the anchor that `update_rat` derives for an
agent and an object, before any nudging, is the same in two evaluations, possibly in
different ticks and states of the building, whenever these agree on the `rat_id`, the
object's `obj_id` and type, the hide area, the agent's radius (its half-length) and the
height of the agent's center, and on the functions of the random generator and the type
codes; the tick, the agent's horizontal position, fear and heading, the states of the shared
generators and the place of the object in its list do not enter. -/
theorem hide_anchor_deterministic (b b' : building_t) (rat rat' : rat_t) (timestep timestep' : ℚ)
    (c c' : room_object_t) (hide_area : cube_t)
    (hrf : b.rf.rand_uniform = b'.rf.rand_uniform) (htc : b.type_code = b'.type_code)
    (hid : rat.rat_id = rat'.rat_id) (hobj : c.obj_id = c'.obj_id) (hty : c.type = c'.type)
    (hlen : rat.radius = rat'.radius)
    (hz : (rat.pos.add (b.rat_consts rat timestep).center_dz).z
      = (rat'.pos.add (b'.rat_consts rat' timestep').center_dz).z) :
    b.hide_anchor (b.rat_consts rat timestep) rat.rat_id c hide_area
        (rat.pos.add (b.rat_consts rat timestep).center_dz).z
      = b'.hide_anchor (b'.rat_consts rat' timestep') rat'.rat_id c' hide_area
        (rat'.pos.add (b'.rat_consts rat' timestep').center_dz).z := by
  rw [hz]
  unfold building_t.hide_anchor
  have hl : (b.rat_consts rat timestep).hlength = (b'.rat_consts rat' timestep').hlength := by
    unfold building_t.rat_consts rat_t.get_hlength
    exact hlen
  simp only [hl, hrf, htc, hid, hobj, hty]

/-- The anchor of agent number 3 under the example table: the same for the agent at rest at
the origin in the lit building with a timestep of 1 and for the agent scared, elsewhere, in
the dark building with a timestep of 4 and the table listed with another cube and in
another room. -/
theorem hide_anchor_deterministic_witness :
    demo_building.hide_anchor (demo_building.rat_consts demo_rat_three 1) demo_rat_three.rat_id
        demo_table demo_hide_area (demo_rat_three.pos.add (demo_building.rat_consts demo_rat_three 1).center_dz).z
      = demo_building_dark.hide_anchor (demo_building_dark.rat_consts demo_rat_hider_table 4)
          demo_rat_hider_table.rat_id demo_table_moved demo_hide_area
          (demo_rat_hider_table.pos.add (demo_building_dark.rat_consts demo_rat_hider_table 4).center_dz).z :=
  hide_anchor_deterministic demo_building demo_building_dark demo_rat_three demo_rat_hider_table 1 4
    demo_table demo_table_moved demo_hide_area rfl rfl rfl rfl rfl rfl (by decide!)

/-! ### The wander search -/

/-- A wander loop in which no trial is accepted leaves the agent and the hiding flag as it
found them. -/
lemma wander_loop_failed (b : building_t) (k : rat_consts_t) (p1 : point) (is_scared : Bool)
    (dub ms : ℚ) (remaining : Nat) :
    ∀ (n : Nat) (fov dist : ℚ) (st : update_state_t),
      (b.wander_loop k p1 is_scared dub ms remaining n fov dist st).2 = false →
      (b.wander_loop k p1 is_scared dub ms remaining n fov dist st).1.rat = st.rat
      ∧ (b.wander_loop k p1 is_scared dub ms remaining n fov dist st).1.has_fear_dest
          = st.has_fear_dest := by
  induction remaining with
  | zero => intro n fov dist st _; exact ⟨rfl, rfl⟩
  | succ j ih =>
    intro n fov dist st
    unfold building_t.wander_loop
    simp only []
    split
    · intro h; exact ih _ _ _ _ h
    · split_ifs
      all_goals first
        | (intro h; exact ih _ _ _ _ h)
        | (intro h; exact absurd h (by simp))

/-- C17 (failed wander search), as the code has it: when the wander search runs (which it
does only for an agent without a hiding destination) and all 200 trials are rejected, the
agent is as before the search except that its speed is 0 (line 440 stops it before the
trials); the heading step that ends the tick then changes only the heading and the hiding
flag, so that at the end of the tick position, destination and sleep state are as before
the search, the speed is 0, and the heading may have turned toward the destination. -/
theorem failed_wander_search (b : building_t) (k : rat_consts_t) (p1 : point) (timestep : ℚ)
    (is_scared : Bool) (st : update_state_t) (hfd : st.has_fear_dest = false)
    (hfail : (b.wander_search k p1 is_scared st).2 = false) :
    (b.wander_search k p1 is_scared st).1.rat = { st.rat with speed := 0 }
    ∧ ∀ st', b.update_rat_dir k timestep is_scared (b.wander_search k p1 is_scared st).1 = some st' →
        ∃ d ih, st'.rat = { st.rat with speed := 0, dir := d, is_hiding := ih } := by
  unfold building_t.wander_search at hfail ⊢
  simp only [] at hfail ⊢
  obtain ⟨h1, h2⟩ := wander_loop_failed b k p1 is_scared _ _ 200 0 _ _ _ hfail
  refine ⟨h1, ?_⟩
  intro st' hdir
  have hfd1 : (b.wander_loop k p1 is_scared (12 / 100 + 88 / 100 * (1 - st.rat.fear))
      (min k.dist_thresh (1 / 20 * st.rat.radius)) 200 0 b.RAT_FOV_DP k.view_dist
      { st with rat := { st.rat with speed := 0 } }).1.has_fear_dest = false := by
    rw [h2]; exact hfd
  have hturn : ∀ (v : vector3d) (s : update_state_t),
      ∃ d, (b.dir_turn timestep is_scared v s).rat = { s.rat with dir := d } := by
    intro v s; unfold building_t.dir_turn; split_ifs <;> exact ⟨_, rfl⟩
  have hfix : ∀ s : update_state_t, ∃ d, (b.dir_fix s).rat = { s.rat with dir := d } := by
    intro s; unfold building_t.dir_fix; split_ifs <;> exact ⟨_, rfl⟩
  have hsnap : ∀ s : update_state_t, s.has_fear_dest = false → dir_snap k s = s := by
    intro s hs
    unfold dir_snap
    rw [if_neg]
    intro hc
    rw [hs] at hc
    exact absurd hc.2 (by simp)
  unfold building_t.update_rat_dir at hdir
  simp only [] at hdir
  rw [hsnap _ hfd1] at hdir
  split_ifs at hdir
  cases hdir
  obtain ⟨d2, e2⟩ := hfix (b.dir_turn timestep is_scared (b.dir_target k
      (b.wander_loop k p1 is_scared (12 / 100 + 88 / 100 * (1 - st.rat.fear))
        (min k.dist_thresh (1 / 20 * st.rat.radius)) 200 0 b.RAT_FOV_DP k.view_dist
        { st with rat := { st.rat with speed := 0 } }).1) _)
  obtain ⟨d3, e3⟩ := hturn (b.dir_target k
      (b.wander_loop k p1 is_scared (12 / 100 + 88 / 100 * (1 - st.rat.fear))
        (min k.dist_thresh (1 / 20 * st.rat.radius)) 200 0 b.RAT_FOV_DP k.view_dist
        { st with rat := { st.rat with speed := 0 } }).1)
    { (b.wander_loop k p1 is_scared (12 / 100 + 88 / 100 * (1 - st.rat.fear))
        (min k.dist_thresh (1 / 20 * st.rat.radius)) 200 0 b.RAT_FOV_DP k.view_dist
        { st with rat := { st.rat with speed := 0 } }).1 with
      rat := { (b.wander_loop k p1 is_scared (12 / 100 + 88 / 100 * (1 - st.rat.fear))
        (min k.dist_thresh (1 / 20 * st.rat.radius)) 200 0 b.RAT_FOV_DP k.view_dist
        { st with rat := { st.rat with speed := 0 } }).1.rat with is_hiding :=
          ((b.wander_loop k p1 is_scared (12 / 100 + 88 / 100 * (1 - st.rat.fear))
            (min k.dist_thresh (1 / 20 * st.rat.radius)) 200 0 b.RAT_FOV_DP k.view_dist
            { st with rat := { st.rat with speed := 0 } }).1.has_fear_dest
            && decide (dist_less_than
              (b.wander_loop k p1 is_scared (12 / 100 + 88 / 100 * (1 - st.rat.fear))
                (min k.dist_thresh (1 / 20 * st.rat.radius)) 200 0 b.RAT_FOV_DP k.view_dist
                { st with rat := { st.rat with speed := 0 } }).1.rat.pos
              (b.wander_loop k p1 is_scared (12 / 100 + 88 / 100 * (1 - st.rat.fear))
                (min k.dist_thresh (1 / 20 * st.rat.radius)) 200 0 b.RAT_FOV_DP k.view_dist
                { st with rat := { st.rat with speed := 0 } }).1.rat.dest (2 * k.dist_thresh))) } }
  rw [e2, e3]
  simp only []
  rw [h1]
  exact ⟨_, _, rfl⟩

/-- The failed wander search of the blocked example: the agent that walks at speed 1/100 is
stopped, everything else kept. -/
theorem failed_wander_search_witness :
    (demo_building_blocked.wander_search (demo_building_blocked.rat_consts demo_rat_strayed 4)
        (demo_rat_strayed.pos.add (demo_building_blocked.rat_consts demo_rat_strayed 4).center_dz) false
        (demo_building_blocked.after_collision ⟨50, 50, 0⟩ 4 (demo_state demo_rat_strayed))).1.rat
      = { (demo_building_blocked.after_collision ⟨50, 50, 0⟩ 4 (demo_state demo_rat_strayed)).rat with
          speed := 0 } :=
  (failed_wander_search demo_building_blocked (demo_building_blocked.rat_consts demo_rat_strayed 4)
    (demo_rat_strayed.pos.add (demo_building_blocked.rat_consts demo_rat_strayed 4).center_dz) 4 false
    (demo_building_blocked.after_collision ⟨50, 50, 0⟩ 4 (demo_state demo_rat_strayed))
    (by decide!) (by decide!)).1

/-- C17 as stated fails: in the example building with every path blocked, the calm agent
that walks at speed 1/100 with heading `(1, 0, 0)` toward `(0, 3, 0)` enters the wander
search (its path is blocked), all 200 trials are rejected, and at the end of the tick its
speed is 0 and its heading `(0, 1, 0)`; position, destination and sleep state are kept. -/
theorem failed_wander_counterexample :
    (demo_building_blocked.after_collision ⟨50, 50, 0⟩ 4 (demo_state demo_rat_strayed)).rat
      = demo_rat_strayed
    ∧ demo_rat_strayed.speed = 1 / 100 ∧ demo_rat_strayed.dir = ⟨1, 0, 0⟩
    ∧ (demo_building_blocked.wander_search (demo_building_blocked.rat_consts demo_rat_strayed 4)
        (demo_rat_strayed.pos.add (demo_building_blocked.rat_consts demo_rat_strayed 4).center_dz) false
        (demo_building_blocked.after_collision ⟨50, 50, 0⟩ 4 (demo_state demo_rat_strayed))).2 = false
    ∧ demo_run_blocked.map (fun st => st.rat)
      = some { demo_rat_strayed with speed := 0, dir := ⟨0, 1, 0⟩ } := by
  decide!

/-! ### The driver of a tick: alert sound and attack flag -/

/-- The wander loop sends no events. -/
lemma wander_loop_events (b : building_t) (k : rat_consts_t) (p1 : point) (is_scared : Bool)
    (dub ms : ℚ) (remaining : Nat) :
    ∀ (n : Nat) (fov dist : ℚ) (st : update_state_t),
      (b.wander_loop k p1 is_scared dub ms remaining n fov dist st).1.events = st.events := by
  induction remaining with
  | zero => intro n fov dist st; rfl
  | succ j ih =>
    intro n fov dist st
    unfold building_t.wander_loop
    simp only []
    split
    · exact ih _ _ _ _
    · split_ifs
      all_goals first | rfl | exact ih _ _ _ _

/-- The collision step sends no events. -/
lemma update_rat_collision_events (b : building_t) (k : rat_consts_t) (camera_bs : point)
    (st : update_state_t) : (b.update_rat_collision k camera_bs st).events = st.events := by
  unfold building_t.update_rat_collision building_t.sleep_for
  simp only []
  split_ifs <;> rfl
/-- The attack step sends no alert sound. -/
lemma update_rat_attack_alerts (b : building_t) (k : rat_consts_t) (camera_bs p1 : point)
    (st : update_state_t) :
    alert_count (b.update_rat_attack k camera_bs p1 st).events = alert_count st.events := by
  unfold building_t.update_rat_attack
  simp only []
  split_ifs <;> simp [alert_count, List.countP_append]
/-- The hiding step sends no events. -/
lemma update_rat_hide_events (b : building_t) (k : rat_consts_t) (rats : vect_rat_t) (self_ix : Nat)
    (p1 : point) (timestep : ℚ) (fuel : Nat) (st st' : update_state_t)
    (h : b.update_rat_hide k rats self_ix p1 timestep fuel st = some st') :
    st'.events = st.events := by
  unfold building_t.update_rat_hide at h
  simp only [] at h
  split at h
  · exact Option.noConfusion h
  · split_ifs at h
    all_goals cases h
    all_goals rfl
/-- The wander search sends no events. -/
lemma wander_search_events (b : building_t) (k : rat_consts_t) (p1 : point) (is_scared : Bool)
    (st : update_state_t) : (b.wander_search k p1 is_scared st).1.events = st.events := by
  unfold building_t.wander_search
  exact wander_loop_events b k p1 is_scared _ _ 200 0 _ _ _

/-- The rest-or-wander step sends no events. -/
lemma update_rat_wander_events (b : building_t) (k : rat_consts_t) (p1 : point)
    (is_scared newly_scared : Bool) (st st' : update_state_t)
    (h : b.update_rat_wander k p1 is_scared newly_scared st = some st') :
    st'.events = st.events := by
  unfold building_t.update_rat_wander at h
  simp only [] at h
  split_ifs at h
  all_goals cases h
  · rfl
  · exact wander_search_events b k p1 is_scared _
  · rfl
  · exact wander_search_events b k p1 is_scared _
  · rfl
/-- The heading step sends no events. -/
lemma update_rat_dir_events (b : building_t) (k : rat_consts_t) (timestep : ℚ) (is_scared : Bool)
    (st st' : update_state_t) (h : b.update_rat_dir k timestep is_scared st = some st') :
    st'.events = st.events := by
  have hsnap : ∀ s : update_state_t, (dir_snap k s).events = s.events := by
    intro s; unfold dir_snap; split_ifs <;> rfl
  have hturn : ∀ (v : vector3d) (s : update_state_t),
      (b.dir_turn timestep is_scared v s).events = s.events := by
    intro v s; unfold building_t.dir_turn; split_ifs <;> rfl
  have hfix : ∀ s : update_state_t, (b.dir_fix s).events = s.events := by
    intro s; unfold building_t.dir_fix; split_ifs <;> rfl
  unfold building_t.update_rat_dir at h
  simp only [] at h
  split_ifs at h
  cases h
  rw [hfix, hturn]
  exact hsnap st
/-- A call to `update_rat` sends no alert sound. -/
lemma update_rat_alerts (b : building_t) (fuel : Nat) (rats : vect_rat_t) (self_ix : Nat)
    (camera_bs : point) (ped_ix : Int) (timestep : ℚ) (can_attack_player : Bool)
    (st st' : update_state_t)
    (hrun : b.update_rat fuel rats self_ix camera_bs ped_ix timestep can_attack_player st = some st') :
    alert_count st'.events = alert_count st.events := by
  unfold building_t.update_rat at hrun
  simp only [] at hrun
  split_ifs at hrun with hw
  obtain ⟨st2, hscare, hrun⟩ := Option.bind_eq_some.mp hrun
  obtain ⟨st4, hhide, hrun⟩ := Option.bind_eq_some.mp hrun
  obtain ⟨st5, hwander, hdir⟩ := Option.bind_eq_some.mp hrun
  have h1 : (b.after_collision camera_bs timestep st).events = st.events := by
    unfold building_t.after_collision
    rw [update_rat_collision_events]
    rfl
  have h2 : st2.events = (b.after_collision camera_bs timestep st).events := by
    unfold building_t.update_rat_scare at hscare
    obtain ⟨r1, _, hst2⟩ := Option.map_eq_some'.mp hscare
    rw [← hst2]
  have h4 : st4.events = (b.update_rat_attack (b.rat_consts st.rat timestep) camera_bs
      ((b.after_collision camera_bs timestep st).rat.pos.add (b.rat_consts st.rat timestep).center_dz)
      st2).events := by
    split_ifs at hhide
    · exact update_rat_hide_events b _ rats self_ix _ timestep fuel _ st4 hhide
    · cases hhide; rfl
  rw [update_rat_dir_events b _ _ _ st5 st' hdir, update_rat_wander_events b _ _ _ _ st4 st5 hwander,
    h4, update_rat_attack_alerts, h2, h1]

/-- One call `update_rat(*r, ...)` of the driver: it rewrites the agent at index `i` only,
keeps the flags of the driver, and sends no alert sound. -/
lemma update_rat_at_spec (b : building_t) (fuel : Nat) (camera_bs : point) (ped_ix : Int)
    (timestep : ℚ) (can_attack_player : Bool) (s s' : animals_state_t × rand_gen_t) (i : Nat)
    (h : b.update_rat_at fuel camera_bs ped_ix timestep can_attack_player s i = some s') :
    alert_count s'.1.events = alert_count s.1.events
    ∧ s'.1.prev_can_attack_player = s.1.prev_can_attack_player
    ∧ s'.1.rats.placed = s.1.rats.placed
    ∧ (s'.1.rats.rats = s.1.rats.rats
      ∨ ∃ rat st st', s.1.rats.rats.get? i = some rat ∧ st.rat = rat
          ∧ b.update_rat fuel s.1.rats i camera_bs ped_ix timestep can_attack_player st = some st'
          ∧ s'.1.rats.rats = s.1.rats.rats.set i st'.rat) := by
  unfold building_t.update_rat_at at h
  split at h
  · cases h; exact ⟨rfl, rfl, rfl, Or.inl rfl⟩
  · rename_i rat hrat
    simp only [] at h
    obtain ⟨st1, hrun, hs⟩ := Option.map_eq_some'.mp h
    rw [← hs]
    exact ⟨update_rat_alerts b fuel _ i camera_bs ped_ix timestep can_attack_player _ st1 hrun,
      rfl, rfl, Or.inr ⟨rat, _, st1, hrat, rfl, hrun, rfl⟩⟩

/-- The per-agent pass of the driver keeps the flags of the driver and the number of
agents, sends no alert sound, leaves the agents it does not visit as they are, and leaves
every agent it visits in a state that `update_rat` returned. -/
lemma update_rats_spec (b : building_t) (fuel : Nat) (camera_bs : point) (ped_ix : Int)
    (timestep : ℚ) (can_attack_player : Bool) (P : rat_t → Prop)
    (hP : ∀ (rats : vect_rat_t) (i : Nat) (st st' : update_state_t),
      b.update_rat fuel rats i camera_bs ped_ix timestep can_attack_player st = some st' →
      P st'.rat) (order : List Nat) :
    ∀ s s' : animals_state_t × rand_gen_t,
      b.update_rats fuel camera_bs ped_ix timestep can_attack_player order s = some s' →
      alert_count s'.1.events = alert_count s.1.events
      ∧ s'.1.prev_can_attack_player = s.1.prev_can_attack_player
      ∧ s'.1.rats.placed = s.1.rats.placed
      ∧ s'.1.rats.rats.length = s.1.rats.rats.length
      ∧ (∀ i, i ∉ order → s'.1.rats.rats.get? i = s.1.rats.rats.get? i)
      ∧ (∀ i, i ∈ order → ∀ r, s'.1.rats.rats.get? i = some r → P r) := by
  induction order with
  | nil =>
    intro s s' h
    cases h
    exact ⟨rfl, rfl, rfl, rfl, fun _ _ => rfl, fun i hi => absurd hi (List.not_mem_nil i)⟩
  | cons j order ih =>
    intro s s' h
    unfold building_t.update_rats at h
    obtain ⟨s1, h1, h2⟩ := Option.bind_eq_some.mp h
    obtain ⟨a1, a2, a3, a4⟩ := update_rat_at_spec b fuel camera_bs ped_ix timestep can_attack_player s s1 j h1
    obtain ⟨c1, c2, c3, c4, c5, c6⟩ := ih s1 s' h2
    have hlen : s1.1.rats.rats.length = s.1.rats.rats.length := by
      rcases a4 with e | ⟨rat, st, st', _, _, _, e⟩
      · rw [e]
      · rw [e, List.length_set]
    have hother : ∀ i, i ≠ j → s1.1.rats.rats.get? i = s.1.rats.rats.get? i := by
      intro i hij
      rcases a4 with e | ⟨rat, st, st', _, _, _, e⟩
      · rw [e]
      · rw [e, List.get?_eq_getElem?, List.get?_eq_getElem?, List.getElem?_set_ne (Ne.symm hij)]
    have hj : ∀ r, s1.1.rats.rats.get? j = some r → P r := by
      intro r hr
      rcases a4 with e | ⟨rat, st, st', hrat, _, hrun, e⟩
      · -- the index is past the end
        unfold building_t.update_rat_at at h1
        split at h1
        · rename_i hnone
          rw [e, hnone] at hr
          exact Option.noConfusion hr
        · rename_i rat hrat
          simp only [] at h1
          obtain ⟨st1, hrun, hs⟩ := Option.map_eq_some'.mp h1
          have e1 : s1.1.rats.rats = s.1.rats.rats.set j st1.rat := by rw [← hs]
          have hlt : j < s.1.rats.rats.length := by
            rw [List.get?_eq_getElem?] at hrat
            exact (List.getElem?_eq_some_iff.mp hrat).1
          rw [e1, List.get?_eq_getElem?, List.getElem?_set_self hlt] at hr
          cases hr
          exact hP _ _ _ _ hrun
      · have hlt : j < s.1.rats.rats.length := by
          rw [List.get?_eq_getElem?] at hrat
          exact (List.getElem?_eq_some_iff.mp hrat).1
        rw [e, List.get?_eq_getElem?, List.getElem?_set_self hlt] at hr
        cases hr
        exact hP _ _ _ _ hrun
    refine ⟨c1.trans a1, c2.trans a2, c3.trans a3, c4.trans hlen, ?_, ?_⟩
    · intro i hi
      have hij : i ≠ j := fun e => hi (e ▸ List.mem_cons_self _ _)
      have hio : i ∉ order := fun e => hi (List.mem_cons_of_mem _ e)
      rw [c5 i hio, hother i hij]
    · intro i hi r hr
      by_cases hio : i ∈ order
      · exact c6 i hio r hr
      · have hij : i = j := by
          rcases List.mem_cons.mp hi with e | e
          · exact e
          · exact absurd e hio
        rw [c5 i hio, hij] at hr
        exact hj r hr

/-- The motion step does not touch the `near_player` flag. -/
lemma move_near_player (m : math_t) (tfticks timestep : ℚ) (r : rat_t) :
    (r.move m tfticks timestep).near_player = r.near_player := by
  unfold rat_t.move
  simp only []
  split_ifs <;> rfl

/-- The motion pass counts the agents flagged `near_player`. -/
lemma move_rats_count (b : building_t) (timestep : ℚ) :
    ∀ (l : List rat_t) (n : Nat) (p : point),
      (b.move_rats timestep l n p).2.1 = n + near_count l := by
  intro l
  induction l with
  | nil => intro n p; simp [building_t.move_rats, near_count]
  | cons r rs ih =>
    intro n p
    unfold building_t.move_rats
    simp only []
    rw [ih, move_near_player]
    unfold near_count
    rw [List.countP_cons]
    by_cases h : r.near_player = true
    · simp [h]; omega
    · simp [h]

/-- The first part of a tick: the flag `can_attack_player` tells whether the agents flagged
`near_player` reach the threshold, the latch `prev_can_attack_player` takes its value, and
one alert sound is sent exactly when the flag is set and the latch was not. -/
lemma update_animals_head_spec (b : building_t) (building_ix : Nat) (s : animals_state_t) :
    (b.update_animals_head building_ix s).2
      = decide (b.min_attack_rats ≤ near_count (b.entry_rats building_ix s.rats).rats)
    ∧ (b.update_animals_head building_ix s).1.prev_can_attack_player
      = decide (b.min_attack_rats ≤ near_count (b.entry_rats building_ix s.rats).rats)
    ∧ alert_count (b.update_animals_head building_ix s).1.events
      = alert_count s.events
        + (if b.min_attack_rats ≤ near_count (b.entry_rats building_ix s.rats).rats
            ∧ s.prev_can_attack_player = false then 1 else 0) := by
  have hc := move_rats_count b (min b.fticks 4) (b.entry_rats building_ix s.rats).rats 0 zero_vector
  rw [Nat.zero_add] at hc
  unfold building_t.update_animals_head
  simp only [ge_iff_le, hc, decide_eq_true_eq]
  refine ⟨trivial, trivial, ?_⟩
  split_ifs
  · simp [alert_count, List.countP_append]
  · rfl

/-- A tick that passes the early returns: the latch afterwards tells whether the agents
flagged `near_player` reached the threshold in this tick, and one alert sound was sent
exactly when they did and the latch was not set before. -/
lemma update_animals_alerts (b : building_t) (fuel : Nat) (camera_bs : point) (building_ix : Nat)
    (ped_ix : Int) (s s' : animals_state_t) (hruns : b.update_animals_runs s.rats = true)
    (h : b.update_animals fuel camera_bs building_ix ped_ix s = some s') :
    s'.prev_can_attack_player
      = decide (b.min_attack_rats ≤ near_count (b.entry_rats building_ix s.rats).rats)
    ∧ alert_count s'.events
      = alert_count s.events
        + (if b.min_attack_rats ≤ near_count (b.entry_rats building_ix s.rats).rats
            ∧ s.prev_can_attack_player = false then 1 else 0) := by
  unfold building_t.update_animals at h
  rw [if_neg (by rw [hruns]; simp)] at h
  by_cases htrap : b.count_traps s.rats = true
  · rw [if_pos htrap] at h; exact Option.noConfusion h
  rw [if_neg htrap] at h
  simp only [] at h
  obtain ⟨s1, hpass, hs⟩ := Option.map_eq_some'.mp h
  obtain ⟨c1, c2, _⟩ := update_rats_spec b fuel camera_bs ped_ix _ _ (fun _ => True)
    (fun _ _ _ _ _ => trivial) _ _ _ hpass
  obtain ⟨a1, a2, a3⟩ := update_animals_head_spec b building_ix s
  rw [← hs, c1, c2, a2, a3]
  exact ⟨rfl, rfl⟩

/-- C11 (the pack alert is edge-triggered), as the code has it: the latch
`prev_can_attack_player` is one function static, shared by the calls of `update_animals` for
all buildings.  For two calls that follow each other, pass the early returns and return, the
second starting from the statics and events the first left and from the container `rats2`
of its own building (the container the first call left, when both calls are for the same
building): the first call sends one alert sound exactly when its count of agents flagged
`near_player` reaches the threshold `min_attack_rats` and the latch was not set, and sets the
latch to whether the count reached the threshold; the second call sends one alert sound
exactly when its count reaches the threshold and the count of the first call was below its
threshold; no call sends more than one.  A call that returns early changes nothing. -/
theorem alert_edge_trigger (b1 b2 : building_t) (fuel : Nat) (camera1 camera2 : point)
    (building_ix1 building_ix2 : Nat) (ped1 ped2 : Int) (s0 s1 s2 : animals_state_t)
    (rats2 : vect_rat_t)
    (hruns1 : b1.update_animals_runs s0.rats = true)
    (hruns2 : b2.update_animals_runs rats2 = true)
    (h1 : b1.update_animals fuel camera1 building_ix1 ped1 s0 = some s1)
    (h2 : b2.update_animals fuel camera2 building_ix2 ped2 { s1 with rats := rats2 } = some s2) :
    alert_count s1.events
      = alert_count s0.events
        + (if b1.min_attack_rats ≤ near_count (b1.entry_rats building_ix1 s0.rats).rats
            ∧ s0.prev_can_attack_player = false then 1 else 0)
    ∧ s1.prev_can_attack_player
      = decide (b1.min_attack_rats ≤ near_count (b1.entry_rats building_ix1 s0.rats).rats)
    ∧ alert_count s2.events
      = alert_count s1.events
        + (if b2.min_attack_rats ≤ near_count (b2.entry_rats building_ix2 rats2).rats
            ∧ near_count (b1.entry_rats building_ix1 s0.rats).rats < b1.min_attack_rats
          then 1 else 0)
    ∧ s2.prev_can_attack_player
      = decide (b2.min_attack_rats ≤ near_count (b2.entry_rats building_ix2 rats2).rats)
    ∧ ∀ (b : building_t) (camera : point) (building_ix : Nat) (ped : Int) (s : animals_state_t),
        b.update_animals_runs s.rats = false →
        b.update_animals fuel camera building_ix ped s = some s := by
  obtain ⟨p1, e1⟩ := update_animals_alerts b1 fuel camera1 building_ix1 ped1 s0 s1 hruns1 h1
  obtain ⟨p2, e2⟩ := update_animals_alerts b2 fuel camera2 building_ix2 ped2
    { s1 with rats := rats2 } s2 hruns2 h2
  refine ⟨e1, p1, ?_, p2, ?_⟩
  · rw [e2]
    show alert_count s1.events
        + (if b2.min_attack_rats ≤ near_count (b2.entry_rats building_ix2 rats2).rats
            ∧ s1.prev_can_attack_player = false then 1 else 0) = _
    rw [p1]
    congr 1
    simp only [decide_eq_false_iff_not, not_le]
  · intro b camera building_ix ped s hr
    unfold building_t.update_animals
    rw [if_pos hr]

/-- The pack example with threshold 2, two ticks of the same building: in the first tick
one agent is flagged, no alert is sent; in the second tick two agents are flagged, and
exactly one alert is sent. -/
theorem alert_edge_trigger_witness :
    demo_tick1 = some demo_after_tick1
    ∧ near_count demo_pack.rats = 1 ∧ near_count demo_after_tick1.rats.rats = 2
    ∧ alert_count demo_after_tick1.events = 0
    ∧ ∃ s2, demo_tick2 = some s2 ∧ alert_count s2.events = 1 := by
  have hsome : demo_tick1.isSome = true := by decide!
  have h1 : demo_tick1 = some demo_after_tick1 := by
    unfold demo_after_tick1
    cases h : demo_tick1 with
    | none => rw [h] at hsome; cases hsome
    | some v => rfl
  have h2 : demo_tick2 = some (demo_tick2.get (by decide!)) := (Option.some_get _).symm
  have h := alert_edge_trigger demo_building_hunt demo_building_hunt_next 10 ⟨1, 1, 0⟩ ⟨1, 1, 0⟩ 0 0
    (-1) (-1) (demo_animals demo_pack) demo_after_tick1 (demo_tick2.get (by decide!))
    demo_after_tick1.rats (by decide!) (by decide!) h1 h2
  exact ⟨h1, by decide!, by decide!, h.1.trans (by decide!), _, h2,
    h.2.2.1.trans (by rw [h.1]; decide!)⟩

/-- C11 as stated fails for one building when a call for another building comes in between.
In the pack example with threshold 2, the count of the building is 1 in its first tick and 2
in its second tick, which sends the alert.  Then `update_animals` is called for another
building, whose single agent is far from the player: its count 0 clears the shared latch.
In the third tick of the first building the count is still 2, as in its previous tick, and a
second alert is sent. -/
theorem alert_latch_counterexample :
    demo_building_hunt.min_attack_rats = 2
    ∧ near_count demo_pack.rats = 1
    ∧ near_count demo_after_tick1.rats.rats = 2
    ∧ demo_tick2.map (fun s => (alert_count s.events, s.prev_can_attack_player)) = some (1, true)
    ∧ near_count (demo_rats demo_rat_far).rats = 0
    ∧ demo_call_other.map (fun s => (alert_count s.events, s.prev_can_attack_player))
        = some (1, false)
    ∧ near_count demo_after_tick2.rats.rats = 2
    ∧ demo_tick3.map (fun s => (alert_count s.events, s.prev_can_attack_player)) = some (2, true) := by
  decide!

/-- At the end of `update_rat` the flag `near_player` is the one `scare_rat` computed in
this call, the flag `attacking` is its conjunction with `can_attack_player`, and an
attacking agent has fear 0. -/
lemma update_rat_attack_state (b : building_t) (fuel : Nat) (rats : vect_rat_t) (self_ix : Nat)
    (camera_bs : point) (ped_ix : Int) (timestep : ℚ) (can_attack_player : Bool)
    (st st' : update_state_t)
    (hrun : b.update_rat fuel rats self_ix camera_bs ped_ix timestep can_attack_player st = some st') :
    (b.scare_rat (b.after_collision camera_bs timestep st).rat camera_bs ped_ix).map
        (fun r => r.near_player) = some st'.rat.near_player
    ∧ st'.rat.attacking = (st'.rat.near_player && can_attack_player)
    ∧ (st'.rat.attacking = true → st'.rat.fear = 0) := by
  obtain ⟨r1, hr1, _, hatt, hfear⟩ := update_rat_fear b fuel rats self_ix camera_bs ped_ix timestep
    can_attack_player st st' hrun
  have hnp : st'.rat.near_player = r1.near_player := by
    unfold building_t.update_rat at hrun
    simp only [] at hrun
    split_ifs at hrun with hw
    obtain ⟨st2, hscare, hrun⟩ := Option.bind_eq_some.mp hrun
    obtain ⟨st4, hhide, hrun⟩ := Option.bind_eq_some.mp hrun
    obtain ⟨st5, hwander, hdir⟩ := Option.bind_eq_some.mp hrun
    unfold building_t.update_rat_scare at hscare
    obtain ⟨r1', hr1', hst2⟩ := Option.map_eq_some'.mp hscare
    have e : r1' = r1 := Option.some.inj (hr1'.symm.trans hr1)
    obtain ⟨d3, s3, w3, h3⟩ := update_rat_attack_frame b (b.rat_consts st.rat timestep) camera_bs
      ((b.after_collision camera_bs timestep st).rat.pos.add (b.rat_consts st.rat timestep).center_dz) st2
    obtain ⟨d5, s5, w5, ds5, h5⟩ := update_rat_wander_frame b _ _ _ _ st4 st5 hwander
    obtain ⟨p6, s6, ds6, ih6, d6, h6⟩ := update_rat_dir_frame b _ _ _ st5 st' hdir
    have h2 : st2.rat.near_player = r1.near_player := by rw [← hst2, e]
    split_ifs at hhide
    · obtain ⟨s4, d4, h4⟩ := update_rat_hide_frame b _ rats self_ix _ timestep fuel _ st4 hhide
      rw [h6, h5, h4, h3]
      exact h2
    · cases hhide
      rw [h6, h5, h3]
      exact h2
  refine ⟨?_, ?_, ?_⟩
  · rw [hr1, hnp]; rfl
  · rw [hatt, hnp]
  · intro ha
    rw [hfear, if_pos (by rw [← hatt]; exact ha)]

/-- C16 (attack state): at the end of every `update_rat` the flag `near_player` is the one
computed by the threat calls of this call, `attacking` is `near_player && can_attack_player`,
and an attacking agent has fear exactly 0; and in a tick of `update_animals` the flag passed
as `can_attack_player` tells whether the number of agents flagged `near_player` is at least
`min_attack_rats`, so that at the end of the tick every agent of the container has
`attacking = near_player && (count ≥ min_attack_rats)` and fear 0 when attacking. -/
theorem attack_state (b : building_t) (fuel : Nat) (camera_bs : point) (building_ix : Nat)
    (ped_ix : Int) (s s' : animals_state_t) (hruns : b.update_animals_runs s.rats = true)
    (h : b.update_animals fuel camera_bs building_ix ped_ix s = some s') :
    (∀ (rats : vect_rat_t) (self_ix : Nat) (timestep : ℚ) (can_attack_player : Bool)
        (st st' : update_state_t),
        b.update_rat fuel rats self_ix camera_bs ped_ix timestep can_attack_player st = some st' →
        (b.scare_rat (b.after_collision camera_bs timestep st).rat camera_bs ped_ix).map
            (fun r => r.near_player) = some st'.rat.near_player
        ∧ st'.rat.attacking = (st'.rat.near_player && can_attack_player)
        ∧ (st'.rat.attacking = true → st'.rat.fear = 0))
    ∧ ∀ r ∈ s'.rats.rats,
        r.attacking = (r.near_player
          && decide (b.min_attack_rats ≤ near_count (b.entry_rats building_ix s.rats).rats))
        ∧ (r.attacking = true → r.fear = 0) := by
  refine ⟨fun rats self_ix timestep can st st' hrun =>
    update_rat_attack_state b fuel rats self_ix camera_bs ped_ix timestep can st st' hrun, ?_⟩
  unfold building_t.update_animals at h
  rw [if_neg (by rw [hruns]; simp)] at h
  by_cases htrap : b.count_traps s.rats = true
  · rw [if_pos htrap] at h; exact Option.noConfusion h
  rw [if_neg htrap] at h
  simp only [] at h
  obtain ⟨s1, hpass, hs⟩ := Option.map_eq_some'.mp h
  obtain ⟨a1, _, _⟩ := update_animals_head_spec b building_ix s
  rw [a1] at hpass
  obtain ⟨_, _, _, c4, _, c6⟩ := update_rats_spec b fuel camera_bs ped_ix _ _
    (fun r => r.attacking = (r.near_player
        && decide (b.min_attack_rats ≤ near_count (b.entry_rats building_ix s.rats).rats))
      ∧ (r.attacking = true → r.fear = 0))
    (fun rats i st st' hrun =>
      (update_rat_attack_state b fuel rats i camera_bs ped_ix _ _ st st' hrun).2) _ _ _ hpass
  intro r hr
  rw [← hs] at hr
  obtain ⟨i, hi, hget⟩ := List.getElem_of_mem hr
  have hmem : i ∈ update_order b.frame_counter (b.update_animals_head building_ix s).1.rats.rats.length := by
    rw [c4] at hi
    unfold update_order
    split_ifs
    · exact List.mem_reverse.mpr (List.mem_range.mpr hi)
    · exact List.mem_range.mpr hi
  exact c6 i hmem r (by rw [List.get?_eq_getElem?, List.getElem?_eq_getElem hi, hget])

/-- The second tick of the pack example: both agents are flagged `near_player`, the count 2
reaches the threshold, and both end the tick attacking, with fear 0. -/
theorem attack_state_witness :
    ∃ s2, demo_tick2 = some s2
      ∧ ∀ r ∈ s2.rats.rats, r.attacking = (r.near_player && true) ∧ (r.attacking = true → r.fear = 0) :=
  ⟨demo_tick2.get (by decide!), (Option.some_get (by decide!)).symm,
    fun r hr =>
      have h := (attack_state demo_building_hunt_next 10 ⟨1, 1, 0⟩ 0 (-1) demo_after_tick1
        (demo_tick2.get (by decide!)) (by decide!) (Option.some_get (by decide!)).symm).2 r hr
      have hc : decide (demo_building_hunt_next.min_attack_rats
          ≤ near_count (demo_building_hunt_next.entry_rats 0 demo_after_tick1.rats).rats) = true := by
        decide!
      ⟨h.1.trans (by rw [hc]), h.2⟩⟩

/-! ### Termination of the hiding search -/

/-- An agent that a scan reports is one of the agents scanned and lies within the
separation distance of the candidate. -/
lemma find_conflict_some (self_ix : Nat) (own_radius coll_x2 : ℚ) (cand_dest : point) (r : rat_t) :
    ∀ (l : List rat_t) (ix : Nat),
      find_conflict self_ix own_radius coll_x2 cand_dest l ix = some r →
      r ∈ l ∧ dist_xy_less_than cand_dest r.pos ((8 / 10) * (own_radius + r.radius)) := by
  intro l
  induction l with
  | nil => intro ix h; exact Option.noConfusion h
  | cons a l ih =>
    intro ix h
    unfold find_conflict at h
    split_ifs at h with h1 h2 h3
    · obtain ⟨hm, hd⟩ := ih _ h
      exact ⟨List.mem_cons_of_mem _ hm, hd⟩
    · cases h
      exact ⟨List.mem_cons_self _ _, h3⟩
    · obtain ⟨hm, hd⟩ := ih _ h
      exact ⟨List.mem_cons_of_mem _ hm, hd⟩

/-- A nudge away from an agent within the separation distance adds more than 1% of the
separation distance to the accumulated displacement, when the radii are positive and the
square root of a number below `r * r` is below `r`. -/
lemma nudge_tot_mdist (b : building_t) (k : rat_consts_t) (rat : rat_t) (p1 : point)
    (top_gap dist_to_fear dist : ℚ) (r : rat_t) (ns : nudge_state_t)
    (hsqrt : ∀ q x : ℚ, 0 < x → q < x * x → b.m.sqrtf q < x)
    (hown : 0 < rat.radius) (hr : 0 < r.radius)
    (hd : dist_xy_less_than ns.cand_dest r.pos ((8 / 10) * (rat.radius + r.radius))) :
    (b.nudge k rat p1 top_gap dist_to_fear dist r ns).tot_mdist
        > ns.tot_mdist + (1 / 100) * ((8 / 10) * (rat.radius + r.radius))
    ∧ (1 / 100) * ((8 / 10) * (rat.radius + r.radius)) > (8 / 1000) * rat.radius := by
  have hsum : 0 < (8 / 10) * (rat.radius + r.radius) := by positivity
  have hlt := hsqrt _ _ hsum hd
  unfold building_t.nudge math_t.p2p_dist_xy
  simp only []
  constructor
  · linarith
  · linarith

/-- With `fuel` nudges left and an accumulated displacement of at least
`0.008 * radius * (500 - fuel)`, the neighbor loop returns. -/
lemma nudge_loop_returns (b : building_t) (k : rat_consts_t) (rat : rat_t) (p1 : point)
    (hide_area : cube_t) (top_gap dist_to_fear dist best_score : ℚ) (self_ix : Nat)
    (from_start : List rat_t) (start : Nat) (coll_x2 : ℚ)
    (hsqrt : ∀ q x : ℚ, 0 < x → q < x * x → b.m.sqrtf q < x)
    (hown : 0 < rat.radius) (hrad : ∀ r ∈ from_start, 0 < r.radius) (fuel : Nat) :
    ∀ ns : nudge_state_t, 1 ≤ fuel → (8 / 1000) * rat.radius * (500 - (fuel : ℚ)) ≤ ns.tot_mdist →
      ∃ ns', b.nudge_loop k rat p1 hide_area top_gap dist_to_fear dist best_score self_ix
        from_start start coll_x2 fuel ns = some ns' := by
  induction fuel with
  | zero => intro ns h; exact absurd h (by norm_num)
  | succ f ih =>
    intro ns _ htot
    unfold building_t.nudge_loop
    cases hc : find_conflict self_ix rat.radius coll_x2 ns.cand_dest from_start start with
    | none => exact ⟨ns, rfl⟩
    | some r =>
      simp only []
      obtain ⟨hm, hd⟩ := find_conflict_some _ _ _ _ _ _ _ hc
      obtain ⟨h1, h2⟩ := nudge_tot_mdist b k rat p1 top_gap dist_to_fear dist r ns hsqrt hown
        (hrad r hm) hd
      have hnext : (8 / 1000) * rat.radius * (500 - (f : ℚ))
          < (b.nudge k rat p1 top_gap dist_to_fear dist r ns).tot_mdist := by
        push_cast at htot
        nlinarith
      split_ifs with ha hb
      · exact ⟨_, rfl⟩
      · exact ⟨_, rfl⟩
      · by_cases hf : 1 ≤ f
        · exact ih _ hf (le_of_lt hnext)
        · have hf0 : f = 0 := by omega
          rw [hf0] at hnext
          exfalso
          apply ha
          left
          simp only [Nat.cast_zero, sub_zero] at hnext
          linarith

/-- More fuel does not change what the neighbor loop returns. -/
lemma nudge_loop_mono (b : building_t) (k : rat_consts_t) (rat : rat_t) (p1 : point)
    (hide_area : cube_t) (top_gap dist_to_fear dist best_score : ℚ) (self_ix : Nat)
    (from_start : List rat_t) (start : Nat) (coll_x2 : ℚ) (fuel : Nat) :
    ∀ (ns ns' : nudge_state_t) (extra : Nat),
      b.nudge_loop k rat p1 hide_area top_gap dist_to_fear dist best_score self_ix
        from_start start coll_x2 fuel ns = some ns' →
      b.nudge_loop k rat p1 hide_area top_gap dist_to_fear dist best_score self_ix
        from_start start coll_x2 (fuel + extra) ns = some ns' := by
  induction fuel with
  | zero =>
    intro ns ns' extra h
    unfold building_t.nudge_loop at h
    cases hc : find_conflict self_ix rat.radius coll_x2 ns.cand_dest from_start start with
    | none =>
      rw [hc] at h
      cases extra with
      | zero => unfold building_t.nudge_loop; rw [hc]; exact h
      | succ e => rw [Nat.zero_add]; unfold building_t.nudge_loop; rw [hc]; exact h
    | some r => rw [hc] at h; exact Option.noConfusion h
  | succ f ih =>
    intro ns ns' extra h
    rw [Nat.add_right_comm]
    unfold building_t.nudge_loop at h ⊢
    cases hc : find_conflict self_ix rat.radius coll_x2 ns.cand_dest from_start start with
    | none => rw [hc] at h; exact h
    | some r =>
      rw [hc] at h
      simp only [] at h ⊢
      split_ifs at h ⊢
      · exact h
      · exact h
      · exact ih _ _ extra h

/-- The conflict resolution of a candidate needs at most 500 nudges: with fuel 500 it
returns, and with more fuel it returns the same. -/
lemma resolve_conflicts_fuel (b : building_t) (k : rat_consts_t) (rats : vect_rat_t)
    (self_ix : Nat) (rat : rat_t) (p1 : point) (hide_area : cube_t)
    (top_gap dist_to_fear dist best_score : ℚ) (fuel : Nat) (cand_dest : point) (side_cov score : ℚ)
    (hsqrt : ∀ q x : ℚ, 0 < x → q < x * x → b.m.sqrtf q < x)
    (hown : 0 < rat.radius) (hrad : ∀ r ∈ rats.rats, 0 < r.radius) (hfuel : 500 ≤ fuel) :
    ∃ ns, b.resolve_conflicts k rats self_ix rat p1 hide_area top_gap dist_to_fear dist best_score
        500 cand_dest side_cov score = some ns
      ∧ b.resolve_conflicts k rats self_ix rat p1 hide_area top_gap dist_to_fear dist best_score
        fuel cand_dest side_cov score = some ns := by
  unfold building_t.resolve_conflicts
  simp only []
  obtain ⟨ns, h⟩ := nudge_loop_returns b k rat p1 hide_area top_gap dist_to_fear dist best_score
    self_ix (rats.rats.drop (rats.get_first_rat_with_xv_gt
      (cand_dest.x - ((8 / 10) * (rat.radius + rats.max_radius) + rats.max_xmove))))
    (rats.get_first_rat_with_xv_gt
      (cand_dest.x - ((8 / 10) * (rat.radius + rats.max_radius) + rats.max_xmove)))
    (cand_dest.x + ((8 / 10) * (rat.radius + rats.max_radius) + rats.max_xmove))
    hsqrt hown (fun r hr => hrad r (List.mem_of_mem_drop hr)) 500
    { cand_dest := cand_dest, side_cov := side_cov, score := score, tot_mdist := 0, skip := false }
    (by norm_num) (by norm_num)
  refine ⟨ns, h, ?_⟩
  have hm := nudge_loop_mono b k rat p1 hide_area top_gap dist_to_fear dist best_score self_ix _ _ _
    500 _ ns (fuel - 500) h
  rw [Nat.add_sub_cancel' hfuel] at hm
  exact hm

/-- The body of the loop over the hiding objects returns with fuel 500, and the same with
more fuel. -/
lemma hide_step_fuel (b : building_t) (k : rat_consts_t) (rats : vect_rat_t) (self_ix : Nat)
    (rat : rat_t) (p1 : point) (fuel : Nat) (c : room_object_t) (hs : hide_state_t)
    (hsqrt : ∀ q x : ℚ, 0 < x → q < x * x → b.m.sqrtf q < x)
    (hown : 0 < rat.radius) (hrad : ∀ r ∈ rats.rats, 0 < r.radius) (hfuel : 500 ≤ fuel) :
    ∃ res, b.hide_step k rats self_ix rat p1 500 c hs = some res
      ∧ b.hide_step k rats self_ix rat p1 fuel c hs = some res := by
  have e : ∀ (hide_area : cube_t) (top_gap dist_to_fear dist best_score : ℚ) (cand_dest : point)
      (side_cov score : ℚ),
      b.resolve_conflicts k rats self_ix rat p1 hide_area top_gap dist_to_fear dist best_score
        fuel cand_dest side_cov score
      = b.resolve_conflicts k rats self_ix rat p1 hide_area top_gap dist_to_fear dist best_score
        500 cand_dest side_cov score := by
    intro hide_area top_gap dist_to_fear dist best_score cand_dest side_cov score
    obtain ⟨ns, h1, h2⟩ := resolve_conflicts_fuel b k rats self_ix rat p1 hide_area top_gap
      dist_to_fear dist best_score fuel cand_dest side_cov score hsqrt hown hrad hfuel
    rw [h1, h2]
  have heq : b.hide_step k rats self_ix rat p1 fuel c hs = b.hide_step k rats self_ix rat p1 500 c hs := by
    unfold building_t.hide_step
    simp only [e]
  have hrc : ∀ (hide_area : cube_t) (top_gap dist_to_fear dist best_score : ℚ) (cand_dest : point)
      (side_cov score : ℚ) (f : nudge_state_t → hide_state_t × Bool),
      ∃ res, (b.resolve_conflicts k rats self_ix rat p1 hide_area top_gap dist_to_fear dist best_score
        500 cand_dest side_cov score).map f = some res := by
    intro hide_area top_gap dist_to_fear dist best_score cand_dest side_cov score f
    obtain ⟨ns, h1, _⟩ := resolve_conflicts_fuel b k rats self_ix rat p1 hide_area top_gap
      dist_to_fear dist best_score 500 cand_dest side_cov score hsqrt hown hrad (le_refl _)
    rw [h1]
    exact ⟨_, rfl⟩
  have hsome : ∃ res, b.hide_step k rats self_ix rat p1 500 c hs = some res := by
    unfold building_t.hide_step
    simp only []
    by_cases h1 : c.bc.z1 > rat.pos.z + k.height ∨ c.bc.z2 < rat.pos.z
    · rw [if_pos h1]; exact ⟨_, rfl⟩
    rw [if_neg h1]
    by_cases h2 : c.is_cube = false
    · rw [if_pos h2]; exact ⟨_, rfl⟩
    rw [if_neg h2]
    cases hch : b.can_hide_under c with
    | none => exact ⟨_, rfl⟩
    | some hide_area =>
      simp only []
      by_cases h3 : hide_area.z1 - (p1.z + k.squish_hheight) < 0
      · rw [if_pos h3]; exact ⟨_, rfl⟩
      rw [if_neg h3]
      by_cases h4 : ¬ dist_xy_less_than hide_area.get_cube_center p1 k.view_dist
      · rw [if_pos h4]; exact ⟨_, rfl⟩
      rw [if_neg h4]
      by_cases h5 : b.m.p2p_dist p1 (b.hide_anchor k rat.rat_id c hide_area p1.z) < k.dist_thresh
      · rw [if_pos h5]
        by_cases h6 : b.check_line_coll_expand p1 (b.hide_anchor k rat.rat_id c hide_area p1.z)
            k.coll_radius k.squish_hheight = true
        · rw [if_pos h6]; exact ⟨_, rfl⟩
        · rw [if_neg h6]; exact ⟨_, rfl⟩
      rw [if_neg h5]
      by_cases h7 : hs.best_score ≠ 0 ∧ (1 / 2) * min hide_area.dx hide_area.dy - k.hlength
          - (1 / 2) * (hide_area.z1 - (p1.z + k.squish_hheight))
          + (2 / 10) * b.m.p2p_dist rat.fear_pos (b.hide_anchor k rat.rat_id c hide_area p1.z)
          - (1 / 10) * max (b.m.p2p_dist p1 (b.hide_anchor k rat.rat_id c hide_area p1.z))
              k.dist_thresh ≤ hs.best_score
      · rw [if_pos h7]; exact ⟨_, rfl⟩
      rw [if_neg h7]
      by_cases h8 : b.check_line_coll_expand p1 (b.hide_anchor k rat.rat_id c hide_area p1.z)
          k.coll_radius k.squish_hheight = true
      · rw [if_pos h8]; exact ⟨_, rfl⟩
      rw [if_neg h8]
      exact hrc _ _ _ _ _ _ _ _ _
  obtain ⟨res, h⟩ := hsome
  exact ⟨res, h, heq.trans h⟩

/-- The loop over the hiding objects returns with fuel 500, and the same with more fuel. -/
lemma hide_loop_fuel (b : building_t) (k : rat_consts_t) (rats : vect_rat_t) (self_ix : Nat)
    (rat : rat_t) (p1 : point) (fuel : Nat)
    (hsqrt : ∀ q x : ℚ, 0 < x → q < x * x → b.m.sqrtf q < x)
    (hown : 0 < rat.radius) (hrad : ∀ r ∈ rats.rats, 0 < r.radius) (hfuel : 500 ≤ fuel)
    (objs : List room_object_t) :
    ∀ hs : hide_state_t, ∃ hs', b.hide_loop k rats self_ix rat p1 500 objs hs = some hs'
      ∧ b.hide_loop k rats self_ix rat p1 fuel objs hs = some hs' := by
  induction objs with
  | nil => intro hs; exact ⟨hs, rfl, rfl⟩
  | cons c cs ih =>
    intro hs
    obtain ⟨res, h1, h2⟩ := hide_step_fuel b k rats self_ix rat p1 fuel c hs hsqrt hown hrad hfuel
    unfold building_t.hide_loop
    rw [h1, h2]
    obtain ⟨hs1, brk⟩ := res
    cases brk with
    | true => exact ⟨hs1, rfl, rfl⟩
    | false => exact ih hs1

/-- The square root that never rounds up maps a number below `x * x` below `x`. -/
lemma floor_sqrt_lt (q x : ℚ) (hx : 0 < x) (hq : q < x * x) : floor_sqrt q < x := by
  unfold floor_sqrt
  have hd : (0 : ℚ) < (q.den : ℚ) := by exact_mod_cast q.den_pos
  have hs : ((Nat.sqrt (q.num.toNat * q.den) : ℕ) : ℚ) * (Nat.sqrt (q.num.toNat * q.den) : ℕ)
      ≤ ((q.num.toNat * q.den : ℕ) : ℚ) := by exact_mod_cast Nat.sqrt_le (q.num.toNat * q.den)
  have h0 : (0 : ℚ) ≤ (Nat.sqrt (q.num.toNat * q.den) : ℕ) := Nat.cast_nonneg _
  by_contra hlt
  push_neg at hlt
  have h1 : x * (q.den : ℚ) ≤ (Nat.sqrt (q.num.toNat * q.den) : ℕ) := (le_div_iff₀ hd).mp hlt
  have hxd : 0 ≤ x * (q.den : ℚ) := le_of_lt (mul_pos hx hd)
  have h2 : (x * q.den) * (x * q.den) ≤ ((q.num.toNat * q.den : ℕ) : ℚ) :=
    le_trans (mul_le_mul h1 h1 hxd h0) hs
  have hqd : q * (q.den : ℚ) = (q.num : ℚ) := Rat.mul_den_eq_num q
  by_cases hn : 0 ≤ q.num
  · have ht : ((q.num.toNat : ℕ) : ℚ) = (q.num : ℚ) := by
      have := Int.toNat_of_nonneg hn
      exact_mod_cast this
    push_cast at h2
    rw [ht, ← hqd] at h2
    have h3 : q * ((q.den : ℚ) * q.den) < x * x * ((q.den : ℚ) * q.den) :=
      mul_lt_mul_of_pos_right hq (mul_pos hd hd)
    linarith
  · have ht : q.num.toNat = 0 := Int.toNat_eq_zero.mpr (le_of_lt (not_le.mp hn))
    rw [ht] at h2
    simp only [Nat.zero_mul, Nat.cast_zero] at h2
    nlinarith [mul_pos hx hd]

/-- The hiding step returns the same with fuel 500 as with more, for an agent and a
population of positive radii. -/
lemma update_rat_hide_fuel (b : building_t) (k : rat_consts_t) (rats : vect_rat_t) (self_ix : Nat)
    (p1 : point) (timestep : ℚ) (fuel : Nat) (st : update_state_t)
    (hsqrt : ∀ q x : ℚ, 0 < x → q < x * x → b.m.sqrtf q < x)
    (hown : 0 < st.rat.radius) (hrad : ∀ r ∈ rats.rats, 0 < r.radius) (hfuel : 500 ≤ fuel) :
    b.update_rat_hide k rats self_ix p1 timestep fuel st
      = b.update_rat_hide k rats self_ix p1 timestep 500 st := by
  have hview : ∀ r ∈ rats.rats.set self_ix { st.rat with wake_time := 0 }, 0 < r.radius := by
    intro r hm
    rcases List.mem_or_eq_of_mem_set hm with h | h
    · exact hrad r h
    · rw [h]; exact hown
  obtain ⟨hs, h500, hf⟩ := hide_loop_fuel b k
    { rats with rats := rats.rats.set self_ix { st.rat with wake_time := 0 }, max_xmove := st.max_xmove }
    self_ix { st.rat with wake_time := 0 } p1 fuel hsqrt hown
    hview hfuel (b.room_objs_on_ground_floor (st.rat.pos.z + k.height))
    { best_dest := zero_vector, best_score := 0, has_fear_dest := st.has_fear_dest
      update_path := st.update_path, speed := st.rat.speed }
  unfold building_t.update_rat_hide
  simp only []
  rw [hf, h500]

/-- A call to `update_rat` returns the same with fuel 500 as with more, for an agent and a
population of positive radii: the fuel is not what ends the neighbor loop. -/
lemma update_rat_fuel (b : building_t) (fuel : Nat) (rats : vect_rat_t) (self_ix : Nat)
    (camera_bs : point) (ped_ix : Int) (timestep : ℚ) (can_attack_player : Bool)
    (st : update_state_t)
    (hsqrt : ∀ q x : ℚ, 0 < x → q < x * x → b.m.sqrtf q < x)
    (hown : 0 < st.rat.radius) (hrad : ∀ r ∈ rats.rats, 0 < r.radius) (hfuel : 500 ≤ fuel) :
    b.update_rat fuel rats self_ix camera_bs ped_ix timestep can_attack_player st
      = b.update_rat 500 rats self_ix camera_bs ped_ix timestep can_attack_player st := by
  unfold building_t.update_rat
  simp only []
  by_cases hw : ¬ (b.rat_consts st.rat timestep).hwidth ≤ (b.rat_consts st.rat timestep).hlength
  · rw [if_pos hw, if_pos hw]
  rw [if_neg hw, if_neg hw]
  cases hsc : b.update_rat_scare camera_bs ped_ix can_attack_player
      (b.after_collision camera_bs timestep st) with
  | none => rfl
  | some st2 =>
    simp only [Option.some_bind]
    have hr2 : st2.rat.radius = st.rat.radius := by
      unfold building_t.update_rat_scare at hsc
      obtain ⟨r1, hr1, hst2⟩ := Option.map_eq_some'.mp hsc
      obtain ⟨r1', f, fp, np, hr1', hf, -⟩ :=
        scare_rat_frame b (b.after_collision camera_bs timestep st).rat camera_bs ped_ix
      rw [hr1] at hr1'
      cases hr1'
      obtain ⟨p, w, hc⟩ := update_rat_collision_frame b (b.rat_consts st.rat timestep) camera_bs
        st.enter
      rw [← hst2]
      show r1.radius = st.rat.radius
      rw [hf]
      show (b.after_collision camera_bs timestep st).rat.radius = st.rat.radius
      unfold building_t.after_collision
      rw [hc]
      rfl
    obtain ⟨d3, s3, w3, h3⟩ := update_rat_attack_frame b (b.rat_consts st.rat timestep) camera_bs
      ((b.after_collision camera_bs timestep st).rat.pos.add (b.rat_consts st.rat timestep).center_dz) st2
    have hr3 : 0 < (b.update_rat_attack (b.rat_consts st.rat timestep) camera_bs
        ((b.after_collision camera_bs timestep st).rat.pos.add
          (b.rat_consts st.rat timestep).center_dz) st2).rat.radius := by
      rw [h3]
      show 0 < st2.rat.radius
      rw [hr2]
      exact hown
    rw [update_rat_hide_fuel b _ rats self_ix _ timestep fuel _ hsqrt hr3 hrad hfuel]

/-- C13 (the conflict resolution of an anchor terminates): with a square root that maps
every number below `r * r` below `r`, for every agent and every population of positive
radii: every nudge away from an agent within the separation distance adds more than
`0.01 * 0.8 * (own radius + other radius)`, which is more than `0.008 * own radius`, to the
accumulated displacement; the neighbor loop of every candidate returns within 500 nudges
(with fuel 500 it returns, and with more fuel it returns the same); the loop over the
hiding objects returns; and so a whole `update_rat` returns the same with every fuel from
500 on. -/
theorem conflict_resolution_terminates (b : building_t) (fuel : Nat) (rats : vect_rat_t)
    (self_ix : Nat) (camera_bs : point) (ped_ix : Int) (timestep : ℚ) (can_attack_player : Bool)
    (st : update_state_t)
    (hsqrt : ∀ q x : ℚ, 0 < x → q < x * x → b.m.sqrtf q < x)
    (hown : 0 < st.rat.radius) (hrad : ∀ r ∈ rats.rats, 0 < r.radius) (hfuel : 500 ≤ fuel) :
    (∀ (k : rat_consts_t) (rat : rat_t) (p1 : point) (top_gap dist_to_fear dist : ℚ) (r : rat_t)
        (ns : nudge_state_t), 0 < rat.radius → 0 < r.radius →
        dist_xy_less_than ns.cand_dest r.pos ((8 / 10) * (rat.radius + r.radius)) →
        (b.nudge k rat p1 top_gap dist_to_fear dist r ns).tot_mdist
            > ns.tot_mdist + (1 / 100) * ((8 / 10) * (rat.radius + r.radius))
          ∧ (1 / 100) * ((8 / 10) * (rat.radius + r.radius)) > (8 / 1000) * rat.radius)
    ∧ (∀ (k : rat_consts_t) (view : vect_rat_t) (ix : Nat) (rat : rat_t) (p1 : point)
        (hide_area : cube_t) (top_gap dist_to_fear dist best_score : ℚ) (cand_dest : point)
        (side_cov score : ℚ), 0 < rat.radius → (∀ r ∈ view.rats, 0 < r.radius) →
        ∃ ns, b.resolve_conflicts k view ix rat p1 hide_area top_gap dist_to_fear dist
            best_score 500 cand_dest side_cov score = some ns
          ∧ b.resolve_conflicts k view ix rat p1 hide_area top_gap dist_to_fear dist
            best_score fuel cand_dest side_cov score = some ns)
    ∧ (∀ (k : rat_consts_t) (view : vect_rat_t) (ix : Nat) (rat : rat_t) (p1 : point)
        (objs : List room_object_t) (hs : hide_state_t),
        0 < rat.radius → (∀ r ∈ view.rats, 0 < r.radius) →
        ∃ hs', b.hide_loop k view ix rat p1 500 objs hs = some hs'
          ∧ b.hide_loop k view ix rat p1 fuel objs hs = some hs')
    ∧ b.update_rat fuel rats self_ix camera_bs ped_ix timestep can_attack_player st
      = b.update_rat 500 rats self_ix camera_bs ped_ix timestep can_attack_player st :=
  ⟨fun k rat p1 top_gap dist_to_fear dist r ns h1 h2 hd =>
      nudge_tot_mdist b k rat p1 top_gap dist_to_fear dist r ns hsqrt h1 h2 hd,
    fun k view ix rat p1 hide_area top_gap dist_to_fear dist best_score cand_dest side_cov score
        h1 h2 =>
      resolve_conflicts_fuel b k view ix rat p1 hide_area top_gap dist_to_fear dist
        best_score fuel cand_dest side_cov score hsqrt h1 h2 hfuel,
    fun k view ix rat p1 objs hs h1 h2 =>
      hide_loop_fuel b k view ix rat p1 fuel hsqrt h1 h2 hfuel objs hs,
    update_rat_fuel b fuel rats self_ix camera_bs ped_ix timestep can_attack_player st hsqrt hown
      hrad hfuel⟩

/-- The table example with the square root that never rounds up: the conflict resolution
of the anchor `(0, 1227/1000)`, which two agents of radius 1 contest, returns with fuel 500,
and the whole `update_rat` of the scared agent is the same with fuel 1000 as with fuel
500. -/
theorem conflict_resolution_terminates_witness :
    (∃ ns, demo_building_floor.resolve_conflicts (demo_building_floor.rat_consts demo_rat_hider_table 4)
        demo_sorted_rats_table 2 demo_rat_hider_table ⟨7 / 2, 1227 / 1000, 0⟩ demo_hide_area 0 0 10 0
        500 ⟨0, 1227 / 1000, 0⟩ 2 1 = some ns)
    ∧ demo_building_floor.update_rat 1000 demo_sorted_rats_table 2 ⟨5, 5, 0⟩ (-1) 4 false
        (demo_state demo_rat_hider_table)
      = demo_building_floor.update_rat 500 demo_sorted_rats_table 2 ⟨5, 5, 0⟩ (-1) 4 false
        (demo_state demo_rat_hider_table) :=
  have h := conflict_resolution_terminates demo_building_floor 1000 demo_sorted_rats_table 2
    ⟨5, 5, 0⟩ (-1) 4 false (demo_state demo_rat_hider_table) floor_sqrt_lt (by decide!) (by decide!)
    (by norm_num)
  ⟨(h.2.1 (demo_building_floor.rat_consts demo_rat_hider_table 4) demo_sorted_rats_table 2
      demo_rat_hider_table ⟨7 / 2, 1227 / 1000, 0⟩ demo_hide_area 0 0 10 0 ⟨0, 1227 / 1000, 0⟩ 2 1
      (by decide!) (by decide!)).imp fun _ hns => hns.1, h.2.2.2⟩

/-! ### The assertions of the per-agent update -/

/-- The collision step keeps the state level, when the collision handler keeps the height
of the agent. -/
lemma after_collision_level (b : building_t) (camera_bs : point) (timestep : ℚ) (st : update_state_t)
    (hcoll : ∀ (p : point) (r h : ℚ) (c : point),
      (b.check_and_handle_dynamic_obj_coll p r h c).2.z = p.z)
    (hz : st.rat.pos.z = st.rat.dest.z) (hd : st.rat.dir.z = 0) :
    (b.after_collision camera_bs timestep st).level st.rat.radius := by
  unfold update_state_t.level building_t.after_collision building_t.update_rat_collision
    building_t.sleep_for update_state_t.enter
  simp only []
  split_ifs
  all_goals refine ⟨?_, hd, rfl, rfl⟩
  all_goals first
    | exact hz
    | (show (b.check_and_handle_dynamic_obj_coll _ _ _ _).2.z = _
       rw [hcoll]; exact hz)

/-- The threat calls always return, and keep the state level. -/
lemma update_rat_scare_level (b : building_t) (camera_bs : point) (ped_ix : Int)
    (can_attack_player : Bool) (st : update_state_t) (radius : ℚ) (hl : st.level radius) :
    ∃ st', b.update_rat_scare camera_bs ped_ix can_attack_player st = some st'
      ∧ st'.level radius := by
  obtain ⟨r, f, fp, np, hr, hf, _⟩ := scare_rat_frame b st.rat camera_bs ped_ix
  unfold building_t.update_rat_scare
  rw [hr]
  refine ⟨_, rfl, ?_⟩
  unfold update_state_t.level at hl ⊢
  simp only [hf]
  exact hl

/-- The attack step keeps the state level. -/
lemma update_rat_attack_level (b : building_t) (k : rat_consts_t) (camera_bs p1 : point)
    (st : update_state_t) (radius : ℚ) (hl : st.level radius) :
    (b.update_rat_attack k camera_bs p1 st).level radius := by
  have hz : ∀ c : ℚ, ((⟨camera_bs.x, camera_bs.y, st.rat.pos.z⟩ : point).sub (vector3d.scale c
      (b.m.get_norm ((⟨camera_bs.x, camera_bs.y, st.rat.pos.z⟩ : point).sub st.rat.pos)))).z
      = st.rat.pos.z := by
    intro c
    have h0 : (b.m.get_norm ((⟨camera_bs.x, camera_bs.y, st.rat.pos.z⟩ : point).sub st.rat.pos)).z
        = 0 := get_norm_z _ _ (by simp [vector3d.sub])
    show st.rat.pos.z - c * (b.m.get_norm
      ((⟨camera_bs.x, camera_bs.y, st.rat.pos.z⟩ : point).sub st.rat.pos)).z = st.rat.pos.z
    rw [h0, mul_zero, sub_zero]
  unfold update_state_t.level at hl ⊢
  unfold building_t.update_rat_attack
  simp only []
  split_ifs
  all_goals first
    | exact hl
    | exact ⟨(hz _).symm, hl.2.1, hl.2.2.1, hl.2.2.2⟩

/-- The body of the loop over the hiding objects keeps the best destination at the height
of the agent whenever the best score is not 0. -/
lemma hide_step_best (b : building_t) (k : rat_consts_t) (rats : vect_rat_t) (self_ix : Nat)
    (rat : rat_t) (p1 : point) (fuel : Nat) (c : room_object_t) (hs : hide_state_t)
    (res : hide_state_t × Bool) (h : b.hide_step k rats self_ix rat p1 fuel c hs = some res)
    (hj : hs.best_score ≠ 0 → hs.best_dest.z = rat.pos.z) :
    res.1.best_score ≠ 0 → res.1.best_dest.z = rat.pos.z := by
  unfold building_t.hide_step at h
  simp only [] at h
  by_cases h1 : c.bc.z1 > rat.pos.z + k.height ∨ c.bc.z2 < rat.pos.z
  · rw [if_pos h1] at h; cases h; exact hj
  rw [if_neg h1] at h
  by_cases h2 : c.is_cube = false
  · rw [if_pos h2] at h; cases h; exact hj
  rw [if_neg h2] at h
  cases hch : b.can_hide_under c with
  | none => rw [hch] at h; cases h; exact hj
  | some hide_area =>
    rw [hch] at h
    simp only [] at h
    by_cases h3 : hide_area.z1 - (p1.z + k.squish_hheight) < 0
    · rw [if_pos h3] at h; cases h; exact hj
    rw [if_neg h3] at h
    by_cases h4 : ¬ dist_xy_less_than hide_area.get_cube_center p1 k.view_dist
    · rw [if_pos h4] at h; cases h; exact hj
    rw [if_neg h4] at h
    by_cases h5 : b.m.p2p_dist p1 (b.hide_anchor k rat.rat_id c hide_area p1.z) < k.dist_thresh
    · rw [if_pos h5] at h
      by_cases h6 : b.check_line_coll_expand p1 (b.hide_anchor k rat.rat_id c hide_area p1.z)
          k.coll_radius k.squish_hheight = true
      · rw [if_pos h6] at h; cases h; exact hj
      · rw [if_neg h6] at h; cases h; exact hj
    rw [if_neg h5] at h
    by_cases h7 : hs.best_score ≠ 0 ∧ (1 / 2) * min hide_area.dx hide_area.dy - k.hlength
        - (1 / 2) * (hide_area.z1 - (p1.z + k.squish_hheight))
        + (2 / 10) * b.m.p2p_dist rat.fear_pos (b.hide_anchor k rat.rat_id c hide_area p1.z)
        - (1 / 10) * max (b.m.p2p_dist p1 (b.hide_anchor k rat.rat_id c hide_area p1.z))
            k.dist_thresh ≤ hs.best_score
    · rw [if_pos h7] at h; cases h; exact hj
    rw [if_neg h7] at h
    by_cases h8 : b.check_line_coll_expand p1 (b.hide_anchor k rat.rat_id c hide_area p1.z)
        k.coll_radius k.squish_hheight = true
    · rw [if_pos h8] at h; cases h; exact hj
    rw [if_neg h8] at h
    obtain ⟨ns, _, hres⟩ := Option.map_eq_some'.mp h
    rw [← hres]
    split_ifs
    · exact hj
    · exact hj
    · intro _; rfl

/-- The loop over the hiding objects keeps the best destination at the height of the agent
whenever the best score is not 0. -/
lemma hide_loop_best (b : building_t) (k : rat_consts_t) (rats : vect_rat_t) (self_ix : Nat)
    (rat : rat_t) (p1 : point) (fuel : Nat) (objs : List room_object_t) :
    ∀ hs hs' : hide_state_t, b.hide_loop k rats self_ix rat p1 fuel objs hs = some hs' →
      (hs.best_score ≠ 0 → hs.best_dest.z = rat.pos.z) →
      hs'.best_score ≠ 0 → hs'.best_dest.z = rat.pos.z := by
  induction objs with
  | nil => intro hs hs' h hj; cases h; exact hj
  | cons c cs ih =>
    intro hs hs' h hj
    unfold building_t.hide_loop at h
    cases hst : b.hide_step k rats self_ix rat p1 fuel c hs with
    | none => rw [hst] at h; exact Option.noConfusion h
    | some res =>
      rw [hst] at h
      have hb := hide_step_best b k rats self_ix rat p1 fuel c hs res hst hj
      obtain ⟨hs1, brk⟩ := res
      cases brk with
      | true => cases h; exact hb
      | false => exact ih hs1 hs' h hb

/-- The hiding step returns and keeps the state level, when the radii are positive, the
square root of a number below `r * r` is below `r`, and the fuel is at least 500. -/
lemma update_rat_hide_level (b : building_t) (k : rat_consts_t) (rats : vect_rat_t) (self_ix : Nat)
    (p1 : point) (timestep : ℚ) (fuel : Nat) (st : update_state_t) (radius : ℚ)
    (hsqrt : ∀ q x : ℚ, 0 < x → q < x * x → b.m.sqrtf q < x)
    (hown : 0 < radius) (hrad : ∀ r ∈ rats.rats, 0 < r.radius) (hfuel : 500 ≤ fuel)
    (hl : st.level radius) :
    ∃ st', b.update_rat_hide k rats self_ix p1 timestep fuel st = some st'
      ∧ b.update_rat_hide k rats self_ix p1 timestep 500 st = some st' ∧ st'.level radius := by
  obtain ⟨hz, hd, _, hr⟩ := hl
  have hview : ∀ r ∈ rats.rats.set self_ix { st.rat with wake_time := 0 }, 0 < r.radius := by
    intro r hm
    rcases List.mem_or_eq_of_mem_set hm with h | h
    · exact hrad r h
    · rw [h]; show 0 < st.rat.radius; rw [hr]; exact hown
  obtain ⟨hs, h500, hf⟩ := hide_loop_fuel b k
    { rats with rats := rats.rats.set self_ix { st.rat with wake_time := 0 }, max_xmove := st.max_xmove }
    self_ix { st.rat with wake_time := 0 } p1 fuel hsqrt (by show 0 < st.rat.radius; rw [hr]; exact hown)
    hview hfuel (b.room_objs_on_ground_floor (st.rat.pos.z + k.height))
    { best_dest := zero_vector, best_score := 0, has_fear_dest := st.has_fear_dest
      update_path := st.update_path, speed := st.rat.speed }
  have hj := hide_loop_best b k _ self_ix _ p1 fuel _ _ hs hf (fun h => absurd rfl h)
  have hn : (b.m.get_norm ⟨(st.rat.fear_pos.sub st.rat.pos).x, (st.rat.fear_pos.sub st.rat.pos).y, 0⟩).z
      = 0 := get_norm_z _ _ rfl
  unfold building_t.update_rat_hide
  simp only []
  rw [hf, h500]
  simp only []
  unfold update_state_t.level
  by_cases hc : hs.has_fear_dest = false ∧ hs.best_score ≠ 0
  · rw [if_pos hc]
    have hbz := hj hc.2
    by_cases hdl : dist_less_than st.rat.pos hs.best_dest k.dist_thresh
    · simp only [hdl, if_true]
      rw [if_pos hbz.symm]
      exact ⟨_, rfl, rfl, hbz.symm, hd, hn, hr⟩
    · simp only [hdl, if_false]
      rw [if_pos hbz.symm]
      exact ⟨_, rfl, rfl, hbz.symm, hd, hn, hr⟩
  · rw [if_neg hc]
    exact ⟨_, rfl, rfl, hz, hd, hn, hr⟩

/-- The wander loop keeps the state level, when the directions of the pool are
horizontal. -/
lemma wander_loop_level (b : building_t) (k : rat_consts_t) (p1 : point) (is_scared : Bool)
    (dub ms : ℚ) (radius : ℚ) (hpool : ∀ i, (b.dirs i).z = 0) (remaining : Nat) :
    ∀ (n : Nat) (fov dist : ℚ) (st : update_state_t), st.level radius →
      (b.wander_loop k p1 is_scared dub ms remaining n fov dist st).1.level radius := by
  induction remaining with
  | zero => intro n fov dist st hl; exact hl
  | succ j ih =>
    intro n fov dist st hl
    have hl1 : ({ st with dir_ix := (b.gen_dir st.dir_ix).2 } : update_state_t).level radius := hl
    unfold building_t.wander_loop
    simp only []
    split
    · exact ih _ _ _ _ hl1
    · rename_i vdir heq
      have hvz : vdir.z = 0 := by
        have hg : (b.gen_dir st.dir_ix).1.z = 0 := hpool _
        split_ifs at heq
        all_goals cases heq
        all_goals first
          | exact hg
          | (show -(b.gen_dir st.dir_ix).1.z = 0; rw [hg, neg_zero])
          | simp [cross_product, plus_z, vector3d.negate]
      split_ifs
      all_goals first
        | exact ih _ _ _ _ hl1
        | exact ih _ _ _ _ hl
        | (obtain ⟨hz, hd, hf, hr⟩ := hl
           refine ⟨?_, hd, hf, hr⟩
           show st.rat.pos.z = st.rat.pos.z + _ * vdir.z
           rw [hvz, mul_zero, add_zero])

/-- The rest-or-wander step returns and keeps the state level, when the directions of the
pool are horizontal. -/
lemma update_rat_wander_level (b : building_t) (k : rat_consts_t) (p1 : point)
    (is_scared newly_scared : Bool) (st : update_state_t) (radius : ℚ)
    (hpool : ∀ i, (b.dirs i).z = 0) (hl : st.level radius) :
    ∃ st', b.update_rat_wander k p1 is_scared newly_scared st = some st' ∧ st'.level radius := by
  have hsearch : ∀ s : update_state_t, s.level radius →
      (b.wander_search k p1 is_scared s).1.level radius := by
    intro s hs
    unfold building_t.wander_search
    exact wander_loop_level b k p1 is_scared _ _ radius hpool 200 0 _ _ _ hs
  unfold building_t.update_rat_wander
  simp only []
  split_ifs
  · exact ⟨_, rfl, hl⟩
  · exact ⟨_, rfl, hsearch { st with rgen := (b.rf.rand st.rgen).2 } hl⟩
  · exact absurd (hsearch { st with rgen := (b.rf.rand st.rgen).2 } hl).1 (by assumption)
  · exact ⟨_, rfl, hl⟩
  · exact ⟨_, rfl, hsearch st hl⟩
  · exact absurd (hsearch st hl).1 (by assumption)
  · exact ⟨_, rfl, hl⟩

/-- The heading step returns for a level state, with the destination at the height of the
agent and a horizontal heading, when the random replacement vector is horizontal. -/
lemma update_rat_dir_level (b : building_t) (k : rat_consts_t) (timestep : ℚ) (is_scared : Bool)
    (st : update_state_t) (radius : ℚ) (hrand : ∀ g, (b.rf.signed_rand_vector_xy g).1.z = 0)
    (hl : st.level radius) :
    ∃ st', b.update_rat_dir k timestep is_scared st = some st'
      ∧ st'.rat.pos.z = st'.rat.dest.z ∧ st'.rat.dir.z = 0 := by
  obtain ⟨hz, hd, hf, _⟩ := hl
  have htarget : (b.dir_target k st).z = 0 := by
    unfold building_t.dir_target
    split_ifs
    all_goals first
      | exact hf
      | exact get_norm_z b.m (st.rat.dest.sub st.rat.pos)
          (by show st.rat.dest.z - st.rat.pos.z = 0; rw [hz, sub_self])
      | rfl
  have hsnap : (dir_snap k st).rat.pos.z = (dir_snap k st).rat.dest.z
      ∧ (dir_snap k st).rat.dir.z = 0 := by
    unfold dir_snap
    split_ifs
    · exact ⟨rfl, hd⟩
    · exact ⟨hz, hd⟩
  have hturn : ∀ s : update_state_t, s.rat.pos.z = s.rat.dest.z ∧ s.rat.dir.z = 0 →
      (b.dir_turn timestep is_scared (b.dir_target k st) s).rat.pos.z
        = (b.dir_turn timestep is_scared (b.dir_target k st) s).rat.dest.z
      ∧ (b.dir_turn timestep is_scared (b.dir_target k st) s).rat.dir.z = 0 := by
    intro s hs
    unfold building_t.dir_turn
    split_ifs
    all_goals first
      | exact hs
      | (refine ⟨hs.1, get_norm_z _ _ ?_⟩
         show _ * (b.dir_target k st).z + _ * s.rat.dir.z = 0
         rw [htarget, hs.2, mul_zero, mul_zero, add_zero])
  have hfix : ∀ s : update_state_t, s.rat.pos.z = s.rat.dest.z ∧ s.rat.dir.z = 0 →
      (b.dir_fix s).rat.pos.z = (b.dir_fix s).rat.dest.z ∧ (b.dir_fix s).rat.dir.z = 0 := by
    intro s hs
    unfold building_t.dir_fix
    split_ifs
    · exact ⟨hs.1, get_norm_z _ _ (hrand _)⟩
    · exact hs
  have hfin := hfix _ (hturn { dir_snap k st with rat := { (dir_snap k st).rat with is_hiding :=
      ((dir_snap k st).has_fear_dest
        && decide (dist_less_than (dir_snap k st).rat.pos (dir_snap k st).rat.dest (2 * k.dist_thresh))) } }
      hsnap)
  unfold building_t.update_rat_dir
  simp only []
  rw [if_pos hfin.2]
  exact ⟨_, rfl, hfin⟩

/-- A call to `update_rat` returns, with the destination at the height of the agent and a
horizontal heading, and it returns the same with fuel 500 as with more: for an agent that
enters with a horizontal heading, its destination at its height and a half-width that is at
most its half-length, when the collision handler keeps the height, the directions of the
pool and the random replacement vector are horizontal, the radii are positive and the
square root of a number below `r * r` is below `r`. -/
lemma update_rat_returns (b : building_t) (fuel : Nat) (rats : vect_rat_t) (self_ix : Nat)
    (camera_bs : point) (ped_ix : Int) (timestep : ℚ) (can_attack_player : Bool)
    (st : update_state_t)
    (hcoll : ∀ (p : point) (r h : ℚ) (c : point),
      (b.check_and_handle_dynamic_obj_coll p r h c).2.z = p.z)
    (hpool : ∀ i, (b.dirs i).z = 0)
    (hrand : ∀ g, (b.rf.signed_rand_vector_xy g).1.z = 0)
    (hsqrt : ∀ q x : ℚ, 0 < x → q < x * x → b.m.sqrtf q < x)
    (hown : 0 < st.rat.radius) (hrad : ∀ r ∈ rats.rats, 0 < r.radius) (hfuel : 500 ≤ fuel)
    (hd : st.rat.dir.z = 0) (hz : st.rat.pos.z = st.rat.dest.z)
    (hw : st.rat.hwidth ≤ st.rat.get_hlength) :
    ∃ st', b.update_rat fuel rats self_ix camera_bs ped_ix timestep can_attack_player st = some st'
      ∧ b.update_rat 500 rats self_ix camera_bs ped_ix timestep can_attack_player st = some st'
      ∧ st'.rat.pos.z = st'.rat.dest.z ∧ st'.rat.dir.z = 0 := by
  have hw1 : ¬ ¬ (b.rat_consts st.rat timestep).hwidth ≤ (b.rat_consts st.rat timestep).hlength :=
    not_not.mpr hw
  have l1 := after_collision_level b camera_bs timestep st hcoll hz hd
  obtain ⟨st2, e2, l2⟩ := update_rat_scare_level b camera_bs ped_ix can_attack_player _ _ l1
  have l3 := update_rat_attack_level b (b.rat_consts st.rat timestep) camera_bs
    ((b.after_collision camera_bs timestep st).rat.pos.add (b.rat_consts st.rat timestep).center_dz)
    st2 _ l2
  have h4 : ∃ st4,
      (if decide (st2.rat.fear > 0) = true then
        b.update_rat_hide (b.rat_consts st.rat timestep) rats self_ix
          ((b.after_collision camera_bs timestep st).rat.pos.add (b.rat_consts st.rat timestep).center_dz)
          timestep fuel (b.update_rat_attack (b.rat_consts st.rat timestep) camera_bs
            ((b.after_collision camera_bs timestep st).rat.pos.add
              (b.rat_consts st.rat timestep).center_dz) st2)
      else some (b.update_rat_attack (b.rat_consts st.rat timestep) camera_bs
            ((b.after_collision camera_bs timestep st).rat.pos.add
              (b.rat_consts st.rat timestep).center_dz) st2)) = some st4
      ∧ (if decide (st2.rat.fear > 0) = true then
        b.update_rat_hide (b.rat_consts st.rat timestep) rats self_ix
          ((b.after_collision camera_bs timestep st).rat.pos.add (b.rat_consts st.rat timestep).center_dz)
          timestep 500 (b.update_rat_attack (b.rat_consts st.rat timestep) camera_bs
            ((b.after_collision camera_bs timestep st).rat.pos.add
              (b.rat_consts st.rat timestep).center_dz) st2)
      else some (b.update_rat_attack (b.rat_consts st.rat timestep) camera_bs
            ((b.after_collision camera_bs timestep st).rat.pos.add
              (b.rat_consts st.rat timestep).center_dz) st2)) = some st4
      ∧ st4.level st.rat.radius := by
    split_ifs
    · exact update_rat_hide_level b _ rats self_ix _ timestep fuel _ _ hsqrt hown hrad hfuel l3
    · exact ⟨_, rfl, rfl, l3⟩
  obtain ⟨st4, e4, e4', l4⟩ := h4
  obtain ⟨st5, e5, l5⟩ := update_rat_wander_level b (b.rat_consts st.rat timestep)
    ((b.after_collision camera_bs timestep st).rat.pos.add (b.rat_consts st.rat timestep).center_dz)
    (decide (st2.rat.fear > 0))
    (decide (st2.rat.fear > 0) && !decide ((b.after_collision camera_bs timestep st).rat.fear > 0))
    st4 _ hpool l4
  obtain ⟨st6, e6, l6⟩ := update_rat_dir_level b (b.rat_consts st.rat timestep) timestep
    (decide (st2.rat.fear > 0)) st5 _ hrand l5
  refine ⟨st6, ?_, ?_, l6⟩
  · unfold building_t.update_rat
    simp only []
    rw [if_neg hw1, e2, Option.some_bind, e4, Option.some_bind, e5, Option.some_bind, e6]
  · unfold building_t.update_rat
    simp only []
    rw [if_neg hw1, e2, Option.some_bind, e4', Option.some_bind, e5, Option.some_bind, e6]

/-- The motion step keeps the destination at the height of the agent and the heading
horizontal. -/
lemma move_level (m : math_t) (tfticks timestep : ℚ) (r : rat_t) (hd : r.dir.z = 0)
    (hz : r.pos.z = r.dest.z) :
    (r.move m tfticks timestep).pos.z = (r.move m tfticks timestep).dest.z
    ∧ (r.move m tfticks timestep).dir.z = 0 := by
  unfold rat_t.move
  simp only []
  split_ifs
  all_goals first
    | exact ⟨hz, hd⟩
    | (refine ⟨?_, hd⟩
       show r.pos.z + timestep * r.speed * r.dir.z = r.dest.z
       rw [hd, mul_zero, add_zero, hz])

/-- C18 (the fatal assertions are unreachable): for an agent that enters `update_rat` with
a horizontal heading, its destination at its own height and a half-width that is at most
its half-length, whatever the random draws and the geometry queries answer, as long as the
collision handler keeps the height of the agent, the directions of the pool and the random
replacement vector are horizontal: no assertion of `update_rat` fails, the call returns
(the radii being positive and the square root mapping every number below `r * r` below `r`,
so that the neighbor loop ends), and on return the destination is at the height of the
agent and the heading is horizontal again; `rat_t::move` keeps both. -/
theorem assertions_unreachable (b : building_t) (fuel : Nat) (rats : vect_rat_t) (self_ix : Nat)
    (camera_bs : point) (ped_ix : Int) (timestep : ℚ) (can_attack_player : Bool)
    (st : update_state_t)
    (hcoll : ∀ (p : point) (r h : ℚ) (c : point),
      (b.check_and_handle_dynamic_obj_coll p r h c).2.z = p.z)
    (hpool : ∀ i, (b.dirs i).z = 0)
    (hrand : ∀ g, (b.rf.signed_rand_vector_xy g).1.z = 0)
    (hsqrt : ∀ q x : ℚ, 0 < x → q < x * x → b.m.sqrtf q < x)
    (hown : 0 < st.rat.radius) (hrad : ∀ r ∈ rats.rats, 0 < r.radius) (hfuel : 500 ≤ fuel)
    (hd : st.rat.dir.z = 0) (hz : st.rat.pos.z = st.rat.dest.z)
    (hw : st.rat.hwidth ≤ st.rat.get_hlength) :
    (∃ st', b.update_rat fuel rats self_ix camera_bs ped_ix timestep can_attack_player st = some st'
      ∧ st'.rat.pos.z = st'.rat.dest.z ∧ st'.rat.dir.z = 0)
    ∧ ∀ tfticks t : ℚ, (st.rat.move b.m tfticks t).pos.z = (st.rat.move b.m tfticks t).dest.z
        ∧ (st.rat.move b.m tfticks t).dir.z = 0 := by
  obtain ⟨st', h1, _, h2⟩ := update_rat_returns b fuel rats self_ix camera_bs ped_ix timestep
    can_attack_player st hcoll hpool hrand hsqrt hown hrad hfuel hd hz hw
  exact ⟨⟨st', h1, h2⟩, fun tfticks t => move_level b.m tfticks t st.rat hd hz⟩

/-- The scared agent of the table example, in the building with the square root that never
rounds up: its `update_rat` returns, with the destination at its height and a horizontal
heading. -/
theorem assertions_unreachable_witness :
    ∃ st', demo_building_floor.update_rat 500 demo_sorted_rats_table 2 ⟨5, 5, 0⟩ (-1) 4 false
        (demo_state demo_rat_hider_table) = some st'
      ∧ st'.rat.pos.z = st'.rat.dest.z ∧ st'.rat.dir.z = 0 :=
  (assertions_unreachable demo_building_floor 500 demo_sorted_rats_table 2 ⟨5, 5, 0⟩ (-1) 4 false
    (demo_state demo_rat_hider_table) (fun _ _ _ _ => rfl) (fun _ => rfl) (fun _ => rfl)
    floor_sqrt_lt (by decide!) (by decide!) (le_refl _) (by decide!) (by decide!) (by decide!)).1

/-! ### The cached maximum radius -/

/-- Adding agents keeps the cached maximum at least 0, at least every radius, and either 0
or the radius of a member. -/
lemma foldl_add_max_radius (new_rats : List rat_t) :
    ∀ v : vect_rat_t,
      (0 ≤ v.max_radius ∧ (∀ r ∈ v.rats, r.radius ≤ v.max_radius)
        ∧ (v.max_radius = 0 ∨ ∃ r ∈ v.rats, r.radius = v.max_radius)) →
      (0 ≤ (new_rats.foldl vect_rat_t.add v).max_radius
        ∧ (∀ r ∈ (new_rats.foldl vect_rat_t.add v).rats,
            r.radius ≤ (new_rats.foldl vect_rat_t.add v).max_radius)
        ∧ ((new_rats.foldl vect_rat_t.add v).max_radius = 0
          ∨ ∃ r ∈ (new_rats.foldl vect_rat_t.add v).rats,
              r.radius = (new_rats.foldl vect_rat_t.add v).max_radius))
      ∧ ∀ r ∈ new_rats, ∃ r' ∈ (new_rats.foldl vect_rat_t.add v).rats, r'.radius = r.radius := by
  induction new_rats with
  | nil => intro v h; exact ⟨h, fun r hr => absurd hr (List.not_mem_nil r)⟩
  | cons a rs ih =>
    intro v ⟨h0, hle, hatt⟩
    have hstep : 0 ≤ (v.add a).max_radius ∧ (∀ r ∈ (v.add a).rats, r.radius ≤ (v.add a).max_radius)
        ∧ ((v.add a).max_radius = 0 ∨ ∃ r ∈ (v.add a).rats, r.radius = (v.add a).max_radius) := by
      unfold vect_rat_t.add
      simp only [List.mem_append, List.mem_singleton]
      refine ⟨le_max_of_le_left h0, ?_, ?_⟩
      · intro r hr
        rcases hr with hr | hr
        · exact le_max_of_le_left (hle r hr)
        · rw [hr]; exact le_max_right _ _
      · rcases le_total v.max_radius a.radius with hc | hc
        · right
          exact ⟨_, Or.inr rfl, (max_eq_right hc).symm⟩
        · rw [max_eq_left hc]
          rcases hatt with hz | ⟨r, hr, he⟩
          · exact Or.inl hz
          · exact Or.inr ⟨r, Or.inl hr, he⟩
    obtain ⟨h1, h2⟩ := ih (v.add a) hstep
    refine ⟨h1, ?_⟩
    intro r hr
    rcases List.mem_cons.mp hr with he | hm
    · -- the agent added first is still a member
      have hin : ∀ (l : List rat_t) (w : vect_rat_t) (x : rat_t), x ∈ w.rats →
          x ∈ (l.foldl vect_rat_t.add w).rats := by
        intro l
        induction l with
        | nil => intro w x hx; exact hx
        | cons c l ihl =>
          intro w x hx
          exact ihl (w.add c) x (by
            unfold vect_rat_t.add
            exact List.mem_append_left _ hx)
      refine ⟨{ a with rat_id := v.rats.length + 1 }, hin rs (v.add a) _ ?_, by rw [he]⟩
      unfold vect_rat_t.add
      exact List.mem_append_right _ (List.mem_singleton_self _)
    · exact h2 r hm

/-- C21 (cached maximum radius): `vect_rat_t::add` sets `max_radius` to the larger of its
old value and the radius added; in a container built from the empty one (with `max_radius`
0) by calls of `add`, `max_radius` is at least 0 and at least the radius of every member,
and when some agent added has a radius that is not negative, `max_radius` is the radius of
a member, that is, the largest radius in the container. -/
theorem max_radius_is_largest (v : vect_rat_t) (rat : rat_t) (new_rats : List rat_t) :
    (v.add rat).max_radius = max v.max_radius rat.radius
    ∧ 0 ≤ (new_rats.foldl vect_rat_t.add vect_rat_t.empty).max_radius
    ∧ (∀ r ∈ (new_rats.foldl vect_rat_t.add vect_rat_t.empty).rats,
        r.radius ≤ (new_rats.foldl vect_rat_t.add vect_rat_t.empty).max_radius)
    ∧ ((∃ r ∈ new_rats, 0 ≤ r.radius) →
        ∃ r ∈ (new_rats.foldl vect_rat_t.add vect_rat_t.empty).rats,
          r.radius = (new_rats.foldl vect_rat_t.add vect_rat_t.empty).max_radius) := by
  obtain ⟨⟨h0, hle, hatt⟩, hmem⟩ := foldl_add_max_radius new_rats vect_rat_t.empty
    ⟨le_refl _, fun r hr => absurd hr (List.not_mem_nil r), Or.inl rfl⟩
  refine ⟨rfl, h0, hle, ?_⟩
  rintro ⟨r, hr, hpos⟩
  rcases hatt with hz | h
  · obtain ⟨r', hr', he⟩ := hmem r hr
    refine ⟨r', hr', ?_⟩
    have := hle r' hr'
    rw [hz] at this ⊢
    rw [he] at this ⊢
    exact le_antisymm this hpos
  · exact h

/-- The container built by adding the example agents of radius 1 and an agent of radius
5/2: the cached maximum is 5/2, the radius of a member. -/
theorem max_radius_is_largest_witness :
    ([demo_rat_a, { demo_rat_c with radius := 5 / 2 }, demo_rat_hider].foldl vect_rat_t.add
        vect_rat_t.empty).max_radius = 5 / 2
    ∧ ∃ r ∈ ([demo_rat_a, { demo_rat_c with radius := 5 / 2 }, demo_rat_hider].foldl vect_rat_t.add
        vect_rat_t.empty).rats,
        r.radius = ([demo_rat_a, { demo_rat_c with radius := 5 / 2 }, demo_rat_hider].foldl
          vect_rat_t.add vect_rat_t.empty).max_radius :=
  ⟨by decide!,
    (max_radius_is_largest vect_rat_t.empty demo_rat
      [demo_rat_a, { demo_rat_c with radius := 5 / 2 }, demo_rat_hider]).2.2.2
      ⟨demo_rat_a, List.mem_cons_self _ _, by decide!⟩⟩

/-! ### The safe area of the hiding anchor -/

/-- The draw of the example generator lies between its bounds. -/
lemma demo_rand_uniform_bounds (g : rand_gen_t) (lo hi : ℚ) (h : lo ≤ hi) :
    lo ≤ (demo_rand.rand_uniform g lo hi).1 ∧ (demo_rand.rand_uniform g lo hi).1 ≤ hi := by
  show lo ≤ lo + (hi - lo) * (((g.rseed2 % 1000 : Nat) : ℚ) / 1000)
    ∧ lo + (hi - lo) * (((g.rseed2 % 1000 : Nat) : ℚ) / 1000) ≤ hi
  have h0 : (0 : ℚ) ≤ ((g.rseed2 % 1000 : Nat) : ℚ) / 1000 := by positivity
  have h1 : ((g.rseed2 % 1000 : Nat) : ℚ) / 1000 ≤ 1 := by
    rw [div_le_one (by norm_num)]
    have : g.rseed2 % 1000 < 1000 := Nat.mod_lt _ (by norm_num)
    exact_mod_cast le_of_lt this
  have hd : 0 ≤ hi - lo := sub_nonneg.mpr h
  constructor
  · nlinarith [mul_nonneg hd h0]
  · nlinarith [mul_le_mul_of_nonneg_left h1 hd]

/-- C26 (safe area and anchor): for a hide area with positive extents in x and y and a
half-length that is not negative, the safe area of lines 366-372 is strictly normalized
(low < high in x and y), keeps at least 2% of the extent of the hide area in x and in y,
and lies inside the hide area; and when `rand_uniform` draws between its bounds, the
un-nudged anchor lies inside the safe area, hence inside the hide area. -/
theorem safe_area_bounds (b : building_t) (k : rat_consts_t) (rat_id : Nat) (c : room_object_t)
    (hide_area : cube_t) (p1z : ℚ)
    (hx : hide_area.x1 < hide_area.x2) (hy : hide_area.y1 < hide_area.y2) (hl : 0 ≤ k.hlength)
    (hru : ∀ (g : rand_gen_t) (lo hi : ℚ), lo ≤ hi →
      lo ≤ (b.rf.rand_uniform g lo hi).1 ∧ (b.rf.rand_uniform g lo hi).1 ≤ hi) :
    ((hide_safe_area k hide_area).x1 < (hide_safe_area k hide_area).x2
      ∧ (hide_safe_area k hide_area).y1 < (hide_safe_area k hide_area).y2)
    ∧ ((2 / 100) * hide_area.dx ≤ (hide_safe_area k hide_area).dx
      ∧ (2 / 100) * hide_area.dy ≤ (hide_safe_area k hide_area).dy)
    ∧ (hide_area.x1 ≤ (hide_safe_area k hide_area).x1
      ∧ (hide_safe_area k hide_area).x2 ≤ hide_area.x2
      ∧ hide_area.y1 ≤ (hide_safe_area k hide_area).y1
      ∧ (hide_safe_area k hide_area).y2 ≤ hide_area.y2)
    ∧ (hide_safe_area k hide_area).contains_pt_xy (b.hide_anchor k rat_id c hide_area p1z)
    ∧ hide_area.contains_pt_xy (b.hide_anchor k rat_id c hide_area p1z) := by
  have hdx : 0 < hide_area.x2 - hide_area.x1 := sub_pos.mpr hx
  have hdy : 0 < hide_area.y2 - hide_area.y1 := sub_pos.mpr hy
  have hsx0 : 0 ≤ min ((15 / 10) * k.hlength) ((49 / 100) * (hide_area.x2 - hide_area.x1)) :=
    le_min (by positivity) (by positivity)
  have hsx1 : min ((15 / 10) * k.hlength) ((49 / 100) * (hide_area.x2 - hide_area.x1))
      ≤ (49 / 100) * (hide_area.x2 - hide_area.x1) := min_le_right _ _
  have hsy0 : 0 ≤ min ((15 / 10) * k.hlength) ((49 / 100) * (hide_area.y2 - hide_area.y1)) :=
    le_min (by positivity) (by positivity)
  have hsy1 : min ((15 / 10) * k.hlength) ((49 / 100) * (hide_area.y2 - hide_area.y1))
      ≤ (49 / 100) * (hide_area.y2 - hide_area.y1) := min_le_right _ _
  have ex1 : (hide_safe_area k hide_area).x1
      = hide_area.x1 + min ((15 / 10) * k.hlength) ((49 / 100) * (hide_area.x2 - hide_area.x1)) := by
    simp [hide_safe_area, cube_t.expand_in_dim, cube_t.get_sz_dim, cube_t.dx, cube_t.dy]
  have ex2 : (hide_safe_area k hide_area).x2
      = hide_area.x2 - min ((15 / 10) * k.hlength) ((49 / 100) * (hide_area.x2 - hide_area.x1)) := by
    simp [hide_safe_area, cube_t.expand_in_dim, cube_t.get_sz_dim, cube_t.dx, cube_t.dy]
    ring
  have ey1 : (hide_safe_area k hide_area).y1
      = hide_area.y1 + min ((15 / 10) * k.hlength) ((49 / 100) * (hide_area.y2 - hide_area.y1)) := by
    simp [hide_safe_area, cube_t.expand_in_dim, cube_t.get_sz_dim, cube_t.dx, cube_t.dy]
  have ey2 : (hide_safe_area k hide_area).y2
      = hide_area.y2 - min ((15 / 10) * k.hlength) ((49 / 100) * (hide_area.y2 - hide_area.y1)) := by
    simp [hide_safe_area, cube_t.expand_in_dim, cube_t.get_sz_dim, cube_t.dx, cube_t.dy]
    ring
  have hxs : (hide_safe_area k hide_area).x1 < (hide_safe_area k hide_area).x2 := by
    rw [ex1, ex2]; linarith
  have hys : (hide_safe_area k hide_area).y1 < (hide_safe_area k hide_area).y2 := by
    rw [ey1, ey2]; linarith
  -- the anchor
  have hax : (b.hide_anchor k rat_id c hide_area p1z).x
      = (b.rf.rand_uniform (rand_gen_t.set_state (rat_id + 1)
          (c.obj_id + b.type_code c.type * 2 ^ 16 + 1))
          (hide_safe_area k hide_area).x1 (hide_safe_area k hide_area).x2).1 := by
    simp [building_t.hide_anchor, hide_safe_area, cube_t.expand_in_dim, cube_t.get_sz_dim,
      cube_t.dx, cube_t.dy]
  have hay : ∃ g, (b.hide_anchor k rat_id c hide_area p1z).y
      = (b.rf.rand_uniform g (hide_safe_area k hide_area).y1 (hide_safe_area k hide_area).y2).1 := by
    exact ⟨_, rfl⟩
  obtain ⟨g, hay⟩ := hay
  have bx := hru (rand_gen_t.set_state (rat_id + 1) (c.obj_id + b.type_code c.type * 2 ^ 16 + 1))
    _ _ (le_of_lt hxs)
  have by_ := hru g _ _ (le_of_lt hys)
  rw [← hax] at bx
  rw [← hay] at by_
  refine ⟨⟨hxs, hys⟩, ⟨?_, ?_⟩, ⟨?_, ?_, ?_, ?_⟩, ⟨bx.1, bx.2, by_.1, by_.2⟩, ?_⟩
  · unfold cube_t.dx; rw [ex1, ex2]; linarith
  · unfold cube_t.dy; rw [ey1, ey2]; linarith
  · rw [ex1]; linarith
  · rw [ex2]; linarith
  · rw [ey1]; linarith
  · rw [ey2]; linarith
  · refine ⟨?_, ?_, ?_, ?_⟩
    · have := bx.1; rw [ex1] at this; linarith
    · have := bx.2; rw [ex2] at this; linarith
    · have := by_.1; rw [ey1] at this; linarith
    · have := by_.2; rw [ey2] at this; linarith

/-- The anchor of agent number 3 under the example table lies in the hide area
`[-3, 3] x [-3, 3]`. -/
theorem safe_area_bounds_witness :
    demo_hide_area.contains_pt_xy
      (demo_building.hide_anchor (demo_building.rat_consts demo_rat_hider_table 4) 3 demo_table
        demo_hide_area 0) :=
  (safe_area_bounds demo_building (demo_building.rat_consts demo_rat_hider_table 4) 3 demo_table
    demo_hide_area 0 (by decide!) (by decide!) (by decide!)
    (fun g lo hi h => demo_rand_uniform_bounds g lo hi h)).2.2.2.2

/-! ### The cases of the collision step -/

/-- C27 (the cases of the collision step): when the collision check of `update_rat` runs
(the agent is not asleep with fear 0) and reports a collision that moves the agent to
`new_pos`: if `new_pos` is outside the valid interior, the agent is put back and sleeps
until `tfticks + u * TICKS_PER_SECOND` with `u` drawn from `[0.1, 0.2]`; if `new_pos` is
inside but the straight path from it to the destination is blocked, the agent is put back
and keeps its wake time; otherwise the agent stays at `new_pos` and keeps its wake time.
The flag `update_path` is set only in the last case, and there exactly when the draw of
`rgen.rand()` is a multiple of 30. -/
theorem collision_cases (b : building_t) (camera_bs : point) (timestep : ℚ) (st : update_state_t)
    (hcheck : ¬ (st.rat.is_sleeping ∧ st.rat.fear = 0))
    (hcoll : (b.check_and_handle_dynamic_obj_coll st.rat.pos st.rat.radius
      (b.rat_consts st.rat timestep).height camera_bs).1 = true) :
    (b.is_rat_inside_building (b.check_and_handle_dynamic_obj_coll st.rat.pos st.rat.radius
        (b.rat_consts st.rat timestep).height camera_bs).2 (b.rat_consts st.rat timestep).xy_pad
        (b.rat_consts st.rat timestep).hheight = false →
      (b.after_collision camera_bs timestep st).rat.pos = st.rat.pos
      ∧ (b.after_collision camera_bs timestep st).rat.wake_time
        = b.tfticks + (b.rf.rand_uniform st.global_rgen (1 / 10) (2 / 10)).1 * b.TICKS_PER_SECOND
      ∧ (b.after_collision camera_bs timestep st).update_path = false)
    ∧ (b.is_rat_inside_building (b.check_and_handle_dynamic_obj_coll st.rat.pos st.rat.radius
        (b.rat_consts st.rat timestep).height camera_bs).2 (b.rat_consts st.rat timestep).xy_pad
        (b.rat_consts st.rat timestep).hheight = true →
      b.check_line_coll_expand
        ((b.check_and_handle_dynamic_obj_coll st.rat.pos st.rat.radius
          (b.rat_consts st.rat timestep).height camera_bs).2.add
          (b.rat_consts st.rat timestep).center_dz)
        (st.rat.dest.add (b.rat_consts st.rat timestep).center_dz)
        (b.rat_consts st.rat timestep).coll_radius
        (b.rat_consts st.rat timestep).squish_hheight = true →
      (b.after_collision camera_bs timestep st).rat.pos = st.rat.pos
      ∧ (b.after_collision camera_bs timestep st).rat.wake_time = st.rat.wake_time
      ∧ (b.after_collision camera_bs timestep st).update_path = false)
    ∧ (b.is_rat_inside_building (b.check_and_handle_dynamic_obj_coll st.rat.pos st.rat.radius
        (b.rat_consts st.rat timestep).height camera_bs).2 (b.rat_consts st.rat timestep).xy_pad
        (b.rat_consts st.rat timestep).hheight = true →
      b.check_line_coll_expand
        ((b.check_and_handle_dynamic_obj_coll st.rat.pos st.rat.radius
          (b.rat_consts st.rat timestep).height camera_bs).2.add
          (b.rat_consts st.rat timestep).center_dz)
        (st.rat.dest.add (b.rat_consts st.rat timestep).center_dz)
        (b.rat_consts st.rat timestep).coll_radius
        (b.rat_consts st.rat timestep).squish_hheight = false →
      (b.after_collision camera_bs timestep st).rat.pos
        = (b.check_and_handle_dynamic_obj_coll st.rat.pos st.rat.radius
            (b.rat_consts st.rat timestep).height camera_bs).2
      ∧ (b.after_collision camera_bs timestep st).rat.wake_time = st.rat.wake_time
      ∧ (b.after_collision camera_bs timestep st).update_path
        = decide ((b.rf.rand (b.rf.rand_mix st.rgen)).1 % 30 = 0)) := by
  have hcheck1 : ¬ (({ st.enter with rgen := b.rf.rand_mix st.enter.rgen } : update_state_t).rat.is_sleeping
      ∧ ({ st.enter with rgen := b.rf.rand_mix st.enter.rgen } : update_state_t).rat.fear = 0) := hcheck
  have hcoll1 : (b.check_and_handle_dynamic_obj_coll
      ({ st.enter with rgen := b.rf.rand_mix st.enter.rgen } : update_state_t).rat.pos
      ({ st.enter with rgen := b.rf.rand_mix st.enter.rgen } : update_state_t).rat.radius
      (b.rat_consts st.rat timestep).height camera_bs).1 = true := hcoll
  unfold building_t.after_collision building_t.update_rat_collision
  simp only []
  rw [if_neg hcheck1, if_pos hcoll1]
  refine ⟨?_, ?_, ?_⟩
  · intro hout
    have hout1 : b.is_rat_inside_building (b.check_and_handle_dynamic_obj_coll
        ({ st.enter with rgen := b.rf.rand_mix st.enter.rgen } : update_state_t).rat.pos
        ({ st.enter with rgen := b.rf.rand_mix st.enter.rgen } : update_state_t).rat.radius
        (b.rat_consts st.rat timestep).height camera_bs).2 (b.rat_consts st.rat timestep).xy_pad
        (b.rat_consts st.rat timestep).hheight = false := hout
    rw [if_pos hout1]
    exact ⟨rfl, rfl, rfl⟩
  · intro hin hblocked
    have hin1 : ¬ b.is_rat_inside_building (b.check_and_handle_dynamic_obj_coll
        ({ st.enter with rgen := b.rf.rand_mix st.enter.rgen } : update_state_t).rat.pos
        ({ st.enter with rgen := b.rf.rand_mix st.enter.rgen } : update_state_t).rat.radius
        (b.rat_consts st.rat timestep).height camera_bs).2 (b.rat_consts st.rat timestep).xy_pad
        (b.rat_consts st.rat timestep).hheight = false := by
      intro hc
      exact Bool.noConfusion (hin.symm.trans hc)
    rw [if_neg hin1]
    split_ifs with h1
    · exact ⟨rfl, rfl, rfl⟩
    · exact absurd hblocked h1
  · intro hin hfree
    have hin1 : ¬ b.is_rat_inside_building (b.check_and_handle_dynamic_obj_coll
        ({ st.enter with rgen := b.rf.rand_mix st.enter.rgen } : update_state_t).rat.pos
        ({ st.enter with rgen := b.rf.rand_mix st.enter.rgen } : update_state_t).rat.radius
        (b.rat_consts st.rat timestep).height camera_bs).2 (b.rat_consts st.rat timestep).xy_pad
        (b.rat_consts st.rat timestep).hheight = false := by
      intro hc
      exact Bool.noConfusion (hin.symm.trans hc)
    rw [if_neg hin1]
    split_ifs with h1
    · exact Bool.noConfusion (h1.symm.trans hfree)
    · exact ⟨rfl, rfl, rfl⟩

/-- The pushed agent in the building that pushes: the new position is inside the building
and the path from it to the destination is free, so the agent stays at the new position,
keeps its wake time, and `update_path` is set exactly when the draw is a multiple of 30. -/
theorem collision_cases_witness :
    (demo_building_push.after_collision ⟨50, 50, 0⟩ 1 (demo_state demo_rat_pushed)).rat.pos
        = (demo_building_push.check_and_handle_dynamic_obj_coll (demo_state demo_rat_pushed).rat.pos
            (demo_state demo_rat_pushed).rat.radius
            (demo_building_push.rat_consts (demo_state demo_rat_pushed).rat 1).height ⟨50, 50, 0⟩).2
      ∧ (demo_building_push.after_collision ⟨50, 50, 0⟩ 1 (demo_state demo_rat_pushed)).rat.wake_time
        = (demo_state demo_rat_pushed).rat.wake_time
      ∧ (demo_building_push.after_collision ⟨50, 50, 0⟩ 1 (demo_state demo_rat_pushed)).update_path
        = decide ((demo_building_push.rf.rand
            (demo_building_push.rf.rand_mix (demo_state demo_rat_pushed).rgen)).1 % 30 = 0) :=
  (collision_cases demo_building_push ⟨50, 50, 0⟩ 1 (demo_state demo_rat_pushed) (by decide!)
    (by decide!)).2.2 (by decide!) (by decide!)

/-! ### The field-of-view schedule of the wander search -/

/-- The pool index after `n` calls of `gen_dir`: it advances by one per call and wraps from
999 to 0. -/
lemma dir_ix_at_eq (b : building_t) (n : Nat) :
    ∀ dir_ix : Nat, b.dir_ix_at dir_ix n
      = if dir_ix < 1000 then (dir_ix + n) % 1000 else dir_ix + n := by
  induction n with
  | zero =>
    intro dir_ix
    unfold building_t.dir_ix_at
    split_ifs with h
    · exact (Nat.mod_eq_of_lt h).symm
    · rfl
  | succ n ih =>
    intro dir_ix
    unfold building_t.dir_ix_at building_t.gen_dir
    rw [ih]
    simp only []
    split_ifs <;> omega

/-- Within the 200 trials of one wander search the pool index tells the number of calls of
`gen_dir` made. -/
lemma dir_ix_at_inj (b : building_t) (dir_ix m n : Nat) (hm : m < 200) (hn : n < 200)
    (h : b.dir_ix_at dir_ix (m + 1) = b.dir_ix_at dir_ix (n + 1)) : m = n := by
  rw [dir_ix_at_eq, dir_ix_at_eq] at h
  split_ifs at h <;> omega

/-- The wander loop away from a collision: when a trial is accepted, it is the trial `n + j`
reached after `j` rejected trials; the pool index afterwards counts the `j + 1` directions
taken, the direction accepted is the one trial `n + j` tests, it passed the field-of-view
test and the fear test of that trial, and the destination, the speed and the generator are
those the trial computes from the generator `g` it started with. -/
lemma wander_loop_accepts (b : building_t) (k : rat_consts_t) (p1 : point) (is_scared : Bool)
    (dub ms : ℚ) (remaining : Nat) :
    ∀ (n : Nat) (fov dist : ℚ) (st : update_state_t) (res : update_state_t × Bool),
      fov = b.RAT_FOV_DP - (2 / 100) * ((n - 51 : ℕ) : ℚ) →
      dist = k.view_dist * (96 / 100) ^ (n - 51) →
      ¬ (st.collided = true ∧ st.coll_dir ≠ zero_vector) →
      b.wander_loop k p1 is_scared dub ms remaining n fov dist st = res → res.2 = true →
      ∃ (j : Nat) (g : rand_gen_t), j < remaining
        ∧ res.1.dir_ix = b.dir_ix_at st.dir_ix (j + 1)
        ∧ res.1.rat.dest = st.rat.pos.add (vector3d.scale
            (max ((b.rf.rand_uniform g (1 / 10) dub).1 * (k.view_dist * (96 / 100) ^ (n + j - 50))) ms)
            (b.wander_dir st.rat.dir (b.dir_ix_at st.dir_ix j) (n + j)))
        ∧ res.1.rat.speed = b.rat_speed
            * (b.rf.rand_uniform (b.rf.rand_uniform g (1 / 10) dub).2 (1 / 2) 1).1
            * (if is_scared = true then 15 / 10 else 1)
        ∧ res.1.rgen = (b.rf.rand_uniform (b.rf.rand_uniform g (1 / 10) dub).2 (1 / 2) 1).2
        ∧ dot_product st.rat.dir (b.wander_dir st.rat.dir (b.dir_ix_at st.dir_ix j) (n + j))
            ≥ b.RAT_FOV_DP - (2 / 100) * ((n + j - 50 : ℕ) : ℚ)
        ∧ (n + j < 180 →
            dot_product st.rat.dir (b.wander_dir st.rat.dir (b.dir_ix_at st.dir_ix j) (n + j)) ≥ 0)
        ∧ ¬ (is_scared = true ∧ n + j ≤ 100
            ∧ dot_product st.dir_to_fear
                (b.wander_dir st.rat.dir (b.dir_ix_at st.dir_ix j) (n + j)) > 0)
        ∧ b.is_rat_inside_building res.1.rat.dest k.xy_pad k.hheight = true
        ∧ b.check_line_coll_expand
            (p1.add (vector3d.scale k.coll_radius
              (b.wander_dir st.rat.dir (b.dir_ix_at st.dir_ix j) (n + j))))
            ((res.1.rat.dest.add (vector3d.scale k.line_project_dist
              (b.wander_dir st.rat.dir (b.dir_ix_at st.dir_ix j) (n + j)))).add k.center_dz)
            k.coll_radius k.squish_hheight = false := by
  induction remaining with
  | zero =>
    intro n fov dist st res _ _ _ hres hflag
    unfold building_t.wander_loop at hres
    rw [← hres] at hflag
    exact absurd hflag (by simp)
  | succ r ih =>
    intro n fov dist st res hfov hdist hnc hres hflag
    -- the values of the schedule in trial `n`
    have hfov1 : (if n > 50 then fov - 2 / 100 else fov)
        = b.RAT_FOV_DP - (2 / 100) * ((n - 50 : ℕ) : ℚ) := by
      split_ifs with h
      · rw [hfov]
        have e : n - 50 = (n - 51) + 1 := by omega
        rw [e]; push_cast; ring
      · rw [hfov]
        have e1 : n - 51 = 0 := by omega
        have e2 : n - 50 = 0 := by omega
        rw [e1, e2]
    have hdist1 : (if n > 50 then dist * (96 / 100) else dist)
        = k.view_dist * (96 / 100) ^ (n - 50) := by
      split_ifs with h
      · rw [hdist]
        have e : n - 50 = (n - 51) + 1 := by omega
        rw [e, pow_succ]; ring
      · rw [hdist]
        have e1 : n - 51 = 0 := by omega
        have e2 : n - 50 = 0 := by omega
        rw [e1, e2]
    -- a later trial
    have hnext : ∀ st1 : update_state_t,
        b.wander_loop k p1 is_scared dub ms r (n + 1)
          (b.RAT_FOV_DP - (2 / 100) * ((n - 50 : ℕ) : ℚ))
          (k.view_dist * (96 / 100) ^ (n - 50)) st1 = res →
        st1.rat = st.rat → st1.collided = st.collided → st1.coll_dir = st.coll_dir →
        st1.dir_to_fear = st.dir_to_fear → st1.dir_ix = (b.gen_dir st.dir_ix).2 →
        ∃ (j : Nat) (g : rand_gen_t), j < r + 1
          ∧ res.1.dir_ix = b.dir_ix_at st.dir_ix (j + 1)
          ∧ res.1.rat.dest = st.rat.pos.add (vector3d.scale
              (max ((b.rf.rand_uniform g (1 / 10) dub).1 * (k.view_dist * (96 / 100) ^ (n + j - 50))) ms)
              (b.wander_dir st.rat.dir (b.dir_ix_at st.dir_ix j) (n + j)))
          ∧ res.1.rat.speed = b.rat_speed
              * (b.rf.rand_uniform (b.rf.rand_uniform g (1 / 10) dub).2 (1 / 2) 1).1
              * (if is_scared = true then 15 / 10 else 1)
          ∧ res.1.rgen = (b.rf.rand_uniform (b.rf.rand_uniform g (1 / 10) dub).2 (1 / 2) 1).2
          ∧ dot_product st.rat.dir (b.wander_dir st.rat.dir (b.dir_ix_at st.dir_ix j) (n + j))
              ≥ b.RAT_FOV_DP - (2 / 100) * ((n + j - 50 : ℕ) : ℚ)
          ∧ (n + j < 180 →
              dot_product st.rat.dir (b.wander_dir st.rat.dir (b.dir_ix_at st.dir_ix j) (n + j)) ≥ 0)
          ∧ ¬ (is_scared = true ∧ n + j ≤ 100
              ∧ dot_product st.dir_to_fear
                  (b.wander_dir st.rat.dir (b.dir_ix_at st.dir_ix j) (n + j)) > 0)
          ∧ b.is_rat_inside_building res.1.rat.dest k.xy_pad k.hheight = true
          ∧ b.check_line_coll_expand
              (p1.add (vector3d.scale k.coll_radius
                (b.wander_dir st.rat.dir (b.dir_ix_at st.dir_ix j) (n + j))))
              ((res.1.rat.dest.add (vector3d.scale k.line_project_dist
                (b.wander_dir st.rat.dir (b.dir_ix_at st.dir_ix j) (n + j)))).add k.center_dz)
              k.coll_radius k.squish_hheight = false := by
      intro st1 hloop hr hc hd hf hix
      have e : n + 1 - 51 = n - 50 := by omega
      obtain ⟨j, g, h1, h2, h3, h4, h5, h6, h7, h8, h9, h10⟩ := ih (n + 1) _ _ st1 res (by rw [e])
        (by rw [e]) (by rw [hc, hd]; exact hnc) hloop hflag
      have e2 : n + 1 + j = n + (j + 1) := by omega
      rw [hr, hix, e2] at h3 h6 h7 h10
      rw [hr, hf, hix, e2] at h8
      rw [hix] at h2
      exact ⟨j + 1, g, by omega, h2, h3, h4, h5, h6, h7, h8, h9, h10⟩
    unfold building_t.wander_loop at hres
    simp only [] at hres
    rw [if_neg hnc, hfov1, hdist1] at hres
    split at hres
    · exact hnext _ hres rfl rfl rfl rfl rfl
    · rename_i vdir heq
      -- the direction that passed the field-of-view test
      have hv : vdir = b.wander_dir st.rat.dir st.dir_ix n
          ∧ dot_product st.rat.dir vdir ≥ b.RAT_FOV_DP - (2 / 100) * ((n - 50 : ℕ) : ℚ)
          ∧ (n < 180 → dot_product st.rat.dir vdir ≥ 0) := by
        have hneg : ∀ a c : vector3d, dot_product a c.negate = -dot_product a c := by
          intro a c
          unfold dot_product vector3d.negate
          ring
        unfold building_t.wander_dir
        simp only []
        by_cases hflip : n < 180 ∧ dot_product st.rat.dir (b.gen_dir st.dir_ix).1 < 0
        · simp only [hflip, and_self, decide_True, if_true] at heq
          split_ifs at heq with hlt
          cases heq
          rw [if_pos hflip, hneg]
          exact ⟨rfl, not_lt.mp hlt, fun _ => by linarith [hflip.2]⟩
        · have hd : decide (n < 180 ∧ dot_product st.rat.dir (b.gen_dir st.dir_ix).1 < 0) = false :=
            decide_eq_false hflip
          simp only [hd, Bool.false_eq_true, if_false] at heq
          split_ifs at heq with hlt
          cases heq
          rw [if_neg hflip]
          refine ⟨rfl, not_lt.mp hlt, fun h180 => ?_⟩
          by_contra hc
          exact hflip ⟨h180, not_le.mp hc⟩
      obtain ⟨hv0, hv1, hv2⟩ := hv
      by_cases hs : is_scared = true ∧ n ≤ 100 ∧ dot_product st.dir_to_fear vdir > 0
      · rw [if_pos hs] at hres
        exact hnext _ hres rfl rfl rfl rfl rfl
      rw [if_neg hs] at hres
      split_ifs at hres with hi hl hsc
      all_goals first
        | exact hnext _ hres rfl rfl rfl rfl rfl
        | (rw [← hres]
           rw [hv0] at hv1 hv2 hs hi hl
           refine ⟨0, st.rgen, Nat.succ_pos _, rfl, ?_, ?_, rfl, hv1, hv2, hs, ?_, ?_⟩
           · show st.rat.pos.add (vector3d.scale _ vdir) = _
             rw [hv0]
             rfl
           · first
               | rw [if_pos hsc]
               | rw [if_neg hsc]
           · show b.is_rat_inside_building (st.rat.pos.add (vector3d.scale _ vdir)) k.xy_pad k.hheight = true
             rw [hv0]
             simpa using hi
           · rw [hv0]
             exact Bool.eq_false_iff.mpr hl)

/-- The direction a trial tests is the direction of the pool or, before trial 180 only, its
opposite; it has the length of the pool direction. -/
lemma wander_dir_pool (b : building_t) (heading : vector3d) (dir_ix n : Nat) :
    (b.wander_dir heading dir_ix n = (b.gen_dir dir_ix).1
      ∨ (n < 180 ∧ b.wander_dir heading dir_ix n = (b.gen_dir dir_ix).1.negate))
    ∧ (b.wander_dir heading dir_ix n).mag_sq = (b.gen_dir dir_ix).1.mag_sq := by
  unfold building_t.wander_dir
  simp only []
  split_ifs with h
  · refine ⟨Or.inr ⟨h.1, rfl⟩, ?_⟩
    unfold vector3d.mag_sq vector3d.negate
    ring
  · exact ⟨Or.inl rfl, rfl⟩

/-- C29 (the field-of-view schedule of the wander search): when the agent is not resolving
a collision and the wander search accepts a trial, this is the trial `n < 200` that the
direction pool counts: the pool index after the search is the one after `n + 1` calls of
`gen_dir`, which no other `m < 200` gives.  The direction accepted is `v`, the pool
direction of trial `n`, negated when `n < 180` and it points backward (so it is a
direction of the pool or the opposite of one, of the same length); it satisfies
`dot(heading, v) ≥ RAT_FOV_DP - 0.02 * max(0, n - 50)` (so `≥ RAT_FOV_DP`, the cosine of 30
degrees, within the first 51 trials) and `dot(heading, v) ≥ 0` whenever `n < 180`, and it
does not point toward the fear when the agent is scared and `n ≤ 100`.  The new destination
is `pos + max(u * view_dist * 0.96 ^ max(0, n - 50), min_step) * v` for the draw `u` of
`rand_uniform(0.1, dist_upper_bound)` from the generator `g` of the trial, so that the
maximum distance considered in trial `n` is `view_dist * 0.96 ^ max(0, n - 50)`; it is inside
the building with a free line, and the speed and the generator afterwards are those of the
trial. -/
theorem wander_fov_schedule (b : building_t) (k : rat_consts_t) (p1 : point) (is_scared : Bool)
    (st : update_state_t) (hnc : ¬ (st.collided = true ∧ st.coll_dir ≠ zero_vector))
    (hacc : (b.wander_search k p1 is_scared st).2 = true) :
    ∃ (n : Nat) (g : rand_gen_t), n < 200
      ∧ (b.wander_search k p1 is_scared st).1.dir_ix = b.dir_ix_at st.dir_ix (n + 1)
      ∧ (∀ m : Nat, m < 200 →
          b.dir_ix_at st.dir_ix (m + 1) = (b.wander_search k p1 is_scared st).1.dir_ix → m = n)
      ∧ (b.wander_search k p1 is_scared st).1.rat.dest = st.rat.pos.add (vector3d.scale
          (max ((b.rf.rand_uniform g (1 / 10) (12 / 100 + (88 / 100) * (1 - st.rat.fear))).1
              * (k.view_dist * (96 / 100) ^ (n - 50)))
            (min k.dist_thresh ((1 / 20) * st.rat.radius)))
          (b.wander_dir st.rat.dir (b.dir_ix_at st.dir_ix n) n))
      ∧ (b.wander_search k p1 is_scared st).1.rat.speed = b.rat_speed
          * (b.rf.rand_uniform (b.rf.rand_uniform g (1 / 10)
              (12 / 100 + (88 / 100) * (1 - st.rat.fear))).2 (1 / 2) 1).1
          * (if is_scared = true then 15 / 10 else 1)
      ∧ (b.wander_search k p1 is_scared st).1.rgen
          = (b.rf.rand_uniform (b.rf.rand_uniform g (1 / 10)
              (12 / 100 + (88 / 100) * (1 - st.rat.fear))).2 (1 / 2) 1).2
      ∧ dot_product st.rat.dir (b.wander_dir st.rat.dir (b.dir_ix_at st.dir_ix n) n)
          ≥ b.RAT_FOV_DP - (2 / 100) * ((n - 50 : ℕ) : ℚ)
      ∧ (n ≤ 50 →
          dot_product st.rat.dir (b.wander_dir st.rat.dir (b.dir_ix_at st.dir_ix n) n) ≥ b.RAT_FOV_DP)
      ∧ (n < 180 →
          dot_product st.rat.dir (b.wander_dir st.rat.dir (b.dir_ix_at st.dir_ix n) n) ≥ 0)
      ∧ ¬ (is_scared = true ∧ n ≤ 100
          ∧ dot_product st.dir_to_fear (b.wander_dir st.rat.dir (b.dir_ix_at st.dir_ix n) n) > 0)
      ∧ b.is_rat_inside_building (b.wander_search k p1 is_scared st).1.rat.dest k.xy_pad k.hheight
          = true
      ∧ b.check_line_coll_expand
          (p1.add (vector3d.scale k.coll_radius
            (b.wander_dir st.rat.dir (b.dir_ix_at st.dir_ix n) n)))
          (((b.wander_search k p1 is_scared st).1.rat.dest.add (vector3d.scale k.line_project_dist
            (b.wander_dir st.rat.dir (b.dir_ix_at st.dir_ix n) n))).add k.center_dz)
          k.coll_radius k.squish_hheight = false
      ∧ (b.wander_dir st.rat.dir (b.dir_ix_at st.dir_ix n) n = b.dirs (b.dir_ix_at st.dir_ix n)
        ∨ (n < 180 ∧ b.wander_dir st.rat.dir (b.dir_ix_at st.dir_ix n) n
            = (b.dirs (b.dir_ix_at st.dir_ix n)).negate))
      ∧ (b.wander_dir st.rat.dir (b.dir_ix_at st.dir_ix n) n).mag_sq
          = (b.dirs (b.dir_ix_at st.dir_ix n)).mag_sq := by
  unfold building_t.wander_search at hacc ⊢
  simp only [] at hacc ⊢
  obtain ⟨j, g, h1, h2, h3, h4, h5, h6, h7, h8, h9, h10⟩ := wander_loop_accepts b k p1 is_scared
    _ _ 200 0 _ _ { st with rat := { st.rat with speed := 0 } } _ (by simp) (by simp) hnc rfl hacc
  rw [Nat.zero_add] at h3 h6 h7 h8 h10
  refine ⟨j, g, h1, h2, ?_, h3, h4, h5, h6, ?_, h7, h8, h9, h10,
    (wander_dir_pool b st.rat.dir (b.dir_ix_at st.dir_ix j) j).1,
    (wander_dir_pool b st.rat.dir (b.dir_ix_at st.dir_ix j) j).2⟩
  · intro m hm he
    rw [h2] at he
    exact dir_ix_at_inj b st.dir_ix m j hm h1 he
  · intro hj
    have e : j - 50 = 0 := by omega
    rw [e] at h6
    simpa using h6

/-- The example agent, calm, heading along x in the example building, whose direction pool
holds `(1, 0, 0)`: the wander search accepts its first trial, the pool index becomes 1, and the
direction accepted is the pool direction, inside the field of view. -/
theorem wander_fov_schedule_witness :
    (demo_building.wander_search (demo_building.rat_consts demo_rat 1) ⟨0, 0, 0⟩ false
        (demo_state demo_rat)).1.dir_ix = 1
    ∧ demo_building.wander_dir (demo_state demo_rat).rat.dir
        (demo_building.dir_ix_at (demo_state demo_rat).dir_ix 0) 0 = ⟨1, 0, 0⟩
    ∧ ∃ g : rand_gen_t,
      (demo_building.wander_search (demo_building.rat_consts demo_rat 1) ⟨0, 0, 0⟩ false
          (demo_state demo_rat)).1.rat.dest = (demo_state demo_rat).rat.pos.add (vector3d.scale
          (max ((demo_building.rf.rand_uniform g (1 / 10)
                (12 / 100 + (88 / 100) * (1 - (demo_state demo_rat).rat.fear))).1
              * ((demo_building.rat_consts demo_rat 1).view_dist * (96 / 100) ^ (0 - 50)))
            (min (demo_building.rat_consts demo_rat 1).dist_thresh
              ((1 / 20) * (demo_state demo_rat).rat.radius)))
          (demo_building.wander_dir (demo_state demo_rat).rat.dir
            (demo_building.dir_ix_at (demo_state demo_rat).dir_ix 0) 0))
      ∧ dot_product (demo_state demo_rat).rat.dir
          (demo_building.wander_dir (demo_state demo_rat).rat.dir
            (demo_building.dir_ix_at (demo_state demo_rat).dir_ix 0) 0) ≥ demo_building.RAT_FOV_DP := by
  obtain ⟨n, g, _, _, h3, h4, _, _, _, h8, _⟩ := wander_fov_schedule demo_building
    (demo_building.rat_consts demo_rat 1) ⟨0, 0, 0⟩ false (demo_state demo_rat) (by decide!)
    (by decide!)
  have hn : 0 = n := h3 0 (by norm_num) (by decide!)
  subst hn
  exact ⟨by decide!, by decide!, g, h4, h8 (le_of_lt (by norm_num))⟩

/-! ### The attack step: target, damage and hit sound -/

/-- The attack step on an attacking agent whose target is inside the building and can be
reached: the destination is the target, the speed the attack speed, the agent is awake, and
the path is not to be refreshed. -/
lemma update_rat_attack_hit (b : building_t) (k : rat_consts_t) (camera_bs p1 : point)
    (st : update_state_t) (hatt : st.rat.attacking = true)
    (hin : b.is_rat_inside_building (b.attack_target k camera_bs st.rat.pos) k.xy_pad k.hheight = true)
    (hfree : b.check_line_coll_expand
      (p1.add (vector3d.scale k.coll_radius
        (b.m.get_norm ((⟨camera_bs.x, camera_bs.y, st.rat.pos.z⟩ : point).sub st.rat.pos))))
      (b.attack_target k camera_bs st.rat.pos) k.coll_radius k.squish_hheight = false) :
    (b.update_rat_attack k camera_bs p1 st).rat
        = { st.rat with dest := b.attack_target k camera_bs st.rat.pos
                        speed := RAT_ATTACK_SPEED * b.rat_speed
                        wake_time := 0 }
      ∧ (b.update_rat_attack k camera_bs p1 st).update_path = false
      ∧ (b.update_rat_attack k camera_bs p1 st).has_fear_dest = st.has_fear_dest := by
  unfold building_t.attack_target at hin hfree ⊢
  simp only [] at hin hfree ⊢
  unfold building_t.update_rat_attack
  simp only []
  rw [if_pos hatt, if_pos hin, if_pos hfree]
  split_ifs <;> exact ⟨rfl, rfl, rfl⟩

/-- The attack step leaves an agent that is not attacking as it is. -/
lemma update_rat_attack_idle (b : building_t) (k : rat_consts_t) (camera_bs p1 : point)
    (st : update_state_t) (hatt : st.rat.attacking = false) :
    b.update_rat_attack k camera_bs p1 st = st := by
  unfold building_t.update_rat_attack
  simp only []
  rw [if_neg (by rw [hatt]; simp)]

/-- The rest-or-wander step leaves the state as it is when the agent neither takes a rest
nor looks for a new destination. -/
lemma update_rat_wander_skip (b : building_t) (k : rat_consts_t) (p1 : point)
    (is_scared newly_scared : Bool) (st : update_state_t)
    (hrest : ¬ (is_scared = false ∧ ¬ st.rat.is_sleeping
      ∧ dist_less_than st.rat.pos st.rat.dest k.dist_thresh
      ∧ st.rat.dist_since_sleep > (15 / 10) * k.floor_spacing))
    (hwander : ¬ (st.has_fear_dest = false ∧ ¬ st.rat.is_sleeping
      ∧ (st.rat.speed = 0 ∨ newly_scared = true ∨ st.update_path = true
        ∨ dist_less_than st.rat.pos st.rat.dest k.dist_thresh
        ∨ b.check_line_coll_expand st.rat.pos st.rat.dest k.coll_radius k.hheight = true))) :
    b.update_rat_wander k p1 is_scared newly_scared st = some st := by
  have hr : decide (is_scared = false ∧ ¬ st.rat.is_sleeping
      ∧ decide (dist_less_than st.rat.pos st.rat.dest k.dist_thresh) = true
      ∧ st.rat.dist_since_sleep > (15 / 10) * k.floor_spacing) = false := by
    simp only [decide_eq_true_eq]
    exact decide_eq_false hrest
  have hw : ¬ (st.has_fear_dest = false ∧ ¬ st.rat.is_sleeping
      ∧ (st.rat.speed = 0 ∨ newly_scared = true ∨ st.update_path = true
        ∨ decide (dist_less_than st.rat.pos st.rat.dest k.dist_thresh) = true
        ∨ b.check_line_coll_expand st.rat.pos st.rat.dest k.coll_radius k.hheight = true)) := by
    simp only [decide_eq_true_eq]
    exact hwander
  unfold building_t.update_rat_wander
  simp only []
  rw [hr]
  simp only [Bool.false_eq_true, false_and, if_false]
  rw [if_neg hw]

/-- The heading step for an agent without a hiding destination writes only the heading and
the hiding flag, and keeps a non-zero heading when the agent is within the stopping
distance of its destination. -/
lemma update_rat_dir_no_fear_dest (b : building_t) (k : rat_consts_t) (timestep : ℚ)
    (is_scared : Bool) (st st' : update_state_t) (hfd : st.has_fear_dest = false)
    (h : b.update_rat_dir k timestep is_scared st = some st') :
    (∃ d ih, st'.rat = { st.rat with dir := d, is_hiding := ih })
    ∧ (dist_less_than st.rat.pos st.rat.dest k.dist_thresh → st.rat.dir ≠ zero_vector →
        st'.rat.dir = st.rat.dir) := by
  have hsnap : dir_snap k st = st := by
    unfold dir_snap
    rw [if_neg]
    intro hc
    rw [hfd] at hc
    exact absurd hc.2 (by simp)
  unfold building_t.update_rat_dir at h
  simp only [] at h
  rw [hsnap] at h
  split_ifs at h
  cases h
  constructor
  · unfold building_t.dir_fix building_t.dir_turn
    simp only []
    split_ifs <;> exact ⟨_, _, rfl⟩
  · intro hat hne
    have ht : b.dir_target k st = zero_vector := by
      unfold building_t.dir_target
      rw [if_neg (not_not.mpr hat), if_neg (by rw [hfd]; simp)]
    rw [ht]
    unfold building_t.dir_fix building_t.dir_turn
    simp only [ne_eq, not_true_eq_false, if_false]
    rw [if_neg hne]

/-- C22 (attack target), as the code has it: an agent that ends `update_rat` attacking, whose
attack target is inside the building and has a free path from the agent's center, ends the
call with `dest` at that target and `speed = RAT_ATTACK_SPEED * rat_speed` provided that the
rest-or-wander step that follows the attack step does not replace them, that is, provided
the agent is not yet within the stopping distance of the target, the line from its position
to the target is free for its full height, and the attack speed is not zero.  The position,
the target and the constants are those after the collision step. -/
theorem attack_target_kept (b : building_t) (fuel : Nat) (rats : vect_rat_t) (self_ix : Nat)
    (camera_bs : point) (ped_ix : Int) (timestep : ℚ) (can_attack_player : Bool)
    (st st' : update_state_t)
    (hrun : b.update_rat fuel rats self_ix camera_bs ped_ix timestep can_attack_player st = some st')
    (hatt : st'.rat.attacking = true)
    (hin : b.is_rat_inside_building
      (b.attack_target (b.rat_consts st.rat timestep) camera_bs
        (b.after_collision camera_bs timestep st).rat.pos)
      (b.rat_consts st.rat timestep).xy_pad (b.rat_consts st.rat timestep).hheight = true)
    (hfree : b.check_line_coll_expand
      (((b.after_collision camera_bs timestep st).rat.pos.add (b.rat_consts st.rat timestep).center_dz).add
        (vector3d.scale (b.rat_consts st.rat timestep).coll_radius
          (b.m.get_norm ((⟨camera_bs.x, camera_bs.y, (b.after_collision camera_bs timestep st).rat.pos.z⟩
            : point).sub (b.after_collision camera_bs timestep st).rat.pos))))
      (b.attack_target (b.rat_consts st.rat timestep) camera_bs
        (b.after_collision camera_bs timestep st).rat.pos)
      (b.rat_consts st.rat timestep).coll_radius (b.rat_consts st.rat timestep).squish_hheight = false)
    (hfar : ¬ dist_less_than (b.after_collision camera_bs timestep st).rat.pos
      (b.attack_target (b.rat_consts st.rat timestep) camera_bs
        (b.after_collision camera_bs timestep st).rat.pos)
      (b.rat_consts st.rat timestep).dist_thresh)
    (hline : b.check_line_coll_expand (b.after_collision camera_bs timestep st).rat.pos
      (b.attack_target (b.rat_consts st.rat timestep) camera_bs
        (b.after_collision camera_bs timestep st).rat.pos)
      (b.rat_consts st.rat timestep).coll_radius (b.rat_consts st.rat timestep).hheight = false)
    (hsp : RAT_ATTACK_SPEED * b.rat_speed ≠ 0) :
    st'.rat.dest = b.attack_target (b.rat_consts st.rat timestep) camera_bs
        (b.after_collision camera_bs timestep st).rat.pos
    ∧ st'.rat.speed = RAT_ATTACK_SPEED * b.rat_speed
    ∧ st'.rat.pos = (b.after_collision camera_bs timestep st).rat.pos := by
  obtain ⟨r1, hr1, _, hatt', _⟩ := update_rat_fear b fuel rats self_ix camera_bs ped_ix timestep
    can_attack_player st st' hrun
  have hnp : (r1.near_player && can_attack_player) = true := hatt'.symm.trans hatt
  unfold building_t.update_rat at hrun
  simp only [] at hrun
  split_ifs at hrun with hw
  obtain ⟨st2, hscare, hrun⟩ := Option.bind_eq_some.mp hrun
  obtain ⟨st4, hhide, hrun⟩ := Option.bind_eq_some.mp hrun
  obtain ⟨st5, hwander, hdir⟩ := Option.bind_eq_some.mp hrun
  have hscare0 := hscare
  unfold building_t.update_rat_scare at hscare
  obtain ⟨r1', hr1', hst2⟩ := Option.map_eq_some'.mp hscare
  have e1 : r1' = r1 := Option.some.inj (hr1'.symm.trans hr1)
  rw [e1] at hst2
  obtain ⟨r1'', f, fp, np, hr1'', hfr, -⟩ :=
    scare_rat_frame b (b.after_collision camera_bs timestep st).rat camera_bs ped_ix
  have e2 : r1'' = r1 := Option.some.inj (hr1''.symm.trans hr1)
  rw [e2] at hfr
  have hrat2 : st2.rat = { r1 with attacking := true, fear := 0 } := by
    rw [← hst2]
    simp only [hnp, if_true]
  have hfd2 : st2.has_fear_dest = false := by
    rw [← hst2]
    unfold building_t.after_collision building_t.update_rat_collision building_t.sleep_for
    simp only []
    split_ifs <;> rfl
  have hpos2 : st2.rat.pos = (b.after_collision camera_bs timestep st).rat.pos := by
    rw [hrat2, hfr]
  have hsc : decide (st2.rat.fear > 0) = false := by
    rw [hrat2]
    exact decide_eq_false (lt_irrefl (0 : ℚ))
  rw [hsc] at hhide hwander hdir
  simp only [Bool.false_eq_true, if_false] at hhide
  obtain ⟨h4, hup4, hfd4⟩ := update_rat_attack_hit b (b.rat_consts st.rat timestep) camera_bs
    ((b.after_collision camera_bs timestep st).rat.pos.add (b.rat_consts st.rat timestep).center_dz)
    st2 (by rw [hrat2]) (by rw [hpos2]; exact hin) (by rw [hpos2]; exact hfree)
  rw [Option.some.injEq] at hhide
  rw [hhide] at h4 hup4 hfd4
  rw [hpos2] at h4
  have hpos4 : st4.rat.pos = (b.after_collision camera_bs timestep st).rat.pos := by
    rw [h4]; exact hpos2
  have hdest4 : st4.rat.dest = b.attack_target (b.rat_consts st.rat timestep) camera_bs
      (b.after_collision camera_bs timestep st).rat.pos := by rw [h4]
  have hspeed4 : st4.rat.speed = RAT_ATTACK_SPEED * b.rat_speed := by rw [h4]
  have hawake4 : ¬ st4.rat.is_sleeping := by
    rw [h4]
    exact lt_irrefl (0 : ℚ)
  rw [update_rat_wander_skip b _ _ _ _ st4
    (fun h => hfar (by have h1 := h.2.2.1; rw [hpos4, hdest4] at h1; exact h1))
    (fun h => by
      rcases h.2.2 with h1 | h1 | h1 | h1 | h1
      · exact hsp (hspeed4.symm.trans h1)
      · simp at h1
      · rw [hup4] at h1; exact Bool.noConfusion h1
      · rw [hpos4, hdest4] at h1; exact hfar h1
      · rw [hpos4, hdest4, hline] at h1; exact Bool.noConfusion h1)] at hwander
  cases hwander
  obtain ⟨⟨d, ih, hrat'⟩, -⟩ := update_rat_dir_no_fear_dest b _ timestep false st4 st'
    (hfd4.trans hfd2) hdir
  rw [hrat']
  exact ⟨hdest4, hspeed4, hpos4⟩

/-- The wander loop does not touch the time of the last hit sound. -/
lemma wander_loop_sound_time (b : building_t) (k : rat_consts_t) (p1 : point) (is_scared : Bool)
    (dub ms : ℚ) (remaining : Nat) :
    ∀ (n : Nat) (fov dist : ℚ) (st : update_state_t),
      (b.wander_loop k p1 is_scared dub ms remaining n fov dist st).1.last_sound_time
        = st.last_sound_time := by
  induction remaining with
  | zero => intro n fov dist st; rfl
  | succ j ih =>
    intro n fov dist st
    unfold building_t.wander_loop
    simp only []
    split
    · exact ih _ _ _ _
    · split_ifs
      all_goals first | rfl | exact ih _ _ _ _

/-- The wander search does not touch the time of the last hit sound. -/
lemma wander_search_sound_time (b : building_t) (k : rat_consts_t) (p1 : point) (is_scared : Bool)
    (st : update_state_t) :
    (b.wander_search k p1 is_scared st).1.last_sound_time = st.last_sound_time := by
  unfold building_t.wander_search
  exact wander_loop_sound_time b k p1 is_scared _ _ 200 0 _ _ _

/-- The rest-or-wander step does not touch the time of the last hit sound. -/
lemma update_rat_wander_sound_time (b : building_t) (k : rat_consts_t) (p1 : point)
    (is_scared newly_scared : Bool) (st st' : update_state_t)
    (h : b.update_rat_wander k p1 is_scared newly_scared st = some st') :
    st'.last_sound_time = st.last_sound_time := by
  unfold building_t.update_rat_wander at h
  simp only [] at h
  split_ifs at h
  all_goals cases h
  · rfl
  · exact wander_search_sound_time b k p1 is_scared _
  · rfl
  · exact wander_search_sound_time b k p1 is_scared _
  · rfl

/-- The heading step does not touch the time of the last hit sound. -/
lemma update_rat_dir_sound_time (b : building_t) (k : rat_consts_t) (timestep : ℚ) (is_scared : Bool)
    (st st' : update_state_t) (h : b.update_rat_dir k timestep is_scared st = some st') :
    st'.last_sound_time = st.last_sound_time := by
  have hsnap : ∀ s : update_state_t, (dir_snap k s).last_sound_time = s.last_sound_time := by
    intro s; unfold dir_snap; split_ifs <;> rfl
  have hturn : ∀ (v : vector3d) (s : update_state_t),
      (b.dir_turn timestep is_scared v s).last_sound_time = s.last_sound_time := by
    intro v s; unfold building_t.dir_turn; split_ifs <;> rfl
  have hfix : ∀ s : update_state_t, (b.dir_fix s).last_sound_time = s.last_sound_time := by
    intro s; unfold building_t.dir_fix; split_ifs <;> rfl
  unfold building_t.update_rat_dir at h
  simp only [] at h
  split_ifs at h
  cases h
  rw [hfix, hturn]
  exact hsnap st

/-- The collision step does not touch the time of the last hit sound. -/
lemma update_rat_collision_sound_time (b : building_t) (k : rat_consts_t) (camera_bs : point)
    (st : update_state_t) :
    (b.update_rat_collision k camera_bs st).last_sound_time = st.last_sound_time := by
  unfold building_t.update_rat_collision building_t.sleep_for
  simp only []
  split_ifs <;> rfl

/-- The attack step on an attacking agent that is within `0.05 * (player radius +
half-length)` of its reachable target: the player is damaged once; the hit sound is played,
and its time recorded, exactly when the last one is more than 0.4 s old. -/
lemma update_rat_attack_bite (b : building_t) (k : rat_consts_t) (camera_bs p1 : point)
    (st : update_state_t) (hatt : st.rat.attacking = true)
    (hin : b.is_rat_inside_building (b.attack_target k camera_bs st.rat.pos) k.xy_pad k.hheight = true)
    (hfree : b.check_line_coll_expand
      (p1.add (vector3d.scale k.coll_radius
        (b.m.get_norm ((⟨camera_bs.x, camera_bs.y, st.rat.pos.z⟩ : point).sub st.rat.pos))))
      (b.attack_target k camera_bs st.rat.pos) k.coll_radius k.squish_hheight = false)
    (hnear : dist_xy_less_than st.rat.pos (b.attack_target k camera_bs st.rat.pos)
      ((1 / 20) * (b.player_radius + k.hlength))) :
    damage_count (b.update_rat_attack k camera_bs p1 st).events = damage_count st.events + 1
    ∧ (b.tfticks - st.last_sound_time > (4 / 10) * b.TICKS_PER_SECOND →
        squish_count (b.update_rat_attack k camera_bs p1 st).events = squish_count st.events + 1
        ∧ (b.update_rat_attack k camera_bs p1 st).last_sound_time
          = b.tfticks + (2 / 10) * b.TICKS_PER_SECOND * (b.rf.rand_float st.rgen).1)
    ∧ (¬ b.tfticks - st.last_sound_time > (4 / 10) * b.TICKS_PER_SECOND →
        squish_count (b.update_rat_attack k camera_bs p1 st).events = squish_count st.events
        ∧ (b.update_rat_attack k camera_bs p1 st).last_sound_time = st.last_sound_time) := by
  unfold building_t.attack_target at hin hfree hnear
  simp only [] at hin hfree hnear
  unfold building_t.update_rat_attack
  simp only []
  rw [if_pos hatt, if_pos hin, if_pos hfree, if_pos hnear]
  by_cases hs : b.tfticks - st.last_sound_time > (4 / 10) * b.TICKS_PER_SECOND
  · rw [if_pos hs]
    split_ifs
    all_goals
      refine ⟨?_, fun _ => ⟨?_, rfl⟩, fun h => absurd hs h⟩
      all_goals simp [damage_count, squish_count, List.countP_append]
  · rw [if_neg hs]
    split_ifs
    all_goals
      refine ⟨?_, fun h => absurd h hs, fun _ => ⟨?_, rfl⟩⟩
      all_goals simp [damage_count, squish_count, List.countP_append]

/-- C23 (damage and hit sound), as the code has it: every `update_rat` call on an agent that
ends it attacking, whose attack target is inside the building and reachable and which is
within `0.05 * (player radius + half-length)` of that target, damages the player exactly
once, whatever the time of the last hit.  Only the hit sound has a cooldown: it is played,
once, exactly when the clock is more than `0.4 * TICKS_PER_SECOND` past `last_sound_time`,
which then becomes the clock plus `0.2 * TICKS_PER_SECOND` times a random number; otherwise
no sound is played and `last_sound_time` is kept. -/
theorem damage_every_tick (b : building_t) (fuel : Nat) (rats : vect_rat_t) (self_ix : Nat)
    (camera_bs : point) (ped_ix : Int) (timestep : ℚ) (can_attack_player : Bool)
    (st st' : update_state_t)
    (hrun : b.update_rat fuel rats self_ix camera_bs ped_ix timestep can_attack_player st = some st')
    (hatt : st'.rat.attacking = true)
    (hin : b.is_rat_inside_building
      (b.attack_target (b.rat_consts st.rat timestep) camera_bs
        (b.after_collision camera_bs timestep st).rat.pos)
      (b.rat_consts st.rat timestep).xy_pad (b.rat_consts st.rat timestep).hheight = true)
    (hfree : b.check_line_coll_expand
      (((b.after_collision camera_bs timestep st).rat.pos.add (b.rat_consts st.rat timestep).center_dz).add
        (vector3d.scale (b.rat_consts st.rat timestep).coll_radius
          (b.m.get_norm ((⟨camera_bs.x, camera_bs.y, (b.after_collision camera_bs timestep st).rat.pos.z⟩
            : point).sub (b.after_collision camera_bs timestep st).rat.pos))))
      (b.attack_target (b.rat_consts st.rat timestep) camera_bs
        (b.after_collision camera_bs timestep st).rat.pos)
      (b.rat_consts st.rat timestep).coll_radius (b.rat_consts st.rat timestep).squish_hheight = false)
    (hnear : dist_xy_less_than (b.after_collision camera_bs timestep st).rat.pos
      (b.attack_target (b.rat_consts st.rat timestep) camera_bs
        (b.after_collision camera_bs timestep st).rat.pos)
      ((1 / 20) * (b.player_radius + (b.rat_consts st.rat timestep).hlength))) :
    damage_count st'.events = damage_count st.events + 1
    ∧ (b.tfticks - st.last_sound_time > (4 / 10) * b.TICKS_PER_SECOND →
        squish_count st'.events = squish_count st.events + 1
        ∧ ∃ g, st'.last_sound_time = b.tfticks + (2 / 10) * b.TICKS_PER_SECOND * (b.rf.rand_float g).1)
    ∧ (¬ b.tfticks - st.last_sound_time > (4 / 10) * b.TICKS_PER_SECOND →
        squish_count st'.events = squish_count st.events
        ∧ st'.last_sound_time = st.last_sound_time) := by
  obtain ⟨r1, hr1, _, hatt', _⟩ := update_rat_fear b fuel rats self_ix camera_bs ped_ix timestep
    can_attack_player st st' hrun
  have hnp : (r1.near_player && can_attack_player) = true := hatt'.symm.trans hatt
  unfold building_t.update_rat at hrun
  simp only [] at hrun
  split_ifs at hrun with hw
  obtain ⟨st2, hscare, hrun⟩ := Option.bind_eq_some.mp hrun
  obtain ⟨st4, hhide, hrun⟩ := Option.bind_eq_some.mp hrun
  obtain ⟨st5, hwander, hdir⟩ := Option.bind_eq_some.mp hrun
  unfold building_t.update_rat_scare at hscare
  obtain ⟨r1', hr1', hst2⟩ := Option.map_eq_some'.mp hscare
  have e1 : r1' = r1 := Option.some.inj (hr1'.symm.trans hr1)
  rw [e1] at hst2
  obtain ⟨r1'', f, fp, np, hr1'', hfr, -⟩ :=
    scare_rat_frame b (b.after_collision camera_bs timestep st).rat camera_bs ped_ix
  have e2 : r1'' = r1 := Option.some.inj (hr1''.symm.trans hr1)
  rw [e2] at hfr
  have hrat2 : st2.rat = { r1 with attacking := true, fear := 0 } := by
    rw [← hst2]
    simp only [hnp, if_true]
  have hev2 : st2.events = st.events := by
    rw [← hst2]
    exact update_rat_collision_events b _ camera_bs st.enter
  have hlst2 : st2.last_sound_time = st.last_sound_time := by
    rw [← hst2]
    exact update_rat_collision_sound_time b _ camera_bs st.enter
  have hpos2 : st2.rat.pos = (b.after_collision camera_bs timestep st).rat.pos := by
    rw [hrat2, hfr]
  have hsc : decide (st2.rat.fear > 0) = false := by
    rw [hrat2]
    exact decide_eq_false (lt_irrefl (0 : ℚ))
  rw [hsc] at hhide hwander hdir
  simp only [Bool.false_eq_true, if_false] at hhide
  obtain ⟨hd, hs1, hs2⟩ := update_rat_attack_bite b (b.rat_consts st.rat timestep) camera_bs
    ((b.after_collision camera_bs timestep st).rat.pos.add (b.rat_consts st.rat timestep).center_dz)
    st2 (by rw [hrat2]) (by rw [hpos2]; exact hin) (by rw [hpos2]; exact hfree)
    (by rw [hpos2]; exact hnear)
  rw [Option.some.injEq] at hhide
  rw [hhide, hev2] at hd
  rw [hhide, hev2, hlst2] at hs1 hs2
  have hev : st'.events = st4.events :=
    (update_rat_dir_events b _ _ _ st5 st' hdir).trans (update_rat_wander_events b _ _ _ _ st4 st5 hwander)
  have hlst : st'.last_sound_time = st4.last_sound_time :=
    (update_rat_dir_sound_time b _ _ _ st5 st' hdir).trans
      (update_rat_wander_sound_time b _ _ _ _ st4 st5 hwander)
  rw [hev, hlst]
  exact ⟨hd, fun h => ⟨(hs1 h).1, _, (hs1 h).2⟩, hs2⟩

/-- The example agent with the player at `(3, 0, 0)`: the agent ends the call attacking, with
its destination on the attack target and the attack speed. -/
theorem attack_target_kept_witness :
    ∃ st', demo_chase = some st'
      ∧ st'.rat.dest = demo_building_hunt.attack_target (demo_building_hunt.rat_consts
          (demo_state demo_rat).rat 1) ⟨3, 0, 0⟩
          (demo_building_hunt.after_collision ⟨3, 0, 0⟩ 1 (demo_state demo_rat)).rat.pos
      ∧ st'.rat.speed = RAT_ATTACK_SPEED * demo_building_hunt.rat_speed
      ∧ st'.rat.pos = (demo_building_hunt.after_collision ⟨3, 0, 0⟩ 1 (demo_state demo_rat)).rat.pos :=
  ⟨demo_chase.get (by decide!), (Option.some_get (by decide!)).symm,
    attack_target_kept demo_building_hunt 10 (demo_rats demo_rat) 0 ⟨3, 0, 0⟩ (-1) 1 true
      (demo_state demo_rat) _ (Option.some_get (by decide!)).symm (by decide!) (by decide!)
      (by decide!) (by decide!) (by decide!) (by decide!)⟩

/-- C22 as stated fails: the example agent stands on its attack target `(0, 0, 0)`, which is
inside the building with a free path, and is attacking; the attack step sets the destination
to the target and the speed to `1.2 * rat_speed = 0.012`, but the agent is then at its
destination, so the wander search of the same call stops it and picks a new destination: the
call ends with `dest = (2.614, 0, 0)` and `speed = 0.0099`. -/
theorem attack_target_counterexample :
    demo_building_hunt.attack_target (demo_building_hunt.rat_consts demo_rat 1) demo_camera_bite
        demo_rat.pos = ⟨0, 0, 0⟩
    ∧ demo_building_hunt.is_rat_inside_building ⟨0, 0, 0⟩
        (demo_building_hunt.rat_consts demo_rat 1).xy_pad
        (demo_building_hunt.rat_consts demo_rat 1).hheight = true
    ∧ (∀ p q : point, ∀ r h : ℚ, demo_building_hunt.check_line_coll_expand p q r h = false)
    ∧ RAT_ATTACK_SPEED * demo_building_hunt.rat_speed = 12 / 1000
    ∧ demo_bite1.map (fun st => (st.rat.attacking, st.rat.pos, st.rat.dest, st.rat.speed))
        = some (true, ⟨0, 0, 0⟩, ⟨1307 / 500, 0, 0⟩, 99 / 10000) :=
  ⟨by decide!, by decide!, fun _ _ _ _ => rfl, by decide!, by decide!⟩

/-- The example agent on its attack target at clock 1000, with the last hit sound at 0: the
call damages the player once and plays the hit sound once. -/
theorem damage_every_tick_witness :
    ∃ st', demo_bite1 = some st'
      ∧ damage_count st'.events = damage_count (demo_state demo_rat).events + 1
      ∧ squish_count st'.events = squish_count (demo_state demo_rat).events + 1 :=
  ⟨demo_bite1.get (by decide!), (Option.some_get (by decide!)).symm,
    (damage_every_tick demo_building_hunt 10 (demo_rats demo_rat) 0 demo_camera_bite (-1) 1 true
      (demo_state demo_rat) _ (Option.some_get (by decide!)).symm (by decide!) (by decide!)
      (by decide!) (by decide!)).1,
    ((damage_every_tick demo_building_hunt 10 (demo_rats demo_rat) 0 demo_camera_bite (-1) 1 true
      (demo_state demo_rat) _ (Option.some_get (by decide!)).symm (by decide!) (by decide!)
      (by decide!) (by decide!)).2.1 (by decide!)).1⟩

/-- C23 as stated fails: the example agent stays on its attack target for the calls at
clocks 1000 and 1001, one tick apart, where the cooldown of the hit sound is
`0.4 * TICKS_PER_SECOND = 16` ticks: the player is damaged in both calls, and the sound is
played in the first only. -/
theorem damage_cooldown_counterexample :
    demo_building_hunt.tfticks = 1000 ∧ demo_building_hunt_next.tfticks = 1001
    ∧ (4 / 10) * demo_building_hunt.TICKS_PER_SECOND = 16
    ∧ demo_bite1.map (fun st => (st.rat.pos, st.events))
        = some (⟨0, 0, 0⟩, [event_t.squish_sound ⟨0, 0, 0⟩, event_t.player_damage (4 / 1000)])
    ∧ demo_bite2.map (fun st => (st.rat.pos, st.events))
        = some (⟨0, 0, 0⟩, [event_t.squish_sound ⟨0, 0, 0⟩, event_t.player_damage (4 / 1000),
            event_t.player_damage (4 / 1000)])
    ∧ demo_bite2.map (fun st => damage_count st.events) = some 2 := by
  decide!

/-! ### Sleeping calm agents -/

/-- C28 (sleeping calm agents), as the code has it: for an agent that is asleep with fear 0
at the start of `update_rat`, gets no fear from the threat calls and is not attacking, the
call skips the collision check, the hiding search, the rest and the wander search, and
leaves position, destination, speed and wake time as they are; the heading step still runs,
so the heading is kept only when the agent is within the stopping distance of its
destination (and the heading is not zero).  And `rat_t::move` wakes a sleeping agent exactly
when the clock exceeds `wake_time`, setting `wake_time` and `speed` to 0. -/
theorem sleeping_calm_agent (b : building_t) (fuel : Nat) (rats : vect_rat_t) (self_ix : Nat)
    (camera_bs : point) (ped_ix : Int) (timestep : ℚ) (can_attack_player : Bool)
    (st st' : update_state_t) (hsl : st.rat.is_sleeping) (hf : st.rat.fear = 0)
    (hquiet : ∀ r1, b.scare_rat st.rat camera_bs ped_ix = some r1 →
      r1.fear = 0 ∧ (r1.near_player && can_attack_player) = false)
    (hrun : b.update_rat fuel rats self_ix camera_bs ped_ix timestep can_attack_player st = some st') :
    (st'.rat.pos = st.rat.pos ∧ st'.rat.dest = st.rat.dest ∧ st'.rat.speed = st.rat.speed
      ∧ st'.rat.wake_time = st.rat.wake_time)
    ∧ (dist_less_than st.rat.pos st.rat.dest (b.rat_consts st.rat timestep).dist_thresh →
        st.rat.dir ≠ zero_vector → st'.rat.dir = st.rat.dir)
    ∧ ∀ tfticks t : ℚ,
        (tfticks > st.rat.wake_time →
          (st.rat.move b.m tfticks t).wake_time = 0 ∧ (st.rat.move b.m tfticks t).speed = 0)
        ∧ (¬ tfticks > st.rat.wake_time →
          (st.rat.move b.m tfticks t).wake_time = st.rat.wake_time
          ∧ (st.rat.move b.m tfticks t).speed = st.rat.speed) := by
  have hmove : ∀ tfticks t : ℚ,
      (tfticks > st.rat.wake_time →
        (st.rat.move b.m tfticks t).wake_time = 0 ∧ (st.rat.move b.m tfticks t).speed = 0)
      ∧ (¬ tfticks > st.rat.wake_time →
        (st.rat.move b.m tfticks t).wake_time = st.rat.wake_time
        ∧ (st.rat.move b.m tfticks t).speed = st.rat.speed) := by
    intro tfticks t
    unfold rat_t.move
    simp only []
    constructor
    · intro hw
      split_ifs with h1 h2
      all_goals first | exact ⟨rfl, rfl⟩ | exact absurd hw h2 | exact absurd hsl h1
    · intro hw
      split_ifs
      all_goals exact ⟨rfl, rfl⟩
  refine ⟨?_, ?_, hmove⟩
  all_goals
    unfold building_t.update_rat at hrun
    simp only [] at hrun
    split_ifs at hrun with hw
    obtain ⟨st2, hscare, hrun⟩ := Option.bind_eq_some.mp hrun
    obtain ⟨st4, hhide, hrun⟩ := Option.bind_eq_some.mp hrun
    obtain ⟨st5, hwander, hdir⟩ := Option.bind_eq_some.mp hrun
    have hcoll : b.after_collision camera_bs timestep st
        = { st.enter with rgen := b.rf.rand_mix st.rgen } := by
      unfold building_t.after_collision building_t.update_rat_collision
      simp only []
      rw [if_pos (show ({ st.enter with rgen := b.rf.rand_mix st.enter.rgen } : update_state_t).rat.is_sleeping
        ∧ ({ st.enter with rgen := b.rf.rand_mix st.enter.rgen } : update_state_t).rat.fear = 0 from
        ⟨hsl, hf⟩)]
      rfl
    rw [hcoll] at hscare hhide hwander
    unfold building_t.update_rat_scare at hscare
    obtain ⟨r1, hr1, hst2⟩ := Option.map_eq_some'.mp hscare
    obtain ⟨hq1, hq2⟩ := hquiet r1 hr1
    obtain ⟨r1', f, fp, np, hr1', hfr, -⟩ := scare_rat_frame b st.rat camera_bs ped_ix
    have e1 : r1' = r1 := Option.some.inj (hr1'.symm.trans hr1)
    rw [e1] at hfr
    have hrat2 : st2.rat = { r1 with attacking := false, fear := r1.fear } := by
      rw [← hst2]
      simp only [hq2, Bool.false_eq_true, if_false]
    have hfd2 : st2.has_fear_dest = false := by rw [← hst2]; rfl
    have hfear2 : ¬ st2.rat.fear > 0 := by
      rw [hrat2]
      show ¬ r1.fear > 0
      rw [hq1]
      exact lt_irrefl _
    have hsc : decide (st2.rat.fear > 0) = false := decide_eq_false hfear2
    rw [hsc] at hhide hwander hdir
    rw [update_rat_attack_idle b _ camera_bs _ st2 (by rw [hrat2])] at hhide
    simp only [Bool.false_eq_true, if_false] at hhide
    cases hhide
    have hsl2 : st2.rat.is_sleeping := by
      rw [hrat2]
      show r1.wake_time > 0
      rw [hfr]
      exact hsl
    rw [update_rat_wander_skip b _ _ _ _ st2 (fun h => h.2.1 hsl2) (fun h => h.2.1 hsl2)] at hwander
    cases hwander
    obtain ⟨⟨d, ih, hrat'⟩, hkeep⟩ := update_rat_dir_no_fear_dest b _ timestep false st2 st' hfd2 hdir
  · rw [hrat', hrat2, hfr]
    exact ⟨rfl, rfl, rfl, rfl⟩
  · intro hat hne
    have hpos : st2.rat.pos = st.rat.pos := by rw [hrat2, hfr]
    have hdest : st2.rat.dest = st.rat.dest := by rw [hrat2, hfr]
    have hdir2 : st2.rat.dir = st.rat.dir := by rw [hrat2, hfr]
    rw [← hdir2]
    exact hkeep (by rw [hpos, hdest]; exact hat) (by rw [hdir2]; exact hne)

/-- The example agent asleep and calm at its destination: `update_rat` leaves position,
destination, speed and wake time as they are. -/
theorem sleeping_calm_agent_witness :
    ∃ st', demo_building.update_rat 10 (demo_rats demo_rat_asleep) 0 ⟨50, 50, 0⟩ (-1) 4 false
        (demo_state demo_rat_asleep) = some st'
      ∧ st'.rat.pos = demo_rat_asleep.pos ∧ st'.rat.wake_time = 2000 :=
  ⟨(demo_building.update_rat 10 (demo_rats demo_rat_asleep) 0 ⟨50, 50, 0⟩ (-1) 4 false
      (demo_state demo_rat_asleep)).get (by decide!),
    (Option.some_get (by decide!)).symm,
    ((sleeping_calm_agent demo_building 10 (demo_rats demo_rat_asleep) 0 ⟨50, 50, 0⟩ (-1) 4 false
      (demo_state demo_rat_asleep) _ (by decide!) (by decide!)
      (fun r1 h => by
        have e : demo_building.scare_rat (demo_state demo_rat_asleep).rat ⟨50, 50, 0⟩ (-1)
            = some { demo_rat_asleep with near_player := false } := by decide!
        rw [e] at h
        cases h
        exact ⟨rfl, rfl⟩)
      (Option.some_get (by decide!)).symm).1).1,
    ((sleeping_calm_agent demo_building 10 (demo_rats demo_rat_asleep) 0 ⟨50, 50, 0⟩ (-1) 4 false
      (demo_state demo_rat_asleep) _ (by decide!) (by decide!)
      (fun r1 h => by
        have e : demo_building.scare_rat (demo_state demo_rat_asleep).rat ⟨50, 50, 0⟩ (-1)
            = some { demo_rat_asleep with near_player := false } := by decide!
        rw [e] at h
        cases h
        exact ⟨rfl, rfl⟩)
      (Option.some_get (by decide!)).symm).1).2.2.2⟩

/-- C28 as stated fails: the example agent asleep until tick 2000, calm and not attacking,
three units from its destination `(0, 3, 0)`, enters `update_rat` at clock 1000 with the
heading `(1, 0, 0)` and leaves it with the heading `(0, 1, 0)`; it stays asleep, and its
position, destination and speed are kept. -/
theorem sleeping_calm_agent_counterexample :
    demo_rat_dozing.wake_time = 2000 ∧ demo_rat_dozing.fear = 0
    ∧ demo_building.scare_rat demo_rat_dozing ⟨50, 50, 0⟩ (-1) = some demo_rat_dozing
    ∧ demo_rat_dozing.dir = ⟨1, 0, 0⟩
    ∧ demo_run_dozing.map (fun st => st.rat) = some { demo_rat_dozing with dir := ⟨0, 1, 0⟩ } := by
  decide!

/-! ### The cached maximum displacement -/

/-- The collision step never lowers `max_xmove`, and after it `max_xmove` bounds the move
of the agent along x in this step, when the collision check leaves the position alone
whenever it reports no collision. -/
lemma update_rat_collision_max_xmove (b : building_t) (k : rat_consts_t) (camera_bs : point)
    (st : update_state_t)
    (hno : ∀ (pos : point) (r h : ℚ) (cam : point),
      (b.check_and_handle_dynamic_obj_coll pos r h cam).1 = false →
      (b.check_and_handle_dynamic_obj_coll pos r h cam).2 = pos) :
    st.max_xmove ≤ (b.update_rat_collision k camera_bs st).max_xmove
    ∧ ((b.update_rat_collision k camera_bs st).rat.pos = st.rat.pos
      ∨ |(b.update_rat_collision k camera_bs st).rat.pos.x - st.rat.pos.x|
        ≤ (b.update_rat_collision k camera_bs st).max_xmove) := by
  unfold building_t.update_rat_collision building_t.sleep_for
  simp only []
  split_ifs with h1 h2 h3 h4
  · exact ⟨le_refl _, Or.inl rfl⟩
  · exact ⟨le_refl _, Or.inl rfl⟩
  · exact ⟨le_refl _, Or.inl rfl⟩
  · exact ⟨le_max_left _ _, Or.inr (le_max_right _ _)⟩
  · refine ⟨le_refl _, Or.inl ?_⟩
    exact hno _ _ _ _ (by simpa using h2)

/-- The attack step does not touch `max_xmove` or the position. -/
lemma update_rat_attack_max_xmove (b : building_t) (k : rat_consts_t) (camera_bs p1 : point)
    (st : update_state_t) :
    (b.update_rat_attack k camera_bs p1 st).max_xmove = st.max_xmove
    ∧ (b.update_rat_attack k camera_bs p1 st).rat.pos = st.rat.pos := by
  unfold building_t.update_rat_attack
  simp only []
  split_ifs <;> exact ⟨rfl, rfl⟩

/-- The hiding step does not touch `max_xmove` or the position. -/
lemma update_rat_hide_max_xmove (b : building_t) (k : rat_consts_t) (rats : vect_rat_t) (self_ix : Nat)
    (p1 : point) (timestep : ℚ) (fuel : Nat) (st st' : update_state_t)
    (h : b.update_rat_hide k rats self_ix p1 timestep fuel st = some st') :
    st'.max_xmove = st.max_xmove ∧ st'.rat.pos = st.rat.pos := by
  unfold building_t.update_rat_hide at h
  simp only [] at h
  split at h
  · exact Option.noConfusion h
  · split_ifs at h
    all_goals cases h
    all_goals exact ⟨rfl, rfl⟩

/-- The wander loop does not touch `max_xmove` or the position. -/
lemma wander_loop_max_xmove (b : building_t) (k : rat_consts_t) (p1 : point) (is_scared : Bool)
    (dub ms : ℚ) (remaining : Nat) :
    ∀ (n : Nat) (fov dist : ℚ) (st : update_state_t),
      (b.wander_loop k p1 is_scared dub ms remaining n fov dist st).1.max_xmove = st.max_xmove
      ∧ (b.wander_loop k p1 is_scared dub ms remaining n fov dist st).1.rat.pos = st.rat.pos := by
  induction remaining with
  | zero => intro n fov dist st; exact ⟨rfl, rfl⟩
  | succ j ih =>
    intro n fov dist st
    unfold building_t.wander_loop
    simp only []
    split
    · exact ih _ _ _ _
    · split_ifs
      all_goals first | exact ⟨rfl, rfl⟩ | exact ih _ _ _ _

/-- The rest-or-wander step does not touch `max_xmove` or the position. -/
lemma update_rat_wander_max_xmove (b : building_t) (k : rat_consts_t) (p1 : point)
    (is_scared newly_scared : Bool) (st st' : update_state_t)
    (h : b.update_rat_wander k p1 is_scared newly_scared st = some st') :
    st'.max_xmove = st.max_xmove ∧ st'.rat.pos = st.rat.pos := by
  have hs : ∀ s : update_state_t, (b.wander_search k p1 is_scared s).1.max_xmove = s.max_xmove
      ∧ (b.wander_search k p1 is_scared s).1.rat.pos = s.rat.pos := by
    intro s
    unfold building_t.wander_search
    exact wander_loop_max_xmove b k p1 is_scared _ _ 200 0 _ _ _
  unfold building_t.update_rat_wander at h
  simp only [] at h
  split_ifs at h
  all_goals cases h
  · exact ⟨rfl, rfl⟩
  · exact hs _
  · exact ⟨rfl, rfl⟩
  · exact hs _
  · exact ⟨rfl, rfl⟩

/-- The heading step never lowers `max_xmove`, and after it `max_xmove` bounds the move of
the agent along x in this step (the snap onto the hiding destination). -/
lemma update_rat_dir_max_xmove (b : building_t) (k : rat_consts_t) (timestep : ℚ) (is_scared : Bool)
    (st st' : update_state_t) (h : b.update_rat_dir k timestep is_scared st = some st') :
    st.max_xmove ≤ st'.max_xmove
    ∧ (st'.rat.pos = st.rat.pos ∨ |st'.rat.pos.x - st.rat.pos.x| ≤ st'.max_xmove) := by
  have hsnap : st.max_xmove ≤ (dir_snap k st).max_xmove
      ∧ ((dir_snap k st).rat.pos = st.rat.pos
        ∨ |(dir_snap k st).rat.pos.x - st.rat.pos.x| ≤ (dir_snap k st).max_xmove) := by
    unfold dir_snap
    split_ifs
    · refine ⟨le_max_left _ _, Or.inr ?_⟩
      show |st.rat.dest.x - st.rat.pos.x| ≤ max st.max_xmove |st.rat.pos.x - st.rat.dest.x|
      rw [abs_sub_comm]
      exact le_max_right _ _
    · exact ⟨le_refl _, Or.inl rfl⟩
  have hturn : ∀ (v : vector3d) (s : update_state_t),
      (b.dir_turn timestep is_scared v s).max_xmove = s.max_xmove
      ∧ (b.dir_turn timestep is_scared v s).rat.pos = s.rat.pos := by
    intro v s; unfold building_t.dir_turn; split_ifs <;> exact ⟨rfl, rfl⟩
  have hfix : ∀ s : update_state_t, (b.dir_fix s).max_xmove = s.max_xmove
      ∧ (b.dir_fix s).rat.pos = s.rat.pos := by
    intro s; unfold building_t.dir_fix; split_ifs <;> exact ⟨rfl, rfl⟩
  unfold building_t.update_rat_dir at h
  simp only [] at h
  split_ifs at h
  cases h
  rw [(hfix _).1, (hfix _).2, (hturn _ _).1, (hturn _ _).2]
  exact hsnap

/-- What `max_xmove` does bound after a call to `update_rat`: it is not lowered, and the
agent has moved along x by at most twice its value, the move of the collision step and the
move onto the hiding destination each being bounded by it. -/
lemma update_rat_max_xmove (b : building_t) (fuel : Nat) (rats : vect_rat_t) (self_ix : Nat)
    (camera_bs : point) (ped_ix : Int) (timestep : ℚ) (can_attack_player : Bool)
    (st st' : update_state_t) (h0 : 0 ≤ st.max_xmove)
    (hno : ∀ (pos : point) (r h : ℚ) (cam : point),
      (b.check_and_handle_dynamic_obj_coll pos r h cam).1 = false →
      (b.check_and_handle_dynamic_obj_coll pos r h cam).2 = pos)
    (hrun : b.update_rat fuel rats self_ix camera_bs ped_ix timestep can_attack_player st = some st') :
    st.max_xmove ≤ st'.max_xmove ∧ |st'.rat.pos.x - st.rat.pos.x| ≤ 2 * st'.max_xmove := by
  unfold building_t.update_rat at hrun
  simp only [] at hrun
  split_ifs at hrun with hw
  obtain ⟨st2, hscare, hrun⟩ := Option.bind_eq_some.mp hrun
  obtain ⟨st4, hhide, hrun⟩ := Option.bind_eq_some.mp hrun
  obtain ⟨st5, hwander, hdir⟩ := Option.bind_eq_some.mp hrun
  obtain ⟨hc1, hc2⟩ := update_rat_collision_max_xmove b (b.rat_consts st.rat timestep) camera_bs st.enter hno
  unfold building_t.update_rat_scare at hscare
  obtain ⟨r1, hr1, hst2⟩ := Option.map_eq_some'.mp hscare
  obtain ⟨r1', f, fp, np, hr1', hfr, -⟩ :=
    scare_rat_frame b (b.after_collision camera_bs timestep st).rat camera_bs ped_ix
  have e1 : r1' = r1 := Option.some.inj (hr1'.symm.trans hr1)
  rw [e1] at hfr
  have hmx2 : st2.max_xmove = (b.after_collision camera_bs timestep st).max_xmove := by
    rw [← hst2]
  have hpos2 : st2.rat.pos = (b.after_collision camera_bs timestep st).rat.pos := by
    rw [← hst2]
    show r1.pos = _
    rw [hfr]
  obtain ⟨ha1, ha2⟩ := update_rat_attack_max_xmove b (b.rat_consts st.rat timestep) camera_bs
    ((b.after_collision camera_bs timestep st).rat.pos.add (b.rat_consts st.rat timestep).center_dz) st2
  have h4 : st4.max_xmove = st2.max_xmove ∧ st4.rat.pos = st2.rat.pos := by
    split_ifs at hhide
    · obtain ⟨g1, g2⟩ := update_rat_hide_max_xmove b _ rats self_ix _ timestep fuel _ st4 hhide
      exact ⟨g1.trans ha1, g2.trans ha2⟩
    · cases hhide
      exact ⟨ha1, ha2⟩
  obtain ⟨hw1, hw2⟩ := update_rat_wander_max_xmove b _ _ _ _ st4 st5 hwander
  obtain ⟨hd1, hd2⟩ := update_rat_dir_max_xmove b _ _ _ st5 st' hdir
  have hmx5 : st5.max_xmove = (b.after_collision camera_bs timestep st).max_xmove :=
    hw1.trans (h4.1.trans hmx2)
  have hpos5 : st5.rat.pos = (b.after_collision camera_bs timestep st).rat.pos :=
    hw2.trans (h4.2.trans hpos2)
  have hc1' : st.max_xmove ≤ (b.after_collision camera_bs timestep st).max_xmove := hc1
  have hc2' : (b.after_collision camera_bs timestep st).rat.pos = st.rat.pos
      ∨ |(b.after_collision camera_bs timestep st).rat.pos.x - st.rat.pos.x|
        ≤ (b.after_collision camera_bs timestep st).max_xmove := hc2
  rw [hmx5] at hd1
  rw [hpos5] at hd2
  have hA : |(b.after_collision camera_bs timestep st).rat.pos.x - st.rat.pos.x|
      ≤ (b.after_collision camera_bs timestep st).max_xmove := by
    rcases hc2' with hc | hc
    · rw [hc, sub_self, abs_zero]
      exact le_trans h0 hc1'
    · exact hc
  have hB : |st'.rat.pos.x - (b.after_collision camera_bs timestep st).rat.pos.x| ≤ st'.max_xmove := by
    rcases hd2 with hd | hd
    · rw [hd, sub_self, abs_zero]
      exact le_trans h0 (le_trans hc1' hd1)
    · exact hd
  refine ⟨le_trans hc1' hd1, ?_⟩
  have hsum : st'.rat.pos.x - st.rat.pos.x
      = (st'.rat.pos.x - (b.after_collision camera_bs timestep st).rat.pos.x)
        + ((b.after_collision camera_bs timestep st).rat.pos.x - st.rat.pos.x) := by ring
  rw [hsum]
  have := abs_add (st'.rat.pos.x - (b.after_collision camera_bs timestep st).rat.pos.x)
    ((b.after_collision camera_bs timestep st).rat.pos.x - st.rat.pos.x)
  linarith

/-- C24 (the cached maximum displacement): `max_xmove` is reset to 0 after the sort, but it
does not bound the displacement since the sort.  In the building whose collision check
pushes by `1/200` along x, the scared agent enters the pass at `x = -1/100`, as sorted, with
its hiding destination at `x = 0`: the collision step moves it to `x = -1/200` and records
`1/200`, the heading step puts it on the destination and records `1/200` again, and the tick
ends with `max_xmove = 1/200` and the agent at `x = 0`, displaced by `1/100`. -/
theorem max_xmove_misses_two_moves :
    (demo_building_push.update_animals_head 0 demo_animals_pushed).1.rats.max_xmove = 0
    ∧ (demo_building_push.update_animals_head 0 demo_animals_pushed).1.rats.rats.map
        (fun r => r.pos.x) = [-1 / 100]
    ∧ (demo_building_push.after_collision ⟨50, 50, 0⟩ 1 (demo_state demo_rat_pushed)).rat.pos.x
        = -1 / 200
    ∧ (demo_building_push.after_collision ⟨50, 50, 0⟩ 1 (demo_state demo_rat_pushed)).max_xmove
        = 1 / 200
    ∧ demo_tick_pushed.map (fun s => (s.rats.max_xmove, s.rats.rats.map fun r => r.pos.x))
        = some (1 / 200, [0])
    ∧ ¬ ((1 / 200 : ℚ) ≥ |0 - -1 / 100|) := by
  refine ⟨by decide!, by decide!, by decide!, by decide!, by decide!, ?_⟩
  norm_num [abs_of_pos]

/-! ### The hiding spot chosen -/

/-- A candidate that leaves the neighbor loop without being skipped has a final score above
the best score so far (when that is not 0), if it entered the loop with one. -/
lemma nudge_loop_score (b : building_t) (k : rat_consts_t) (rat : rat_t) (p1 : point)
    (hide_area : cube_t) (top_gap dist_to_fear dist best_score : ℚ) (self_ix : Nat)
    (from_start : List rat_t) (start : Nat) (coll_x2 : ℚ) :
    ∀ (fuel : Nat) (ns ns' : nudge_state_t),
      b.nudge_loop k rat p1 hide_area top_gap dist_to_fear dist best_score self_ix from_start start
        coll_x2 fuel ns = some ns' →
      ns'.skip = false → (best_score ≠ 0 → best_score < ns.score) →
      (best_score ≠ 0 → best_score < ns'.score) := by
  intro fuel
  induction fuel with
  | zero =>
    intro ns ns' h _ hj
    unfold building_t.nudge_loop at h
    split at h
    · cases h; exact hj
    · exact Option.noConfusion h
  | succ n ih =>
    intro ns ns' h hskip hj
    unfold building_t.nudge_loop at h
    split at h
    · cases h; exact hj
    · simp only [] at h
      split_ifs at h with h1 h2
      · cases h; exact Bool.noConfusion hskip
      · cases h; exact Bool.noConfusion hskip
      · exact ih _ _ h hskip (fun hb => lt_of_not_le fun hle => h2 ⟨hb, hle⟩)

/-- What one iteration of the loop over the hiding objects does to the best candidate so
far: it is kept, or it is replaced by the candidate of the object `c`, which then has passed
every test of the iteration and has a final score above the best score so far when that is
not 0; the loop is left after a replacement exactly when the candidate has the `x` and `y`
of the current destination. -/
lemma hide_step_cases (b : building_t) (k : rat_consts_t) (rats : vect_rat_t) (self_ix : Nat)
    (rat : rat_t) (p1 : point) (fuel : Nat) (c : room_object_t) (hs : hide_state_t)
    (res : hide_state_t × Bool) (h : b.hide_step k rats self_ix rat p1 fuel c hs = some res) :
    (res.1.best_dest = hs.best_dest ∧ res.1.best_score = hs.best_score)
    ∨ ∃ ns, b.hide_accepts k rats self_ix rat p1 fuel c hs.best_score ns
        ∧ (hs.best_score ≠ 0 → hs.best_score < ns.score)
        ∧ res.1.best_dest = ⟨ns.cand_dest.x, ns.cand_dest.y, rat.pos.z⟩
        ∧ res.1.best_score = ns.score
        ∧ res.2 = decide (ns.cand_dest.x = rat.dest.x ∧ ns.cand_dest.y = rat.dest.y) := by
  unfold building_t.hide_step at h
  simp only [] at h
  by_cases h1 : c.bc.z1 > rat.pos.z + k.height ∨ c.bc.z2 < rat.pos.z
  · rw [if_pos h1] at h; cases h; exact Or.inl ⟨rfl, rfl⟩
  rw [if_neg h1] at h
  by_cases h2 : c.is_cube = false
  · rw [if_pos h2] at h; cases h; exact Or.inl ⟨rfl, rfl⟩
  rw [if_neg h2] at h
  cases hch : b.can_hide_under c with
  | none => rw [hch] at h; cases h; exact Or.inl ⟨rfl, rfl⟩
  | some hide_area =>
    rw [hch] at h
    simp only [] at h
    by_cases h3 : hide_area.z1 - (p1.z + k.squish_hheight) < 0
    · rw [if_pos h3] at h; cases h; exact Or.inl ⟨rfl, rfl⟩
    rw [if_neg h3] at h
    by_cases h4 : ¬ dist_xy_less_than hide_area.get_cube_center p1 k.view_dist
    · rw [if_pos h4] at h; cases h; exact Or.inl ⟨rfl, rfl⟩
    rw [if_neg h4] at h
    by_cases h5 : b.m.p2p_dist p1 (b.hide_anchor k rat.rat_id c hide_area p1.z) < k.dist_thresh
    · rw [if_pos h5] at h
      by_cases h6 : b.check_line_coll_expand p1 (b.hide_anchor k rat.rat_id c hide_area p1.z)
          k.coll_radius k.squish_hheight = true
      · rw [if_pos h6] at h; cases h; exact Or.inl ⟨rfl, rfl⟩
      · rw [if_neg h6] at h; cases h; exact Or.inl ⟨rfl, rfl⟩
    rw [if_neg h5] at h
    by_cases h7 : hs.best_score ≠ 0 ∧ (1 / 2) * min hide_area.dx hide_area.dy - k.hlength
        - (1 / 2) * (hide_area.z1 - (p1.z + k.squish_hheight))
        + (2 / 10) * b.m.p2p_dist rat.fear_pos (b.hide_anchor k rat.rat_id c hide_area p1.z)
        - (1 / 10) * max (b.m.p2p_dist p1 (b.hide_anchor k rat.rat_id c hide_area p1.z))
            k.dist_thresh ≤ hs.best_score
    · rw [if_pos h7] at h; cases h; exact Or.inl ⟨rfl, rfl⟩
    rw [if_neg h7] at h
    by_cases h8 : b.check_line_coll_expand p1 (b.hide_anchor k rat.rat_id c hide_area p1.z)
        k.coll_radius k.squish_hheight = true
    · rw [if_pos h8] at h; cases h; exact Or.inl ⟨rfl, rfl⟩
    rw [if_neg h8] at h
    obtain ⟨ns, hns, hres⟩ := Option.map_eq_some'.mp h
    rw [← hres]
    by_cases h9 : ns.skip = true
    · rw [if_pos h9]; exact Or.inl ⟨rfl, rfl⟩
    rw [if_neg h9]
    by_cases h10 : ns.tot_mdist > 0 ∧ b.is_rat_inside_building ns.cand_dest k.xy_pad k.hheight = false
    · rw [if_pos h10]; exact Or.inl ⟨rfl, rfl⟩
    rw [if_neg h10]
    have hskip : ns.skip = false := by
      cases hs9 : ns.skip with
      | true => exact absurd hs9 h9
      | false => rfl
    have hcube : c.is_cube = true := by
      cases hc : c.is_cube with
      | true => rfl
      | false => exact absurd hc h2
    have hline : b.check_line_coll_expand p1 (b.hide_anchor k rat.rat_id c hide_area p1.z)
        k.coll_radius k.squish_hheight = false := by
      cases hl : b.check_line_coll_expand p1 (b.hide_anchor k rat.rat_id c hide_area p1.z)
          k.coll_radius k.squish_hheight with
      | true => exact absurd hl h8
      | false => rfl
    refine Or.inr ⟨ns, ⟨h1, hcube, hide_area, hch, h3, not_not.mp h4, h5, h7, hline, hns, hskip, h10⟩,
      ?_, rfl, rfl, rfl⟩
    unfold building_t.resolve_conflicts at hns
    simp only [] at hns
    exact nudge_loop_score b k rat p1 hide_area _ _ _ hs.best_score self_ix _ _ _ fuel _ ns hns hskip
      (fun hb => lt_of_not_le fun hle => h7 ⟨hb, hle⟩)

/-- The best candidate after the loop over the hiding objects is the one before the loop, or
the candidate of one of the objects, which passed every test of its iteration against the
best score held then. -/
lemma hide_loop_winner (b : building_t) (k : rat_consts_t) (rats : vect_rat_t) (self_ix : Nat)
    (rat : rat_t) (p1 : point) (fuel : Nat) (objs : List room_object_t) :
    ∀ hs hs' : hide_state_t, b.hide_loop k rats self_ix rat p1 fuel objs hs = some hs' →
      (hs'.best_dest = hs.best_dest ∧ hs'.best_score = hs.best_score)
      ∨ ∃ c ∈ objs, ∃ best ns, b.hide_accepts k rats self_ix rat p1 fuel c best ns
          ∧ (best ≠ 0 → best < ns.score)
          ∧ hs'.best_dest = ⟨ns.cand_dest.x, ns.cand_dest.y, rat.pos.z⟩
          ∧ hs'.best_score = ns.score := by
  induction objs with
  | nil => intro hs hs' h; cases h; exact Or.inl ⟨rfl, rfl⟩
  | cons c cs ih =>
    intro hs hs' h
    unfold building_t.hide_loop at h
    cases hst : b.hide_step k rats self_ix rat p1 fuel c hs with
    | none => rw [hst] at h; exact Option.noConfusion h
    | some res =>
      rw [hst] at h
      have hc := hide_step_cases b k rats self_ix rat p1 fuel c hs res hst
      obtain ⟨hs1, brk⟩ := res
      cases brk with
      | true =>
        cases h
        rcases hc with hc | ⟨ns, ha, hlt, hd, hsc, _⟩
        · exact Or.inl hc
        · exact Or.inr ⟨c, List.mem_cons_self _ _, hs.best_score, ns, ha, hlt, hd, hsc⟩
      | false =>
        rcases ih hs1 hs' h with hk | ⟨c', hmem, best, ns, ha, hlt, hd, hsc⟩
        · rcases hc with hc | ⟨ns, ha, hlt, hd, hsc, _⟩
          · exact Or.inl ⟨hk.1.trans hc.1, hk.2.trans hc.2⟩
          · exact Or.inr ⟨c, List.mem_cons_self _ _, hs.best_score, ns, ha, hlt,
              hk.1.trans hd, hk.2.trans hsc⟩
        · exact Or.inr ⟨c', List.mem_cons_of_mem _ hmem, best, ns, ha, hlt, hd, hsc⟩

/-- Once the loop over the hiding objects holds a positive best score, the best score does
not decrease. -/
lemma hide_loop_score_mono (b : building_t) (k : rat_consts_t) (rats : vect_rat_t) (self_ix : Nat)
    (rat : rat_t) (p1 : point) (fuel : Nat) (objs : List room_object_t) :
    ∀ hs hs' : hide_state_t, b.hide_loop k rats self_ix rat p1 fuel objs hs = some hs' →
      0 < hs.best_score → hs.best_score ≤ hs'.best_score := by
  induction objs with
  | nil => intro hs hs' h _; cases h; exact le_refl _
  | cons c cs ih =>
    intro hs hs' h hpos
    unfold building_t.hide_loop at h
    cases hst : b.hide_step k rats self_ix rat p1 fuel c hs with
    | none => rw [hst] at h; exact Option.noConfusion h
    | some res =>
      rw [hst] at h
      have hc := hide_step_cases b k rats self_ix rat p1 fuel c hs res hst
      have hstep : hs.best_score ≤ res.1.best_score := by
        rcases hc with hc | ⟨ns, _, hlt, _, hsc, _⟩
        · exact le_of_eq hc.2.symm
        · rw [hsc]; exact le_of_lt (hlt (ne_of_gt hpos))
      obtain ⟨hs1, brk⟩ := res
      cases brk with
      | true => cases h; exact hstep
      | false => exact le_trans hstep (ih hs1 hs' h (lt_of_lt_of_le hpos hstep))

/-- C25 (the hiding spot chosen), as the code has it: the hiding search of `update_rat`
returns with the variables `hs` of its loop over the hiding objects.  A destination is
assigned exactly when no anchor within the stopping distance was found and the best score is
not 0 (a best score of exactly 0 counts as "none"); it is then the best candidate, and the
speed is 0 when the agent is within the stopping distance of it and the fear speed
otherwise.  A best candidate with a score other than 0 is the candidate of one of the
hiding objects, which passed every test of its iteration and whose final score was above
the best score held when it was examined (if that was not 0).  It need not have the highest
score of all candidates.  The rules of the loop are: an iteration keeps the best candidate or
replaces it by a candidate that passed the tests, with a final score above the best score
held if that is not 0, and asks to leave the loop exactly when the new candidate has the
`x` and `y` of the current destination; the objects after an iteration that leaves the loop
are not examined; and once a positive best score is held, the best score does not
decrease. -/
theorem hiding_search_choice (b : building_t) (k : rat_consts_t) (rats : vect_rat_t) (self_ix : Nat)
    (p1 : point) (timestep : ℚ) (fuel : Nat) (st st' : update_state_t)
    (h : b.update_rat_hide k rats self_ix p1 timestep fuel st = some st') :
    (∃ hs, b.hide_loop k { rats with rats := rats.rats.set self_ix { st.rat with wake_time := 0 }
                                     max_xmove := st.max_xmove }
        self_ix { st.rat with wake_time := 0 } p1 fuel
        (b.room_objs_on_ground_floor (st.rat.pos.z + k.height))
        { best_dest := zero_vector, best_score := 0, has_fear_dest := st.has_fear_dest
          update_path := st.update_path, speed := st.rat.speed } = some hs
      ∧ (hs.has_fear_dest = false ∧ hs.best_score ≠ 0 →
          st'.rat.dest = hs.best_dest ∧ st'.has_fear_dest = true
          ∧ st'.rat.speed = if dist_less_than st.rat.pos hs.best_dest k.dist_thresh then 0
              else RAT_FEAR_SPEED * b.rat_speed)
      ∧ (¬ (hs.has_fear_dest = false ∧ hs.best_score ≠ 0) →
          st'.rat.dest = st.rat.dest ∧ st'.has_fear_dest = hs.has_fear_dest)
      ∧ (hs.best_score ≠ 0 →
          ∃ c ∈ b.room_objs_on_ground_floor (st.rat.pos.z + k.height), ∃ best ns,
            b.hide_accepts k { rats with rats := rats.rats.set self_ix { st.rat with wake_time := 0 }
                                         max_xmove := st.max_xmove }
              self_ix { st.rat with wake_time := 0 } p1 fuel c best ns
            ∧ (best ≠ 0 → best < ns.score)
            ∧ hs.best_dest = ⟨ns.cand_dest.x, ns.cand_dest.y, st.rat.pos.z⟩
            ∧ hs.best_score = ns.score))
    ∧ (∀ (view : vect_rat_t) (rat : rat_t) (c : room_object_t) (hs : hide_state_t)
        (res : hide_state_t × Bool), b.hide_step k view self_ix rat p1 fuel c hs = some res →
        (res.1.best_dest = hs.best_dest ∧ res.1.best_score = hs.best_score)
        ∨ ∃ ns, b.hide_accepts k view self_ix rat p1 fuel c hs.best_score ns
            ∧ (hs.best_score ≠ 0 → hs.best_score < ns.score)
            ∧ res.1.best_dest = ⟨ns.cand_dest.x, ns.cand_dest.y, rat.pos.z⟩
            ∧ res.1.best_score = ns.score
            ∧ res.2 = decide (ns.cand_dest.x = rat.dest.x ∧ ns.cand_dest.y = rat.dest.y))
    ∧ (∀ (view : vect_rat_t) (rat : rat_t) (c : room_object_t) (cs : List room_object_t)
        (hs hs1 : hide_state_t), b.hide_step k view self_ix rat p1 fuel c hs = some (hs1, true) →
        b.hide_loop k view self_ix rat p1 fuel (c :: cs) hs = some hs1)
    ∧ (∀ (view : vect_rat_t) (rat : rat_t) (objs : List room_object_t) (hs hs' : hide_state_t),
        b.hide_loop k view self_ix rat p1 fuel objs hs = some hs' →
        0 < hs.best_score → hs.best_score ≤ hs'.best_score) := by
  refine ⟨?_, fun view rat c hs res hst => hide_step_cases b k view self_ix rat p1 fuel c hs res hst,
    fun view rat c cs hs hs1 hst => by unfold building_t.hide_loop; rw [hst],
    fun view rat objs hs hs' hl hpos => hide_loop_score_mono b k view self_ix rat p1 fuel objs hs hs' hl hpos⟩
  unfold building_t.update_rat_hide at h
  simp only [] at h
  cases hl : b.hide_loop k { rats with rats := rats.rats.set self_ix { st.rat with wake_time := 0 }
                                       max_xmove := st.max_xmove }
      self_ix { st.rat with wake_time := 0 } p1 fuel
      (b.room_objs_on_ground_floor (st.rat.pos.z + k.height))
      { best_dest := zero_vector, best_score := 0, has_fear_dest := st.has_fear_dest
        update_path := st.update_path, speed := st.rat.speed } with
  | none => rw [hl] at h; exact Option.noConfusion h
  | some hs =>
    rw [hl] at h
    simp only [] at h
    refine ⟨hs, rfl, ?_, ?_, ?_⟩
    · intro hc
      rw [if_pos hc] at h
      split_ifs at h with h1 h2
      all_goals cases h
      all_goals first
        | exact ⟨rfl, rfl, (if_pos h1).symm⟩
        | exact ⟨rfl, rfl, (if_neg h1).symm⟩
    · intro hc
      rw [if_neg hc] at h
      cases h
      exact ⟨rfl, rfl⟩
    · intro hne
      rcases hide_loop_winner b k _ self_ix _ p1 fuel _ _ hs hl with hk | hw
      · exact absurd hk.2 hne
      · exact hw

/-- The agent between the two tables: the hiding search returns, with a best score other
than 0 and no anchor within the stopping distance, and assigns the best candidate. -/
theorem hiding_search_choice_witness :
    ∃ (st' : update_state_t) (hs : hide_state_t), demo_hide_two_tables = some st' ∧ hs.has_fear_dest = false ∧ hs.best_score ≠ 0
      ∧ st'.rat.dest = hs.best_dest ∧ st'.has_fear_dest = true := by
  have hrun : demo_hide_two_tables = some (demo_hide_two_tables.get (by decide!)) :=
    (Option.some_get (by decide!)).symm
  obtain ⟨⟨hs, hl, hA, -, -⟩, -⟩ := hiding_search_choice demo_building_two_tables
    (demo_building_two_tables.rat_consts demo_rat_between 1) (demo_rats demo_rat_between) 0
    ⟨0, 0, 0⟩ 1 10 (demo_state demo_rat_between) _ hrun
  have e : hs = { best_dest := ⟨12377 / 6250, 317 / 25000, 0⟩
                  best_score := 742395316735983 / 6250000000000000
                  has_fear_dest := false, update_path := false, speed := 0 } :=
    Option.some.inj (hl.symm.trans (by decide!))
  have hc : hs.has_fear_dest = false ∧ hs.best_score ≠ 0 := by
    rw [e]
    decide!
  exact ⟨_, hs, hrun, hc.1, hc.2, (hA hc).1, (hA hc).2.1⟩

/-- C25 as stated fails: the agent at the origin has as its current destination its anchor
under the small table, which is listed first.  Each table alone is accepted by the search,
the small one with the score 0.1188 and the large one with 1.1982; with both tables the
search stops at the small one, because its candidate is the current destination, and
`update_rat` ends with the destination under the small table, the lower-scoring of the two. -/
theorem best_hiding_spot_counterexample :
    (demo_building_two_tables.hide_loop (demo_building_two_tables.rat_consts demo_rat_between 1)
        (demo_rats demo_rat_between) 0 demo_rat_between ⟨0, 0, 0⟩ 10 [demo_table_small]
        demo_hide_start).map (fun hs => (hs.best_dest, hs.best_score))
      = some (⟨12377 / 6250, 317 / 25000, 0⟩, 742395316735983 / 6250000000000000)
    ∧ (demo_building_two_tables.hide_loop (demo_building_two_tables.rat_consts demo_rat_between 1)
        (demo_rats demo_rat_between) 0 demo_rat_between ⟨0, 0, 0⟩ 10 [demo_table_large]
        demo_hide_start).map (fun hs => (hs.best_dest, hs.best_score))
      = some (⟨-3491 / 1000, -103 / 500, 0⟩, 2396497581081 / 2000000000000)
    ∧ (742395316735983 / 6250000000000000 : ℚ) < 2396497581081 / 2000000000000
    ∧ demo_building_two_tables.room_objs_on_ground_floor 0 = [demo_table_small, demo_table_large]
    ∧ demo_run_two_tables.map (fun st => (st.rat.pos, st.rat.dest, st.rat.fear))
      = some (⟨0, 0, 0⟩, ⟨12377 / 6250, 317 / 25000, 0⟩, 99 / 200) :=
  ⟨by decide!, by decide!, by norm_num, rfl, by decide!⟩

/-! ### The count of the first placement -/

/-- The placement loop adds at most one agent per iteration. -/
lemma place_rats_length (b : building_t) (n : Nat) :
    ∀ (rgen : rand_gen_t) (v : vect_rat_t),
      v.rats.length ≤ (b.place_rats n rgen v).rats.length
      ∧ (b.place_rats n rgen v).rats.length ≤ v.rats.length + n := by
  induction n with
  | zero => intro rgen v; exact ⟨le_refl _, le_refl _⟩
  | succ n ih =>
    intro rgen v
    have hadd : ∀ r : rat_t, (v.add r).rats.length = v.rats.length + 1 := by
      intro r
      unfold vect_rat_t.add
      simp
    unfold building_t.place_rats
    simp only []
    split_ifs
    all_goals
      exact ⟨le_trans (by first | exact le_refl _ | (rw [hadd]; omega)) (ih _ _).1,
        le_trans (ih _ _).2 (by first | omega | (rw [hadd]; omega))⟩

/-- The count of the first placement for a range `num_rats_min ≤ num_rats_max` of 32-bit
values other than the full range: the divisor is `max - min + 1`, not 0, and the count lies
in `[min, max]`. -/
lemma num_rats_bounds (b : building_t) (draw : Nat) (hle : b.num_rats_min ≤ b.num_rats_max)
    (hmax : b.num_rats_max < 2 ^ 32)
    (hnot : ¬ (b.num_rats_min = 0 ∧ b.num_rats_max = 2 ^ 32 - 1)) :
    b.num_rats_modulus = b.num_rats_max - b.num_rats_min + 1 ∧ b.num_rats_modulus ≠ 0
    ∧ b.num_rats_min ≤ b.num_rats draw ∧ b.num_rats draw ≤ b.num_rats_max := by
  have h1 : b.num_rats_min % 2 ^ 32 = b.num_rats_min := Nat.mod_eq_of_lt (by omega)
  have h2 : b.num_rats_max % 2 ^ 32 = b.num_rats_max := Nat.mod_eq_of_lt hmax
  have hm : b.num_rats_modulus = b.num_rats_max - b.num_rats_min + 1 := by
    unfold building_t.num_rats_modulus
    rw [h1, h2]
    omega
  refine ⟨hm, by rw [hm]; omega, ?_⟩
  unfold building_t.num_rats
  simp only []
  rw [h1, h2, hm]
  split_ifs with he
  · omega
  · have h3 : draw % 2 ^ 32 % (b.num_rats_max - b.num_rats_min + 1) < b.num_rats_max - b.num_rats_min + 1 :=
      Nat.mod_lt _ (by omega)
    rw [Nat.mod_eq_of_lt (by omega)]
    omega

/-- C30 (the count of the first placement) fails for the full 32-bit range: with
`num_rats_min = 0` and `num_rats_max = 4294967295` the bounds differ and the divisor
`rmax - rmin + 1` of line 122 is 0 in 32-bit unsigned arithmetic, so the count is a
remainder by zero and the first tick of a building does not return a state. -/
theorem bootstrap_count_full_range :
    demo_building_full_range.num_rats_min ≤ demo_building_full_range.num_rats_max
    ∧ demo_building_full_range.num_rats_max < 2 ^ 32
    ∧ demo_building_full_range.num_rats_min % 2 ^ 32 ≠ demo_building_full_range.num_rats_max % 2 ^ 32
    ∧ demo_building_full_range.num_rats_modulus = 0
    ∧ demo_building_full_range.count_traps vect_rat_t.empty = true
    ∧ (demo_building_full_range.update_animals 10 ⟨50, 50, 0⟩ 0 (-1)
        (demo_animals vect_rat_t.empty)).isNone = true := by
  decide!

/-- The first placement marks the container as placed, whatever the number of agents
created, and creates at most as many agents as the count drawn. -/
lemma bootstrap_spec (b : building_t) (building_ix : Nat) (rats : vect_rat_t) :
    (b.bootstrap building_ix rats).placed = true
    ∧ (b.bootstrap building_ix rats).rats.length
      ≤ rats.rats.length
        + b.num_rats (b.rf.rand (rand_gen_t.set_state (building_ix + 1) (b.mat_ix + 1))).1 := by
  exact ⟨rfl, (place_rats_length b _ _ rats).2⟩

end Rats
